import Mathlib

/-!
# ShaderVariantAssetBuilder2: job-graph construction and job dispatch

A shallow embedding of
`Gems/Atom/Asset/Shader/Code/Source/Editor/ShaderVariantAssetBuilder2.cpp`.

Conventions of the embedding:

* `AZStd::string` is `String`, one `Char` per C++ `char`; `size()` is `String.length`.
* A parameter passed by non-const reference is passed in and returned.
* Constants and helpers that the file uses but does not define (job keys, job parameter
  keys, path utilities, bus queries, file-system queries, JSON helpers) are fields of
  `BuilderConstants` and `BuilderEnv`; every result holds for all their values unless a
  hypothesis says otherwise.
* Logging (`AZ_TracePrintf`, `AZ_Error`) has no effect on the state, but the evaluation of its
  arguments is kept where an argument can fault.
* Behaviour that is undefined in C++ (a map lookup with `at` on an absent key, a `substr`
  offset past the end) is an explicit `Fault`.
* `push_back` on a vector appends at the end of a `List`.
-/

namespace ShaderVariantAssetBuilder2

/-! ## Data model -/

/-- The faults the embedded code can run into. -/
inductive Fault where
  | keyNotFound (key : String)
  | invalidOffset (offset size : Nat)
  | nullDereference
  | noValueInOutcome
  deriving DecidableEq, Repr

/-- The modulus of `size_t` arithmetic. -/
def sizeModulus : Nat := 2 ^ 64

/-- Subtraction of two `size_t` values, wrapping around. -/
def sizeSub (a b : Nat) : Nat := (a % sizeModulus + sizeModulus - b % sizeModulus) % sizeModulus

/-- Addition of two `size_t` values, wrapping around. -/
def sizeAdd (a b : Nat) : Nat := (a + b) % sizeModulus

/-- Embeds `AZStd::string::substr(offset, count)`: the offset must not exceed the size. -/
def substr (s : String) (offset count : Nat) : Except Fault String :=
  if offset ≤ s.length then .ok (String.mk ((s.data.drop offset).take count))
  else .error (.invalidOffset offset s.length)

/-- Embeds `AssetBuilderSDK::JobParameterMap`, as an association list with unique keys. -/
abbrev JobParameterMap := List (String × String)

/-- Embeds `jobParameters.find(key)`: `none` stands for `end()`. -/
def JobParameterMap.find (m : JobParameterMap) (key : String) : Option String :=
  List.lookup key m

/-- Embeds `jobParameters.emplace(key, value)`: inserts only when the key is absent. -/
def JobParameterMap.emplace (m : JobParameterMap) (key value : String) : JobParameterMap :=
  match JobParameterMap.find m key with
  | some _ => m
  | none => m ++ [(key, value)]

/-- Embeds `jobParameters.at(key)`: the key must be present. -/
def JobParameterMap.atKey (m : JobParameterMap) (key : String) : Except Fault String :=
  match JobParameterMap.find m key with
  | some value => .ok value
  | none => .error (.keyNotFound key)

/-- Embeds `AssetBuilderSDK::PlatformInfo` (the identifier is the only field read here). -/
structure PlatformInfo where
  m_identifier : String
  deriving DecidableEq, Repr

/-- Embeds `AssetBuilderSDK::SourceFileDependency`. -/
structure SourceFileDependency where
  m_sourceFileDependencyPath : String
  deriving DecidableEq, Repr

/-- Embeds `AssetBuilderSDK::JobDependencyType`. -/
inductive JobDependencyType where
  | Fingerprint
  | Order
  | OrderOnce
  deriving DecidableEq, Repr

/-- Embeds `AssetBuilderSDK::JobDependency`. -/
structure JobDependency where
  m_jobKey : String
  m_platformIdentifier : String
  m_type : JobDependencyType
  m_sourceFile : SourceFileDependency
  deriving DecidableEq, Repr

/-- Embeds `AssetBuilderSDK::JobDescriptor`, with the fields this builder writes. -/
structure JobDescriptor where
  m_priority : Int
  m_critical : Bool
  m_jobKey : String
  m_platformIdentifier : String
  m_jobDependencyList : List JobDependency
  m_jobParameters : JobParameterMap
  deriving DecidableEq, Repr

/-- Embeds `AssetBuilderSDK::CreateJobsResultCode`. -/
inductive CreateJobsResultCode where
  | Failed
  | ShuttingDown
  | Success
  deriving DecidableEq, Repr

/-- Embeds `AssetBuilderSDK::CreateJobsRequest`. -/
structure CreateJobsRequest where
  m_watchFolder : String
  m_sourceFile : String
  m_enabledPlatforms : List PlatformInfo
  deriving DecidableEq, Repr

/-- Embeds `AssetBuilderSDK::CreateJobsResponse`. -/
structure CreateJobsResponse where
  m_result : CreateJobsResultCode
  m_createJobOutputs : List JobDescriptor
  deriving DecidableEq, Repr

/-- Embeds `AssetBuilderSDK::JobProduct`. -/
structure JobProduct where
  m_productFileName : String
  m_productSubID : Nat
  m_productAssetType : String
  m_dependenciesHandled : Bool
  deriving DecidableEq, Repr

/-- Embeds `AssetBuilderSDK::ProcessJobResultCode`. -/
inductive ProcessJobResultCode where
  | Success
  | Failed
  | Crashed
  | Cancelled
  | NetworkIssue
  deriving DecidableEq, Repr

/-- Embeds `AssetBuilderSDK::ProcessJobRequest`. -/
structure ProcessJobRequest where
  m_jobDescription : JobDescriptor
  m_jobId : Nat
  m_watchFolder : String
  m_sourceFile : String
  m_tempDirPath : String
  m_platformInfo : PlatformInfo
  deriving DecidableEq, Repr

/-- Embeds `AssetBuilderSDK::ProcessJobResponse`. -/
structure ProcessJobResponse where
  m_resultCode : ProcessJobResultCode
  m_outputProducts : List JobProduct
  deriving DecidableEq, Repr

/-- Embeds `RPI::ShaderVariantListSourceData::VariantInfo`: a stable id and the option/value pairs
in iteration order. -/
structure VariantInfo where
  m_stableId : Nat
  m_options : List (String × String)
  deriving DecidableEq, Repr

/-- Embeds `RPI::ShaderVariantListSourceData`; the defaults are the default-constructed object. -/
structure ShaderVariantListSourceData where
  m_shaderFilePath : String := ""
  m_shaderVariants : List VariantInfo := []
  deriving DecidableEq, Repr

/-- Embeds `LoadResult2::Code`. -/
inductive LoadResult2.Code where
  | Error
  | DeferredError
  | Success
  deriving DecidableEq, Repr

/-- Embeds `LoadResult2`: the deferred message is only used when the code is `DeferredError`. -/
structure LoadResult2 where
  m_code : LoadResult2.Code
  m_deferredMessage : String := ""
  deriving DecidableEq, Repr

/-- The constants declared outside the source file (headers of the builders and of the
RPI): job keys, job parameter keys, the variant-list extension and the override folder. -/
structure BuilderConstants where
  ShaderAssetBuilder2JobKey : String
  ShaderVariantAssetBuilder2JobKey : String
  GetShaderVariantTreeAssetJobKey : String
  GetShaderVariantAssetJobKey : Nat → String
  ShaderVariantLoadErrorParam : String
  ShouldExitEarlyFromProcessJobParam : String
  ShaderSourceFilePathJobParam : String
  ShaderVariantJobVariantParam : String
  Extension : String
  CommonSubFolder : String

/-- The collaborators the source file calls and does not define. -/
structure BuilderEnv where
  /-- Embeds `AzFramework::StringFunc::Path::ConstructFull(root, file, out, normalize)`. -/
  ConstructFull : String → String → Bool → String
  /-- Embeds `RPI::JsonUtils::LoadObjectFromFile`: `none` is a parse failure. -/
  LoadObjectFromFile : String → Option ShaderVariantListSourceData
  /-- Embeds `AZ::RPI::AssetUtils::ResolvePathReference(originating, referenced)`. -/
  ResolvePathReference : String → String → String
  /-- Embeds `AZ::IO::LocalFileIO::GetInstance()->Exists(path)`. -/
  LocalFileExists : String → Bool
  /-- Embeds `IO::FileIOBase::GetInstance()->Exists(path)`. -/
  FileBaseExists : String → Bool
  /-- The bus query `GetAssetSafeFolders`: the success flag and the scan folders. -/
  GetAssetSafeFolders : Bool × List String
  /-- The bus query `GetAbsoluteDevGameFolderPath`. -/
  GetAbsoluteDevGameFolderPath : String
  /-- The bus query `GetSourceInfoBySourcePath(path, ..)`: whether the source is known. -/
  GetSourceInfoBySourcePath : String → Bool
  /-- Embeds `AzFramework::StringFunc::Path::Normalize`. -/
  Normalize : String → String
  /-- Embeds `AZ::StringFunc::StartsWith(source, start)`. -/
  StartsWith : String → String → Bool
  /-- Embeds `AzFramework::StringFunc::Path::ReplaceExtension(path, extension)`. -/
  ReplaceExtension : String → String → String
  /-- Embeds `AzFramework::StringFunc::Path::StripExtension`. -/
  StripExtension : String → String
  /-- Embeds `AzFramework::StringFunc::Path::Join(first, second, out, overlap, caseInsensitive)`. -/
  Join : String → String → Bool → Bool → String
  /-- Embeds `StringFunc::Equal(a, b, caseSensitive)`. -/
  Equal : String → String → Bool → Bool
  /-- The platform trait `AZ_TRAIT_OS_USE_WINDOWS_FILE_PATHS`. -/
  AZ_TRAIT_OS_USE_WINDOWS_FILE_PATHS : Bool
  /-- Embeds `RPI::ShaderVariantTreeAssetCreator::ValidateStableIdsAreUnique(..).IsSuccess()`. -/
  ValidateStableIdsAreUnique : List VariantInfo → Bool
  /-- Embeds `AZ::RPI::AssetUtils::GetPossibleDepenencyPaths(originating, referenced)`. -/
  GetPossibleDepenencyPaths : String → String → List String
  /-- Embeds `AZ::RPI::JsonUtils::SaveObjectToJsonString(variantInfo, out)`: flag and text. -/
  SaveObjectToJsonString : VariantInfo → Bool × String

/-! ## Job dependencies on the shader asset builder -/

/-- Embeds `AddShaderAssetJobDependency2` (lines 70-85): one `Order` dependency on the shader asset
job per possible dependency path, appended to the descriptor. -/
def AddShaderAssetJobDependency2 (c : BuilderConstants) (env : BuilderEnv)
    (jobDescriptor : JobDescriptor) (platformInfo : PlatformInfo)
    (shaderVariantListFilePath shaderFilePath : String) : JobDescriptor :=
  let possibleDependencies := env.GetPossibleDepenencyPaths shaderVariantListFilePath shaderFilePath
  possibleDependencies.foldl
    (fun jobDescriptor file =>
      let jobDependency : JobDependency :=
        { m_jobKey := c.ShaderAssetBuilder2JobKey
          m_platformIdentifier := platformInfo.m_identifier
          m_type := JobDependencyType.Order
          m_sourceFile := { m_sourceFileDependencyPath := file } }
      { jobDescriptor with
        m_jobDependencyList := jobDescriptor.m_jobDependencyList ++ [jobDependency] })
    jobDescriptor

/-! ## Location of the variant list -/

/-- The loop of `SplitSourceAssetPathIntoScanFolderFullPathAndRelativeFilePath2`
(lines 103-117) over the scan folders still to visit. -/
def SplitSourceAssetPathLoop (env : BuilderEnv) (sourceFileFullPath : String) :
    List String → String → String → Except Fault (Bool × String × String)
  | [], scanFolderFullPath, filePathFromScanFolder =>
    .ok (false, scanFolderFullPath, filePathFromScanFolder)
  | scanFolder :: rest, scanFolderFullPath, filePathFromScanFolder =>
    let scanFolder := env.Normalize scanFolder
    if !env.StartsWith sourceFileFullPath scanFolder then
      SplitSourceAssetPathLoop env sourceFileFullPath rest scanFolderFullPath
        filePathFromScanFolder
    else
      let scanFolderSize := scanFolder.length
      let sourcePathSize := sourceFileFullPath.length
      match substr sourceFileFullPath (sizeAdd scanFolderSize 1)
          (sizeSub (sizeSub sourcePathSize scanFolderSize) 1) with
      | .error e => .error e
      | .ok filePath => .ok (true, scanFolder, filePath)

/-- Embeds `SplitSourceAssetPathIntoScanFolderFullPathAndRelativeFilePath2` (lines 92-118): the
returned triple is the result and the two output strings. -/
def SplitSourceAssetPathIntoScanFolderFullPathAndRelativeFilePath2 (env : BuilderEnv)
    (sourceFileFullPath scanFolderFullPath filePathFromScanFolder : String) :
    Except Fault (Bool × String × String) :=
  let (success, scanFolders) := env.GetAssetSafeFolders
  if !success then .ok (false, scanFolderFullPath, filePathFromScanFolder)
  else
    SplitSourceAssetPathLoop env sourceFileFullPath scanFolders scanFolderFullPath
      filePathFromScanFolder

/-- The higher-precedence location computed at lines 153-160 from the shader's path relative
to its scan folder. -/
def expectedHigherPrecedenceFileFullPath (c : BuilderConstants) (env : BuilderEnv)
    (shaderProductFileRelativePath : String) : String :=
  let gameProjectPath := env.GetAbsoluteDevGameFolderPath
  let expected := env.Join gameProjectPath c.CommonSubFolder false false
  let expected := env.Join expected shaderProductFileRelativePath false false
  let expected := env.ReplaceExtension expected c.Extension
  env.Normalize expected

/-- Embeds `ValidateShaderVariantListLocation2` (lines 138-214): the returned pair is the result and
`shouldExitEarlyFromProcessJob`. The local `shaderVariantListFileRelativePath` of lines
150-151 is never read and is left out. -/
def ValidateShaderVariantListLocation2 (c : BuilderConstants) (env : BuilderEnv)
    (shaderVariantListFileFullPath shaderFileFullPath : String)
    (shouldExitEarlyFromProcessJob : Bool) : Except Fault (Bool × Bool) :=
  match SplitSourceAssetPathIntoScanFolderFullPathAndRelativeFilePath2 env shaderFileFullPath
      "" "" with
  | .error e => .error e
  | .ok (false, _, _) => .ok (false, shouldExitEarlyFromProcessJob)
  | .ok (true, _, shaderProductFileRelativePath) =>
    let expected := expectedHigherPrecedenceFileFullPath c env shaderProductFileRelativePath
    let normalizedShaderVariantListFileFullPath := env.Normalize shaderVariantListFileFullPath
    if expected = normalizedShaderVariantListFileFullPath then
      .ok (true, false)
    else
      let foundHigherPrecedenceAsset := env.GetSourceInfoBySourcePath expected
      if foundHigherPrecedenceAsset then
        .ok (true, true)
      else
        let normalizedShaderFileFullPath := env.Normalize shaderFileFullPath
        let normalizedShaderFileFullPathWithoutExtension :=
          env.StripExtension normalizedShaderFileFullPath
        let normalizedShaderVariantListFileFullPathWithoutExtension :=
          env.StripExtension normalizedShaderVariantListFileFullPath
        let caseSensitive := !env.AZ_TRAIT_OS_USE_WINDOWS_FILE_PATHS
        if !env.Equal normalizedShaderFileFullPathWithoutExtension
            normalizedShaderVariantListFileFullPathWithoutExtension caseSensitive then
          .ok (false, shouldExitEarlyFromProcessJob)
        else
          .ok (true, false)

/-! ## Loading the variant list -/

/-- Embeds `LoadShaderVariantList2` (lines 232-274): the returned tuple is the load result, the
variant list, `shaderSourceFileFullPath` and `shouldExitEarlyFromProcessJob`. -/
def LoadShaderVariantList2 (c : BuilderConstants) (env : BuilderEnv)
    (variantListFullPath : String) (shaderVariantList : ShaderVariantListSourceData)
    (shaderSourceFileFullPath : String) (shouldExitEarlyFromProcessJob : Bool) :
    Except Fault (LoadResult2 × ShaderVariantListSourceData × String × Bool) :=
  match env.LoadObjectFromFile variantListFullPath with
  | none =>
    .ok ({ m_code := .Error }, shaderVariantList, shaderSourceFileFullPath,
      shouldExitEarlyFromProcessJob)
  | some shaderVariantList =>
    let resolvedShaderPath :=
      env.ResolvePathReference variantListFullPath shaderVariantList.m_shaderFilePath
    if !env.LocalFileExists resolvedShaderPath then
      .ok ({ m_code := .DeferredError
             m_deferredMessage := "The shader path [" ++ resolvedShaderPath ++ "] was not found." },
        shaderVariantList, shaderSourceFileFullPath, shouldExitEarlyFromProcessJob)
    else
      let shaderSourceFileFullPath := resolvedShaderPath
      match ValidateShaderVariantListLocation2 c env variantListFullPath
          shaderSourceFileFullPath shouldExitEarlyFromProcessJob with
      | .error e => .error e
      | .ok (false, shouldExitEarlyFromProcessJob) =>
        .ok ({ m_code := .Error }, shaderVariantList, shaderSourceFileFullPath,
          shouldExitEarlyFromProcessJob)
      | .ok (true, shouldExitEarlyFromProcessJob) =>
        if shouldExitEarlyFromProcessJob then
          .ok ({ m_code := .Success }, shaderVariantList, shaderSourceFileFullPath,
            shouldExitEarlyFromProcessJob)
        else if !env.ValidateStableIdsAreUnique shaderVariantList.m_shaderVariants then
          .ok ({ m_code := .Error }, shaderVariantList, shaderSourceFileFullPath,
            shouldExitEarlyFromProcessJob)
        else if !env.FileBaseExists shaderSourceFileFullPath then
          .ok ({ m_code := .DeferredError
                 m_deferredMessage :=
                   "ShaderSourceData file does not exist: " ++ shaderSourceFileFullPath ++ "." },
            shaderVariantList, shaderSourceFileFullPath, shouldExitEarlyFromProcessJob)
        else
          .ok ({ m_code := .Success }, shaderVariantList, shaderSourceFileFullPath,
            shouldExitEarlyFromProcessJob)

/-! ## Job-graph construction -/

/-- The descriptor built by one iteration of the loop of lines 296-322, which runs when the
load result is a deferred error or the list is superseded. -/
def dependencyOnlyJobDescriptor (c : BuilderConstants) (env : BuilderEnv)
    (loadResult : LoadResult2) (shouldExitEarlyFromProcessJob : Bool)
    (variantListFullPath : String) (shaderVariantList : ShaderVariantListSourceData)
    (info : PlatformInfo) : JobDescriptor :=
  let jobDescriptor : JobDescriptor :=
    { m_priority := -5000
      m_critical := false
      m_jobKey := c.ShaderVariantAssetBuilder2JobKey
      m_platformIdentifier := info.m_identifier
      m_jobDependencyList := []
      m_jobParameters := [] }
  let jobDescriptor := AddShaderAssetJobDependency2 c env jobDescriptor info variantListFullPath
    shaderVariantList.m_shaderFilePath
  let jobDescriptor :=
    if loadResult.m_code = LoadResult2.Code.DeferredError then
      { jobDescriptor with
        m_jobParameters := JobParameterMap.emplace jobDescriptor.m_jobParameters
          c.ShaderVariantLoadErrorParam loadResult.m_deferredMessage }
    else jobDescriptor
  let jobDescriptor :=
    if shouldExitEarlyFromProcessJob then
      { jobDescriptor with
        m_jobParameters := JobParameterMap.emplace jobDescriptor.m_jobParameters
          c.ShouldExitEarlyFromProcessJobParam variantListFullPath }
    else jobDescriptor
  jobDescriptor

/-- The descriptor of the tree job built at lines 332-347. -/
def treeJobDescriptor (c : BuilderConstants) (env : BuilderEnv)
    (variantListFullPath : String) (shaderVariantList : ShaderVariantListSourceData)
    (shaderSourceFileFullPath : String) (info : PlatformInfo) : JobDescriptor :=
  let jobDescriptor : JobDescriptor :=
    { m_priority := 1
      m_critical := false
      m_jobKey := c.GetShaderVariantTreeAssetJobKey
      m_platformIdentifier := info.m_identifier
      m_jobDependencyList := []
      m_jobParameters := [] }
  let jobDescriptor := AddShaderAssetJobDependency2 c env jobDescriptor info variantListFullPath
    shaderVariantList.m_shaderFilePath
  { jobDescriptor with
    m_jobParameters := JobParameterMap.emplace jobDescriptor.m_jobParameters
      c.ShaderSourceFilePathJobParam shaderSourceFileFullPath }

/-- The descriptor of one variant job built at lines 352-381. The success flag of
`SaveObjectToJsonString` is only asserted on, the text is used as it is. -/
def variantJobDescriptor (c : BuilderConstants) (env : BuilderEnv)
    (variantListFullPath : String) (shaderSourceFileFullPath : String) (info : PlatformInfo)
    (variantInfo : VariantInfo) : JobDescriptor :=
  let variantInfoAsJsonString := (env.SaveObjectToJsonString variantInfo).2
  let fileDependency : SourceFileDependency :=
    { m_sourceFileDependencyPath := variantListFullPath }
  let variantTreeJobDependency : JobDependency :=
    { m_jobKey := c.GetShaderVariantTreeAssetJobKey
      m_platformIdentifier := info.m_identifier
      m_sourceFile := fileDependency
      m_type := JobDependencyType.Order }
  let jobParameters : JobParameterMap := []
  let jobParameters :=
    JobParameterMap.emplace jobParameters c.ShaderVariantJobVariantParam variantInfoAsJsonString
  let jobParameters :=
    JobParameterMap.emplace jobParameters c.ShaderSourceFilePathJobParam shaderSourceFileFullPath
  { m_priority := -5000
    m_critical := false
    m_jobKey := c.GetShaderVariantAssetJobKey variantInfo.m_stableId
    m_platformIdentifier := info.m_identifier
    m_jobDependencyList := [variantTreeJobDependency]
    m_jobParameters := jobParameters }

/-- Embeds `response.m_createJobOutputs.push_back(jobDescriptor)`. -/
def CreateJobsResponse.push_back (response : CreateJobsResponse)
    (jobDescriptor : JobDescriptor) : CreateJobsResponse :=
  { response with m_createJobOutputs := response.m_createJobOutputs ++ [jobDescriptor] }

/-- Embeds `ShaderVariantAssetBuilder2::CreateJobs` (lines 276-386). -/
def CreateJobs (c : BuilderConstants) (env : BuilderEnv) (request : CreateJobsRequest)
    (response : CreateJobsResponse) : Except Fault CreateJobsResponse :=
  let variantListFullPath := env.ConstructFull request.m_watchFolder request.m_sourceFile true
  match LoadShaderVariantList2 c env variantListFullPath {} "" false with
  | .error e => .error e
  | .ok (loadResult, shaderVariantList, shaderSourceFileFullPath,
      shouldExitEarlyFromProcessJob) =>
    if loadResult.m_code = LoadResult2.Code.Error then
      .ok { response with m_result := CreateJobsResultCode.Failed }
    else if loadResult.m_code = LoadResult2.Code.DeferredError
        ∨ shouldExitEarlyFromProcessJob = true then
      let response := request.m_enabledPlatforms.foldl
        (fun response info =>
          response.push_back
            (dependencyOnlyJobDescriptor c env loadResult shouldExitEarlyFromProcessJob
              variantListFullPath shaderVariantList info))
        response
      .ok { response with m_result := CreateJobsResultCode.Success }
    else
      let response := request.m_enabledPlatforms.foldl
        (fun response info =>
          let response := response.push_back
            (treeJobDescriptor c env variantListFullPath shaderVariantList
              shaderSourceFileFullPath info)
          shaderVariantList.m_shaderVariants.foldl
            (fun response variantInfo =>
              response.push_back
                (variantJobDescriptor c env variantListFullPath shaderSourceFileFullPath info
                  variantInfo))
            response)
        response
      .ok { response with m_result := CreateJobsResultCode.Success }

/-- The jobs appended by the nested loops of lines 327-384: for each platform the tree job,
then one variant job per `VariantInfo`. -/
def normalJobs (c : BuilderConstants) (env : BuilderEnv) (variantListFullPath : String)
    (shaderVariantList : ShaderVariantListSourceData) (shaderSourceFileFullPath : String)
    (platforms : List PlatformInfo) : List JobDescriptor :=
  platforms.flatMap (fun info =>
    treeJobDescriptor c env variantListFullPath shaderVariantList shaderSourceFileFullPath info
      :: shaderVariantList.m_shaderVariants.map
          (variantJobDescriptor c env variantListFullPath shaderSourceFileFullPath info))

/-! ## Job dispatch -/

/-- Embeds `ShaderVariantAssetBuilder2::ProcessJob` (lines 388-421). `IsCancelled` is
`JobCancelListener(jobId).IsCancelled()`; the tree builder and the variant compiler are the
two member functions the job is handed to. The `at` lookups are the ones in the arguments
of the two log calls. -/
def ProcessJob (c : BuilderConstants) (IsCancelled : Nat → Bool)
    (ProcessShaderVariantTreeJob ProcessShaderVariantJob :
      ProcessJobRequest → ProcessJobResponse → Except Fault ProcessJobResponse)
    (request : ProcessJobRequest) (response : ProcessJobResponse) :
    Except Fault ProcessJobResponse :=
  let jobParameters := request.m_jobDescription.m_jobParameters
  if (JobParameterMap.find jobParameters c.ShaderVariantLoadErrorParam).isSome then
    match JobParameterMap.atKey jobParameters c.ShaderVariantLoadErrorParam with
    | .error e => .error e
    | .ok _ => .ok { response with m_resultCode := ProcessJobResultCode.Failed }
  else if (JobParameterMap.find jobParameters c.ShouldExitEarlyFromProcessJobParam).isSome then
    match JobParameterMap.atKey jobParameters c.ShaderVariantLoadErrorParam with
    | .error e => .error e
    | .ok _ => .ok { response with m_resultCode := ProcessJobResultCode.Success }
  else if IsCancelled request.m_jobId then
    .ok { response with m_resultCode := ProcessJobResultCode.Cancelled }
  else if request.m_jobDescription.m_jobKey = c.GetShaderVariantTreeAssetJobKey then
    ProcessShaderVariantTreeJob request response
  else
    ProcessShaderVariantJob request response

/-! ## Option resolution and variant creation -/

/-- The name of the builder used in its log lines (line 68). -/
def ShaderVariantAssetBuilder2Name : String := "ShaderVariantAssetBuilder2"

/-- Embeds `RPI::ShaderVariantId`: the key and the mask bit sets, read as naturals. -/
structure ShaderVariantId where
  m_key : Nat
  m_mask : Nat
  deriving DecidableEq, Repr

/-- Embeds `RPI::ShaderOptionGroup`, reduced to the id it builds; a group constructed from a
layout alone starts from the cleared id. -/
structure ShaderOptionGroup where
  m_id : ShaderVariantId := { m_key := 0, m_mask := 0 }
  deriving DecidableEq, Repr

/-- Embeds `optionGroup.GetShaderVariantId()`. -/
def ShaderOptionGroup.GetShaderVariantId (optionGroup : ShaderOptionGroup) : ShaderVariantId :=
  optionGroup.m_id

/-- The operations of `RPI::ShaderOptionGroupLayout` and of the `RPI::ShaderOptionDescriptor`
it hands out that the builder calls; both classes are declared outside the source file. A
null `ShaderOptionIndex` or `ShaderOptionValue` is `none`. -/
structure ShaderOptionGroupLayout where
  /-- Embeds `GetShaderOptionCount()`. -/
  GetShaderOptionCount : Nat
  /-- Embeds `FindShaderOptionIndex(optionName)`. -/
  FindShaderOptionIndex : String → Option Nat
  /-- Embeds `GetShaderOption(optionIndex).FindValue(valueName)`. -/
  FindValue : Nat → String → Option Nat
  /-- Embeds `GetShaderOption(optionIndex).Set(optionGroup, value)`, returning the group. -/
  Set : Nat → ShaderOptionGroup → Nat → ShaderOptionGroup
  /-- Embeds `ShaderOptionGroup{layout, id}.IsFullySpecified()`. -/
  IsFullySpecified : ShaderVariantId → Bool
  /-- Embeds `GetHash()`. -/
  GetHash : Nat

/-- Embeds `RHI::ShaderPlatformInterface::ByProducts`; the intermediate paths are listed in
iteration order. -/
structure ByProducts where
  m_intermediatePaths : List String
  m_dynamicBranchCount : Nat
  deriving DecidableEq, Repr

/-- Embeds `RHI::ShaderPlatformInterface::StageDescriptor`: the byproducts and, as one
value, everything else the backend compiler returns. -/
structure StageDescriptor where
  m_byProducts : ByProducts
  m_compiled : String
  deriving DecidableEq, Repr

/-- One backend, `RHI::ShaderPlatformInterface`, as the record of the operations the
builder calls on it. `CompilePlatformInternal` takes the platform, the source path, the
entry point, its shader type, the temp directory and the compiler arguments; `none` is a
failed compilation. -/
structure ShaderPlatformInterface where
  GetAPIName : String
  GetAPIUniqueIndex : Nat
  CompilePlatformInternal :
    PlatformInfo → String → String → Nat → String → String → Option StageDescriptor
  CreateShaderStageFunction : StageDescriptor → String

/-- Embeds `MapOfStringToStageType`, listed in iteration order. -/
abbrev MapOfStringToStageType := List (String × Nat)

/-- Embeds `shaderEntryPoints[name] = type`: assigns in place or adds the entry. -/
def MapOfStringToStageType.assign (m : MapOfStringToStageType) (name : String) (type : Nat) :
    MapOfStringToStageType :=
  if (List.lookup name m).isSome then
    m.map (fun entry => if entry.1 = name then (name, type) else entry)
  else m ++ [(name, type)]

/-- Embeds `ShaderVariantCreationContext2`, declared in the header of the builder. -/
structure ShaderVariantCreationContext2 where
  m_shaderPlatformInterface : ShaderPlatformInterface
  m_platformInfo : PlatformInfo
  m_shaderCompilerArguments : String
  m_tempDirPath : String
  m_shaderOptionGroupLayout : ShaderOptionGroupLayout
  m_shaderEntryPoints : MapOfStringToStageType
  m_shaderStemNamePrefix : String
  m_hlslSourcePath : String
  m_hlslSourceContent : String

/-- The asset that `RPI::ShaderVariantAssetCreator2` assembles: the arguments of `Begin`
(without the random asset id) and the `SetShaderFunction` calls in order. -/
structure ShaderVariantAsset2 where
  m_shaderVariantId : ShaderVariantId
  m_stableId : Nat
  m_isFullySpecified : Bool
  m_functionsByStage : List (Nat × String)
  deriving DecidableEq, Repr

/-- The local struct `OptionCache` of lines 836-842. -/
structure OptionCache where
  m_optionName : String
  m_valueName : String
  m_optionIndex : Nat
  m_value : Nat
  deriving DecidableEq, Repr

/-- The calls with an effect outside the function that `CreateShaderVariantAsset` makes. -/
inductive Effect where
  | SetOption (optionIndex value : Nat)
  | WriteFile (content path : String)
  | CompilePlatformInternal (sourcePath entryName : String)
  deriving DecidableEq, Repr

/-- The first loop of `CreateShaderVariantAsset` (lines 848-868), over the pairs still to
visit: every pair is validated and cached, the first invalid pair ends the function. -/
def resolveOptionList (layout : ShaderOptionGroupLayout) :
    List (String × String) → List OptionCache → Except String (List OptionCache)
  | [], optionList => .ok optionList
  | shaderOption :: rest, optionList =>
    let optionName := shaderOption.1
    let optionValue := shaderOption.2
    match layout.FindShaderOptionIndex optionName with
    | none => .error ("Invalid shader option: " ++ optionName)
    | some optionIndex =>
      match layout.FindValue optionIndex optionValue with
      | none =>
        .error ("Invalid value (" ++ optionValue ++ ") for shader option: " ++ optionName)
      | some value =>
        resolveOptionList layout rest
          (optionList ++ [{ m_optionName := optionName, m_valueName := optionValue
                            m_optionIndex := optionIndex, m_value := value }])

/-- The macro line of lines 888-889 for one option. -/
def optionDefine (optionName valueName : String) : String :=
  "#define " ++ optionName ++ "_OPTION_DEF " ++ valueName ++ "\n"

/-- The second loop of `CreateShaderVariantAsset` (lines 880-890): every cached option is
set on the group and its macro line is appended. The triple is the option group,
`hlslCodeToPrependForVariant` and the `Set` calls made. -/
def applyOptionList (layout : ShaderOptionGroupLayout) (optionList : List OptionCache)
    (optionGroup : ShaderOptionGroup) (hlslCodeToPrependForVariant : String)
    (effects : List Effect) : ShaderOptionGroup × String × List Effect :=
  optionList.foldl
    (fun state optionCache =>
      (layout.Set optionCache.m_optionIndex state.1 optionCache.m_value,
        state.2.1 ++ optionDefine optionCache.m_optionName optionCache.m_valueName,
        state.2.2 ++ [Effect.SetOption optionCache.m_optionIndex optionCache.m_value]))
    (optionGroup, hlslCodeToPrependForVariant, effects)

/-- One entry of `shaderSourceDescriptor.m_programSettings.m_entryPoints`. -/
structure EntryPoint where
  m_name : String
  m_type : Nat
  deriving DecidableEq, Repr

/-- Embeds `RPI::ShaderSourceData::ProgramSettings`. -/
structure ProgramSettings where
  m_entryPoints : List EntryPoint
  deriving DecidableEq, Repr

/-- Embeds `RPI::ShaderSourceData`, with the fields the builder reads itself; the enabled
backends and the supervariants are obtained from it through helpers. -/
structure ShaderSourceData where
  m_source : String
  m_programSettings : ProgramSettings
  m_compiler : String
  deriving DecidableEq, Repr

/-- Embeds `RPI::ShaderSourceData::SupervariantInfo` (only the name is read here). -/
structure SupervariantInfo where
  m_name : String
  deriving DecidableEq, Repr

/-- Embeds `ShaderFiles`, the result of `PrepareSourceInput`. -/
structure ShaderFiles where
  m_azslSourceFullPath : String
  deriving DecidableEq, Repr

/-- Embeds `AzslCompiler`, constructed from the path of its input file. -/
structure AzslCompiler where
  m_inputFile : String
  deriving DecidableEq, Repr

/-- The values of `AZ::RPI::ShaderAssetSubId` that the builder passes on. -/
inductive ShaderAssetSubId where
  | OptionsJson
  | IaJson
  | GeneratedHlslSource
  deriving DecidableEq, Repr

/-- The constants and collaborators of job execution that the source file uses and does not
define. An `AZ::Outcome` is an `Except` whose error is the failure. -/
structure JobEnv where
  /-- Embeds `RPI::ShaderVariantAsset2::Extension`. -/
  ShaderVariantAsset2Extension : String
  /-- Embeds `azrtti_typeid<RPI::ShaderVariantAsset2>()`. -/
  ShaderVariantAsset2TypeId : String
  /-- Embeds `RPI::ShaderVariantAsset2::ShaderVariantAsset2SubProductType`. -/
  ShaderVariantAsset2SubProductType : Nat
  /-- Embeds `RPI::ShaderVariantAsset2::MakeAssetProductSubId(api, supervariant, stableId
  [, subProductType])`; the last argument is `none` when the call leaves it out. -/
  MakeAssetProductSubId : Nat → Nat → Nat → Option Nat → Nat
  /-- Embeds `Uuid::CreateName(name)`. -/
  CreateName : String → String
  /-- Embeds `AzFramework::StringFunc::Path::GetFileName(path, out)`. -/
  GetFileName : String → String
  /-- Embeds `AZ::RPI::JsonUtils::LoadObjectFromJsonString(json, out)`: flag and object. -/
  LoadObjectFromJsonString : String → Bool × VariantInfo
  /-- Embeds `ShaderBuilderUtility::PrepareSourceInput(builderName, shaderPath, descriptor)`:
  the returned pointer (`none` when null) and the descriptor it fills. -/
  PrepareSourceInput : String → String → Option ShaderFiles × ShaderSourceData
  /-- Embeds `ShaderBuilderUtility::DiscoverEnabledShaderPlatformInterfaces`. -/
  DiscoverEnabledShaderPlatformInterfaces :
    PlatformInfo → ShaderSourceData → List ShaderPlatformInterface
  /-- Embeds `ShaderBuilderUtility::GetSupervariantListFromShaderSourceData`. -/
  GetSupervariantListFromShaderSourceData : ShaderSourceData → List SupervariantInfo
  /-- Embeds `ReadBuildOptions(builderName).m_compilerArguments`. -/
  ReadBuildOptions : String → String
  /-- Embeds `m_compilerArguments.Merge(other)`, returning the merged arguments. -/
  Merge : String → String → String
  /-- Embeds `ShaderBuilderUtility::ObtainBuildArtifactPathFromShaderAssetBuilder2(api,
  platform, shaderPath, supervariant, subId)`. -/
  ObtainBuildArtifactPathFromShaderAssetBuilder2 :
    Nat → String → String → Nat → ShaderAssetSubId → Except String String
  /-- Embeds `JsonSerializationUtils::ReadJsonFile(path)`; the document is kept as text. -/
  ReadJsonFile : String → Except String String
  /-- Embeds `azslCompiler.ParseOptionsPopulateOptionGroupLayout(json, layout)`: `none` when
  it returns false. -/
  ParseOptionsPopulateOptionGroupLayout : AzslCompiler → String → Option ShaderOptionGroupLayout
  /-- Embeds `azslCompiler.ParseIaPopulateFunctionData(json, functions)`: the flag and the
  function list it leaves. -/
  ParseIaPopulateFunctionData : AzslCompiler → String → Bool × List String
  /-- Embeds `Utils::ReadFile(path)`. -/
  ReadFile : String → Except String String
  /-- Embeds `ShaderBuilderUtility::GetDefaultEntryPointsFromFunctionDataList`. -/
  GetDefaultEntryPointsFromFunctionDataList : List String → MapOfStringToStageType
  /-- Embeds `ShaderBuilderUtility::ToAssetBuilderShaderType(stageType)`. -/
  ToAssetBuilderShaderType : Nat → Nat
  /-- Embeds `ToRHIShaderStage(assetBuilderShaderType)`. -/
  ToRHIShaderStage : Nat → Nat
  /-- Embeds `Utils::WriteFile(content, path).IsSuccess()`. -/
  WriteFile : String → String → Bool
  /-- Embeds `AZ::Utils::SaveObjectToFile(path, ST_BINARY, asset)`. -/
  SaveObjectToFile : String → ShaderVariantAsset2 → Bool
  /-- Embeds `variantCreator.End(shaderVariantAsset)` of `RPI::ShaderVariantAssetCreator2`,
  applied to what the creator has assembled: whether the asset is built. When it is not,
  the asset handle stays null. -/
  ShaderVariantAssetCreatorEnd : ShaderVariantAsset2 → Bool
  /-- The order in which a range-for loop visits an `AZStd::unordered_map` into which the
  given entries were inserted in the given order: the hash order of the container, which is
  declared outside the source file. -/
  EntryPointIterationOrder : MapOfStringToStageType → MapOfStringToStageType

/-- The state of the entry-point loop of `CreateShaderVariantAsset`: the byproducts output,
the stage functions set on the creator and the calls made. -/
structure CompileState where
  outputByproducts : Option ByProducts
  functionsByStage : List (Nat × String)
  effects : List Effect
  deriving DecidableEq, Repr

/-- The entry-point loop of `CreateShaderVariantAsset` (lines 933-970), over the entry
points still to visit. After `AZStd::move` the byproducts left in the descriptor have no
intermediate paths. -/
def compileEntryPoints (jobEnv : JobEnv) (creationContext : ShaderVariantCreationContext2)
    (variantShaderSourcePath : String) :
    List (String × Nat) → CompileState → Except String Unit × CompileState
  | [], state => (.ok (), state)
  | shaderEntryPoint :: rest, state =>
    let shaderEntryName := shaderEntryPoint.1
    let shaderStageType := shaderEntryPoint.2
    let assetBuilderShaderType := jobEnv.ToAssetBuilderShaderType shaderStageType
    let state :=
      { state with
        effects := state.effects
          ++ [Effect.CompilePlatformInternal variantShaderSourcePath shaderEntryName] }
    match creationContext.m_shaderPlatformInterface.CompilePlatformInternal
        creationContext.m_platformInfo variantShaderSourcePath shaderEntryName
        assetBuilderShaderType creationContext.m_tempDirPath
        creationContext.m_shaderCompilerArguments with
    | none =>
      (.error ("Could not compile the shader function " ++ shaderEntryName), state)
    | some descriptor =>
      let state := { state with outputByproducts := some descriptor.m_byProducts }
      let descriptor : StageDescriptor :=
        { descriptor with
          m_byProducts := { descriptor.m_byProducts with m_intermediatePaths := [] } }
      let shaderStageFunction :=
        creationContext.m_shaderPlatformInterface.CreateShaderStageFunction descriptor
      compileEntryPoints jobEnv creationContext variantShaderSourcePath rest
        { state with
          functionsByStage := state.functionsByStage
            ++ [(jobEnv.ToRHIShaderStage assetBuilderShaderType, shaderStageFunction)] }

/-- What a call of `CreateShaderVariantAsset` leaves: the returned outcome, the
`outputByproducts` argument and the calls with an outside effect, in order. The value of a
successful outcome is a `Data::Asset<RPI::ShaderVariantAsset2>` handle, `none` when it is
null. -/
structure CreateShaderVariantAssetResult where
  outcome : Except String (Option ShaderVariantAsset2)
  outputByproducts : Option ByProducts
  effects : List Effect

/-- The name of the synthesized source file (lines 901-903); `%u` prints the stable id in
decimal. -/
def variantSourceFileName (shaderStemNamePrefix apiName : String) (stableId : Nat) : String :=
  shaderStemNamePrefix ++ "_" ++ apiName ++ "_" ++ toString stableId ++ ".hlsl"

/-- The end of `CreateShaderVariantAsset` (lines 918-975), once the source path to compile
is known: the creator is begun with the id of the option group, every entry point is
compiled, and the asset handle is returned. The result of `variantCreator.End` (line 973)
is not looked at: when `End` does not build the asset, the handle returned with
`AZ::Success` is null. -/
def compileAndPackage (jobEnv : JobEnv) (shaderVariantInfo : VariantInfo)
    (creationContext : ShaderVariantCreationContext2) (outputByproducts : Option ByProducts)
    (optionGroup : ShaderOptionGroup) (variantShaderSourcePath : String)
    (effects : List Effect) : CreateShaderVariantAssetResult :=
  let compiled := compileEntryPoints jobEnv creationContext variantShaderSourcePath
    creationContext.m_shaderEntryPoints
    { outputByproducts := outputByproducts, functionsByStage := [], effects := effects }
  match compiled.1 with
  | .error message =>
    { outcome := .error message, outputByproducts := compiled.2.outputByproducts
      effects := compiled.2.effects }
  | .ok _ =>
    let assembled : ShaderVariantAsset2 :=
      { m_shaderVariantId := optionGroup.GetShaderVariantId
        m_stableId := shaderVariantInfo.m_stableId
        m_isFullySpecified :=
          creationContext.m_shaderOptionGroupLayout.IsFullySpecified
            optionGroup.GetShaderVariantId
        m_functionsByStage := compiled.2.functionsByStage }
    let shaderVariantAsset : Option ShaderVariantAsset2 :=
      if jobEnv.ShaderVariantAssetCreatorEnd assembled then some assembled else none
    { outcome := .ok shaderVariantAsset
      outputByproducts := compiled.2.outputByproducts
      effects := compiled.2.effects }

/-- Embeds `ShaderVariantAssetBuilder2::CreateShaderVariantAsset` (lines 830-975). -/
def CreateShaderVariantAsset (env : BuilderEnv) (jobEnv : JobEnv)
    (shaderVariantInfo : VariantInfo) (creationContext : ShaderVariantCreationContext2)
    (outputByproducts : Option ByProducts) : CreateShaderVariantAssetResult :=
  let layout := creationContext.m_shaderOptionGroupLayout
  match resolveOptionList layout shaderVariantInfo.m_options [] with
  | .error message =>
    { outcome := .error message, outputByproducts := outputByproducts, effects := [] }
  | .ok optionList =>
    let applied := applyOptionList layout optionList {} "" []
    let optionGroup := applied.1
    let hlslCodeToPrependForVariant := applied.2.1
    let effects := applied.2.2
    if hlslCodeToPrependForVariant ≠ "" then
      let variantShaderSourceString :=
        hlslCodeToPrependForVariant ++ creationContext.m_hlslSourceContent
      let shaderAssetName :=
        variantSourceFileName creationContext.m_shaderStemNamePrefix
          creationContext.m_shaderPlatformInterface.GetAPIName shaderVariantInfo.m_stableId
      let variantShaderSourcePath :=
        env.Join creationContext.m_tempDirPath shaderAssetName true true
      let effects :=
        effects ++ [Effect.WriteFile variantShaderSourceString variantShaderSourcePath]
      if jobEnv.WriteFile variantShaderSourceString variantShaderSourcePath = false then
        { outcome := .error ("Failed to create file " ++ variantShaderSourcePath)
          outputByproducts := outputByproducts, effects := effects }
      else
        compileAndPackage jobEnv shaderVariantInfo creationContext outputByproducts
          optionGroup variantShaderSourcePath effects
    else
      let variantShaderSourcePath := creationContext.m_hlslSourcePath
      compileAndPackage jobEnv shaderVariantInfo creationContext outputByproducts
        optionGroup variantShaderSourcePath effects

/-! ## The variant job -/

/-- Embeds `LoadShaderOptionsGroupLayoutFromShaderAssetBuilder2` (lines 424-456); `none` is
the null pointer. -/
def LoadShaderOptionsGroupLayoutFromShaderAssetBuilder2 (jobEnv : JobEnv)
    (shaderPlatformInterface : ShaderPlatformInterface) (platformInfo : PlatformInfo)
    (azslCompiler : AzslCompiler) (shaderSourceFileFullPath : String)
    (supervariantIndex : Nat) : Option ShaderOptionGroupLayout :=
  match jobEnv.ObtainBuildArtifactPathFromShaderAssetBuilder2
      shaderPlatformInterface.GetAPIUniqueIndex platformInfo.m_identifier
      shaderSourceFileFullPath supervariantIndex ShaderAssetSubId.OptionsJson with
  | .error _ => none
  | .ok optionsGroupJsonPath =>
    match jobEnv.ReadJsonFile optionsGroupJsonPath with
    | .error _ => none
    | .ok json => jobEnv.ParseOptionsPopulateOptionGroupLayout azslCompiler json

/-- Embeds `LoadShaderFunctionsFromShaderAssetBuilder2` (lines 458-486); the result is the
`functions` argument after the call. -/
def LoadShaderFunctionsFromShaderAssetBuilder2 (jobEnv : JobEnv)
    (shaderPlatformInterface : ShaderPlatformInterface) (platformInfo : PlatformInfo)
    (azslCompiler : AzslCompiler) (shaderSourceFileFullPath : String)
    (supervariantIndex : Nat) (functions : List String) : List String :=
  match jobEnv.ObtainBuildArtifactPathFromShaderAssetBuilder2
      shaderPlatformInterface.GetAPIUniqueIndex platformInfo.m_identifier
      shaderSourceFileFullPath supervariantIndex ShaderAssetSubId.IaJson with
  | .error _ => functions
  | .ok functionsJsonPath =>
    match jobEnv.ReadJsonFile functionsJsonPath with
    | .error _ => functions
    | .ok json =>
      match jobEnv.ParseIaPopulateFunctionData azslCompiler json with
      | (false, _) => []
      | (true, parsed) => parsed

/-- Embeds `LoadHlslFileFromShaderAssetBuilder2` (lines 491-514); the pair is the returned
content and the `hlslSourcePath` argument after the call. -/
def LoadHlslFileFromShaderAssetBuilder2 (jobEnv : JobEnv)
    (shaderPlatformInterface : ShaderPlatformInterface) (platformInfo : PlatformInfo)
    (shaderSourceFileFullPath : String) (supervariantIndex : Nat) (hlslSourcePath : String) :
    String × String :=
  match jobEnv.ObtainBuildArtifactPathFromShaderAssetBuilder2
      shaderPlatformInterface.GetAPIUniqueIndex platformInfo.m_identifier
      shaderSourceFileFullPath supervariantIndex ShaderAssetSubId.GeneratedHlslSource with
  | .error _ => ("", hlslSourcePath)
  | .ok path =>
    match jobEnv.ReadFile path with
    | .error _ => ("", path)
    | .ok content => (content, path)

/-- The file name of a compiled variant (lines 807-809); `%u` prints the stable id in
decimal. -/
def variantAssetFileName (jobEnv : JobEnv) (shaderStemNamePrefix apiName : String)
    (stableId : Nat) : String :=
  shaderStemNamePrefix ++ "_" ++ apiName ++ "_" ++ toString stableId ++ "."
    ++ jobEnv.ShaderVariantAsset2Extension

/-- Embeds `ShaderVariantAssetBuilder2::SerializeOutShaderVariantAsset` (lines 802-827);
the pair is the result and the `assetProduct` argument after the call. -/
def SerializeOutShaderVariantAsset (env : BuilderEnv) (jobEnv : JobEnv)
    (shaderVariantAsset : ShaderVariantAsset2) (shaderStemNamePrefix tempDirPath : String)
    (shaderPlatformInterface : ShaderPlatformInterface) (productSubID : Nat)
    (assetProduct : JobProduct) : Bool × JobProduct :=
  let filename := variantAssetFileName jobEnv shaderStemNamePrefix
    shaderPlatformInterface.GetAPIName shaderVariantAsset.m_stableId
  let assetPath := env.ConstructFull tempDirPath filename true
  if jobEnv.SaveObjectToFile assetPath shaderVariantAsset = false then
    (false, assetProduct)
  else
    (true,
      { assetProduct with
        m_productSubID := productSubID
        m_productFileName := assetPath
        m_productAssetType := jobEnv.ShaderVariantAsset2TypeId
        m_dependenciesHandled := true })

/-- A default-constructed `AssetBuilderSDK::JobProduct`. -/
def JobProduct.default : JobProduct :=
  { m_productFileName := "", m_productSubID := 0, m_productAssetType := ""
    m_dependenciesHandled := false }

/-- Embeds `response.m_outputProducts.push_back(jobProduct)`. -/
def ProcessJobResponse.push_back (response : ProcessJobResponse) (jobProduct : JobProduct) :
    ProcessJobResponse :=
  { response with m_outputProducts := response.m_outputProducts ++ [jobProduct] }

/-- The modulus of `uint32_t` arithmetic. -/
def uint32Modulus : Nat := 2 ^ 32

/-- The byproduct loop of lines 782-792, over the paths still to visit, with the running
`subProductType` counter. -/
def pushByproducts (jobEnv : JobEnv) (apiUniqueIndex supervariantIndex stableId : Nat) :
    List String → Nat → ProcessJobResponse → ProcessJobResponse
  | [], _, response => response
  | byproduct :: rest, subProductType, response =>
    let jobProduct : JobProduct :=
      { JobProduct.default with
        m_productFileName := byproduct
        m_productAssetType := jobEnv.CreateName "DebugInfoByProduct-PdbOrDxilTxt"
        m_productSubID := jobEnv.MakeAssetProductSubId apiUniqueIndex supervariantIndex
          stableId (some subProductType) }
    pushByproducts jobEnv apiUniqueIndex supervariantIndex stableId rest
      ((subProductType + 1) % uint32Modulus) (response.push_back jobProduct)

/-- The stem of the artifact names (lines 682-686): the shader file name, followed by the
supervariant's name when its index is not zero. -/
def stemNamePrefix (shaderFileName : String) (supervariantIndex : Nat)
    (supervariantName : String) : String :=
  if supervariantIndex > 0 then shaderFileName ++ supervariantName else shaderFileName

/-- The entry points of one iteration (lines 715-729), in the order in which the map is
iterated: the defaults derived from the function list when the shader declares none, else
the declared ones, assigned into the `AZStd::unordered_map` one after the other and then
listed in the iteration order of that container. -/
def resolveEntryPoints (jobEnv : JobEnv) (shaderSourceDescriptor : ShaderSourceData)
    (azslFunctions : List String) : MapOfStringToStageType :=
  if shaderSourceDescriptor.m_programSettings.m_entryPoints = [] then
    jobEnv.GetDefaultEntryPointsFromFunctionDataList azslFunctions
  else
    jobEnv.EntryPointIterationOrder
      (shaderSourceDescriptor.m_programSettings.m_entryPoints.foldl
        (fun shaderEntryPoints entryPoint =>
          MapOfStringToStageType.assign shaderEntryPoints entryPoint.m_name entryPoint.m_type)
        [])

/-- What `ProcessShaderVariantJob` has computed before its loops and does not change in
them. -/
structure VariantJobInputs where
  shaderSourceFileFullPath : String
  shaderFileName : String
  variantInfo : VariantInfo
  shaderSourceDescriptor : ShaderSourceData
  azslc : AzslCompiler
  compilerArguments : String

/-- What the loops of `ProcessShaderVariantJob` change: the response, the lazily loaded
option layout (`none` is the null pointer) and the number of cancellation polls made. -/
structure VariantJobState where
  response : ProcessJobResponse
  shaderOptionGroupLayout : Option ShaderOptionGroupLayout
  cancelPolls : Nat

/-- The outcome of one pass through a loop body: go on with a new state, return from the
function with the response as it is, or run into a fault. -/
inductive LoopStep where
  | next (state : VariantJobState)
  | done (response : ProcessJobResponse)
  | fault (fault : Fault)

/-- The option layout used by an iteration (lines 694-704): the one already loaded, else
the one loaded for this backend and supervariant. -/
def iterationLayout (jobEnv : JobEnv) (request : ProcessJobRequest)
    (inputs : VariantJobInputs) (shaderPlatformInterface : ShaderPlatformInterface)
    (supervariantIndex : Nat) (state : VariantJobState) : Option ShaderOptionGroupLayout :=
  match state.shaderOptionGroupLayout with
  | some layout => some layout
  | none =>
    LoadShaderOptionsGroupLayoutFromShaderAssetBuilder2 jobEnv shaderPlatformInterface
      request.m_platformInfo inputs.azslc inputs.shaderSourceFileFullPath supervariantIndex

/-- The creation context of an iteration (lines 742-752), without the start time and the
random asset id. -/
def iterationContext (jobEnv : JobEnv) (request : ProcessJobRequest)
    (inputs : VariantJobInputs) (shaderPlatformInterface : ShaderPlatformInterface)
    (supervariantIndex : Nat) (supervariantInfo : SupervariantInfo)
    (layout : ShaderOptionGroupLayout) (azslFunctions : List String)
    (hlslCode hlslSourcePath : String) : ShaderVariantCreationContext2 :=
  { m_shaderPlatformInterface := shaderPlatformInterface
    m_platformInfo := request.m_platformInfo
    m_shaderCompilerArguments := inputs.compilerArguments
    m_tempDirPath := request.m_tempDirPath
    m_shaderOptionGroupLayout := layout
    m_shaderEntryPoints := resolveEntryPoints jobEnv inputs.shaderSourceDescriptor azslFunctions
    m_shaderStemNamePrefix :=
      stemNamePrefix inputs.shaderFileName supervariantIndex supervariantInfo.m_name
    m_hlslSourcePath := hlslSourcePath
    m_hlslSourceContent := hlslCode }

/-- The body of the supervariant loop of `ProcessShaderVariantJob` (lines 672-794) for one
backend and one supervariant. `IsCancelled` answers the polls of the job's cancel listener,
numbered from 0. The outcome of `CreateShaderVariantAsset` is only tested for success
(line 756); `shaderVariantAsset->GetStableId()` at line 768 dereferences the handle taken
from it, a fault when the handle is null. -/
def variantIteration (env : BuilderEnv) (jobEnv : JobEnv) (IsCancelled : Nat → Bool)
    (request : ProcessJobRequest) (inputs : VariantJobInputs)
    (shaderPlatformInterface : ShaderPlatformInterface) (supervariantIndexCounter : Nat)
    (supervariantInfo : SupervariantInfo) (state : VariantJobState) : LoopStep :=
  let supervariantIndex := supervariantIndexCounter
  if IsCancelled state.cancelPolls then
    .done { state.response with m_resultCode := ProcessJobResultCode.Cancelled }
  else
    let shaderStemNamePrefix :=
      stemNamePrefix inputs.shaderFileName supervariantIndex supervariantInfo.m_name
    match iterationLayout jobEnv request inputs shaderPlatformInterface supervariantIndex
        state with
    | none => .done { state.response with m_resultCode := ProcessJobResultCode.Failed }
    | some layout =>
      let azslFunctions := LoadShaderFunctionsFromShaderAssetBuilder2 jobEnv
        shaderPlatformInterface request.m_platformInfo inputs.azslc
        inputs.shaderSourceFileFullPath supervariantIndex []
      if azslFunctions = [] then
        .done { state.response with m_resultCode := ProcessJobResultCode.Failed }
      else
        let loaded := LoadHlslFileFromShaderAssetBuilder2 jobEnv shaderPlatformInterface
          request.m_platformInfo inputs.shaderSourceFileFullPath supervariantIndex ""
        let hlslCode := loaded.1
        let hlslSourcePath := loaded.2
        if hlslCode = "" ∨ hlslSourcePath = "" then
          .done { state.response with m_resultCode := ProcessJobResultCode.Failed }
        else
          let shaderVariantCreationContext := iterationContext jobEnv request inputs
            shaderPlatformInterface supervariantIndex supervariantInfo layout azslFunctions
            hlslCode hlslSourcePath
          let created := CreateShaderVariantAsset env jobEnv inputs.variantInfo
            shaderVariantCreationContext none
          match created.outcome with
          | .error _ =>
            .done { state.response with m_resultCode := ProcessJobResultCode.Failed }
          | .ok none => .fault Fault.nullDereference
          | .ok (some shaderVariantAsset) =>
            let productSubID := jobEnv.MakeAssetProductSubId
              shaderPlatformInterface.GetAPIUniqueIndex supervariantIndex
              shaderVariantAsset.m_stableId none
            match SerializeOutShaderVariantAsset env jobEnv shaderVariantAsset
                shaderStemNamePrefix request.m_tempDirPath shaderPlatformInterface
                productSubID JobProduct.default with
            | (false, _) =>
              .done { state.response with m_resultCode := ProcessJobResultCode.Failed }
            | (true, assetProduct) =>
              let response := state.response.push_back assetProduct
              let response :=
                match created.outputByproducts with
                | some byproducts =>
                  pushByproducts jobEnv shaderPlatformInterface.GetAPIUniqueIndex
                    supervariantIndex shaderVariantAsset.m_stableId
                    byproducts.m_intermediatePaths jobEnv.ShaderVariantAsset2SubProductType
                    response
                | none => response
              .next { response := response
                      shaderOptionGroupLayout := some layout
                      cancelPolls := state.cancelPolls + 1 }

/-- The supervariant loop of lines 669-795 for one backend, over the supervariants still to
visit, with the running `supervariantIndexCounter`. -/
def supervariantLoop (env : BuilderEnv) (jobEnv : JobEnv) (IsCancelled : Nat → Bool)
    (request : ProcessJobRequest) (inputs : VariantJobInputs)
    (shaderPlatformInterface : ShaderPlatformInterface) :
    List SupervariantInfo → Nat → VariantJobState → LoopStep
  | [], _, state => .next state
  | supervariantInfo :: rest, supervariantIndexCounter, state =>
    match variantIteration env jobEnv IsCancelled request inputs shaderPlatformInterface
        supervariantIndexCounter supervariantInfo state with
    | .done response => .done response
    | .fault fault => .fault fault
    | .next state =>
      supervariantLoop env jobEnv IsCancelled request inputs shaderPlatformInterface rest
        ((supervariantIndexCounter + 1) % uint32Modulus) state

/-- The backend loop of lines 664-797, over the backends still to visit. -/
def backendLoop (env : BuilderEnv) (jobEnv : JobEnv) (IsCancelled : Nat → Bool)
    (request : ProcessJobRequest) (inputs : VariantJobInputs)
    (supervariantList : List SupervariantInfo) :
    List ShaderPlatformInterface → VariantJobState → LoopStep
  | [], state => .next state
  | shaderPlatformInterface :: rest, state =>
    match supervariantLoop env jobEnv IsCancelled request inputs shaderPlatformInterface
        supervariantList 0 state with
    | .done response => .done response
    | .fault fault => .fault fault
    | .next state =>
      backendLoop env jobEnv IsCancelled request inputs supervariantList rest state

/-- The values that `ProcessShaderVariantJob` computes before its loops (lines 624-658)
from the two job parameters and the prepared shader source: the shader file name, the
`VariantInfo` read back from its JSON text (the success flag is only asserted on), the AZSL
compiler object and the merged compiler arguments. -/
def variantJobInputs (jobEnv : JobEnv) (shaderSourceFileFullPath variantJsonString : String)
    (sources : ShaderFiles) (shaderSourceDescriptor : ShaderSourceData) : VariantJobInputs :=
  { shaderSourceFileFullPath := shaderSourceFileFullPath
    shaderFileName := jobEnv.GetFileName shaderSourceFileFullPath
    variantInfo := (jobEnv.LoadObjectFromJsonString variantJsonString).2
    shaderSourceDescriptor := shaderSourceDescriptor
    azslc := { m_inputFile := sources.m_azslSourceFullPath }
    compilerArguments :=
      jobEnv.Merge (jobEnv.ReadBuildOptions ShaderVariantAssetBuilder2Name)
        shaderSourceDescriptor.m_compiler }

/-- Embeds `ShaderVariantAssetBuilder2::ProcessShaderVariantJob` (lines 616-800).
`IsCancelled` answers the polls of the cancel listener constructed at line 619, numbered
from 0. The unused `fullPath` and the start time are left out. -/
def ProcessShaderVariantJob (c : BuilderConstants) (env : BuilderEnv) (jobEnv : JobEnv)
    (IsCancelled : Nat → Bool) (request : ProcessJobRequest)
    (response : ProcessJobResponse) : Except Fault ProcessJobResponse :=
  let jobParameters := request.m_jobDescription.m_jobParameters
  match JobParameterMap.atKey jobParameters c.ShaderSourceFilePathJobParam with
  | .error e => .error e
  | .ok shaderSourceFileFullPath =>
    match JobParameterMap.atKey jobParameters c.ShaderVariantJobVariantParam with
    | .error e => .error e
    | .ok variantJsonString =>
      match jobEnv.PrepareSourceInput ShaderVariantAssetBuilder2Name
          shaderSourceFileFullPath with
      | (none, _) => .error Fault.nullDereference
      | (some sources, shaderSourceDescriptor) =>
        let platformInterfaces := jobEnv.DiscoverEnabledShaderPlatformInterfaces
          request.m_platformInfo shaderSourceDescriptor
        if platformInterfaces.isEmpty then
          .ok { response with m_resultCode := ProcessJobResultCode.Success }
        else
          let supervariantList :=
            jobEnv.GetSupervariantListFromShaderSourceData shaderSourceDescriptor
          let inputs := variantJobInputs jobEnv shaderSourceFileFullPath variantJsonString
            sources shaderSourceDescriptor
          match backendLoop env jobEnv IsCancelled request inputs supervariantList
              platformInterfaces
              { response := response, shaderOptionGroupLayout := none, cancelPolls := 0 } with
          | .done response => .ok response
          | .fault fault => .error fault
          | .next state =>
            .ok { state.response with m_resultCode := ProcessJobResultCode.Success }

/-! ## The tree job -/

/-- The asset that `RPI::ShaderVariantTreeAssetCreator` assembles: the layout and the
variant infos set on it (the random asset id is left out). -/
structure ShaderVariantTreeAsset where
  m_shaderOptionGroupLayout : ShaderOptionGroupLayout
  m_variantInfos : List VariantInfo

/-- The constants and collaborators of the tree job that the source file uses and does not
define. -/
structure TreeJobEnv where
  /-- Embeds `ShaderBuilderUtility::LoadShaderDataJson(shaderPath)`. -/
  LoadShaderDataJson : String → Except String ShaderSourceData
  /-- Embeds `ShaderBuilderUtility::GetAbsolutePathToAzslFile(shaderPath, source, out)`. -/
  GetAbsolutePathToAzslFile : String → String → String
  /-- Embeds `RPI::DefaultSupervariantIndex`. -/
  DefaultSupervariantIndex : Nat
  /-- Embeds `shaderVariantTreeAssetCreator.End(asset)` after `Begin`,
  `SetShaderOptionGroupLayout` and `SetVariantInfos`: whether the asset is built. -/
  CreatorEnd : ShaderVariantTreeAsset → Bool
  /-- Embeds `RPI::ShaderVariantTreeAsset::Extension`. -/
  ShaderVariantTreeAssetExtension : String
  /-- Embeds `RPI::ShaderVariantTreeAsset::ProductSubID`. -/
  ShaderVariantTreeAssetProductSubID : Nat
  /-- Embeds `azrtti_typeid<RPI::ShaderVariantTreeAsset>()`. -/
  ShaderVariantTreeAssetTypeId : String
  /-- Embeds `AZ::Utils::SaveObjectToFile(path, ST_BINARY, asset)`. -/
  SaveObjectToFile : String → ShaderVariantTreeAsset → Bool

/-- How the backend loop of the tree job (lines 560-580) ends: a schema did not load, two
schemas differ (with the two API names that the error message prints), or every backend
was visited (with the last layout and API name). -/
inductive SchemaLoopResult where
  | loadFailed
  | discrepancy (previousLoopApiName thisLoopApiName : String)
  | agreed (shaderOptionGroupLayout : Option ShaderOptionGroupLayout)
      (previousLoopApiName : String)

/-- The text of the error of line 574. -/
def discrepancyMessage (previousLoopApiName thisLoopApiName : String) : String :=
  "There was a discrepancy in shader options between " ++ previousLoopApiName ++ " and "
    ++ thisLoopApiName

/-- The backend loop of `ProcessShaderVariantTreeJob` (lines 560-580), over the backends
still to visit, with the layout and the API name kept from the previous iteration. -/
def schemaAgreementLoop (jobEnv : JobEnv) (treeEnv : TreeJobEnv) (request : ProcessJobRequest)
    (azslc : AzslCompiler) (shaderSourceFileFullPath : String) :
    List ShaderPlatformInterface → Option ShaderOptionGroupLayout → String → SchemaLoopResult
  | [], shaderOptionGroupLayout, previousLoopApiName =>
    .agreed shaderOptionGroupLayout previousLoopApiName
  | shaderPlatformInterface :: rest, shaderOptionGroupLayout, previousLoopApiName =>
    let thisLoopApiName := shaderPlatformInterface.GetAPIName
    match LoadShaderOptionsGroupLayoutFromShaderAssetBuilder2 jobEnv shaderPlatformInterface
        request.m_platformInfo azslc shaderSourceFileFullPath
        treeEnv.DefaultSupervariantIndex with
    | none => .loadFailed
    | some loopLocal_ShaderOptionGroupLayout =>
      let differs :=
        match shaderOptionGroupLayout with
        | none => false
        | some previous =>
          decide (previous.GetHash ≠ loopLocal_ShaderOptionGroupLayout.GetHash)
      if differs then .discrepancy previousLoopApiName thisLoopApiName
      else
        schemaAgreementLoop jobEnv treeEnv request azslc shaderSourceFileFullPath rest
          (some loopLocal_ShaderOptionGroupLayout) thisLoopApiName

/-- Embeds `ShaderVariantAssetBuilder2::ProcessShaderVariantTreeJob` (lines 516-614).
`TakeValue` on a failed outcome (line 536) and the dereference of a null layout (line 584)
are faults. -/
def ProcessShaderVariantTreeJob (c : BuilderConstants) (env : BuilderEnv) (jobEnv : JobEnv)
    (treeEnv : TreeJobEnv) (request : ProcessJobRequest) (response : ProcessJobResponse) :
    Except Fault ProcessJobResponse :=
  let variantListFullPath := env.ConstructFull request.m_watchFolder request.m_sourceFile true
  match env.LoadObjectFromFile variantListFullPath with
  | none => .ok { response with m_resultCode := ProcessJobResultCode.Failed }
  | some shaderVariantListDescriptor =>
    match JobParameterMap.atKey request.m_jobDescription.m_jobParameters
        c.ShaderSourceFilePathJobParam with
    | .error e => .error e
    | .ok shaderSourceFileFullPath =>
      let shaderName := jobEnv.GetFileName shaderSourceFileFullPath
      match treeEnv.LoadShaderDataJson shaderSourceFileFullPath with
      | .error _ => .error Fault.noValueInOutcome
      | .ok shaderSourceDescriptor =>
        let platformInterfaces := jobEnv.DiscoverEnabledShaderPlatformInterfaces
          request.m_platformInfo shaderSourceDescriptor
        if platformInterfaces.isEmpty then
          .ok { response with m_resultCode := ProcessJobResultCode.Success }
        else
          let azslFullPath := treeEnv.GetAbsolutePathToAzslFile shaderSourceFileFullPath
            shaderSourceDescriptor.m_source
          let azslc : AzslCompiler := { m_inputFile := azslFullPath }
          match schemaAgreementLoop jobEnv treeEnv request azslc shaderSourceFileFullPath
              platformInterfaces none "" with
          | .loadFailed => .ok { response with m_resultCode := ProcessJobResultCode.Failed }
          | .discrepancy _ _ =>
            .ok { response with m_resultCode := ProcessJobResultCode.Failed }
          | .agreed none _ => .error Fault.nullDereference
          | .agreed (some shaderOptionGroupLayout) _ =>
            let shaderVariantTreeAsset : ShaderVariantTreeAsset :=
              { m_shaderOptionGroupLayout := shaderOptionGroupLayout
                m_variantInfos := shaderVariantListDescriptor.m_shaderVariants }
            if !treeEnv.CreatorEnd shaderVariantTreeAsset then
              .ok { response with m_resultCode := ProcessJobResultCode.Failed }
            else
              let filename := shaderName ++ "." ++ treeEnv.ShaderVariantTreeAssetExtension
              let assetPath := env.ConstructFull request.m_tempDirPath filename true
              if !treeEnv.SaveObjectToFile assetPath shaderVariantTreeAsset then
                .ok { response with m_resultCode := ProcessJobResultCode.Failed }
              else
                let assetProduct : JobProduct :=
                  { m_productSubID := treeEnv.ShaderVariantTreeAssetProductSubID
                    m_productFileName := assetPath
                    m_productAssetType := treeEnv.ShaderVariantTreeAssetTypeId
                    m_dependenciesHandled := true }
                let response := response.push_back assetProduct
                .ok { response with m_resultCode := ProcessJobResultCode.Success }

/-! ## Descriptions used in the statements -/

/-- The cache entry of one option/value pair when both lookups of lines 853-860 succeed. -/
def optionCacheOf (layout : ShaderOptionGroupLayout) (shaderOption : String × String) :
    Option OptionCache :=
  match layout.FindShaderOptionIndex shaderOption.1 with
  | none => none
  | some optionIndex =>
    match layout.FindValue optionIndex shaderOption.2 with
    | none => none
    | some value =>
      some { m_optionName := shaderOption.1, m_valueName := shaderOption.2
             m_optionIndex := optionIndex, m_value := value }

/-- The products that the byproduct loop of lines 782-792 pushes, in order. -/
def byproductProducts (jobEnv : JobEnv) (apiUniqueIndex supervariantIndex stableId : Nat) :
    List String → Nat → List JobProduct
  | [], _ => []
  | byproduct :: rest, subProductType =>
    { JobProduct.default with
      m_productFileName := byproduct
      m_productAssetType := jobEnv.CreateName "DebugInfoByProduct-PdbOrDxilTxt"
      m_productSubID := jobEnv.MakeAssetProductSubId apiUniqueIndex supervariantIndex
        stableId (some subProductType) }
      :: byproductProducts jobEnv apiUniqueIndex supervariantIndex stableId rest
          ((subProductType + 1) % uint32Modulus)

/-- The (backend, supervariant index, supervariant) triples that the two nested loops of
`ProcessShaderVariantJob` visit, in order. -/
def jobIterations (platformInterfaces : List ShaderPlatformInterface)
    (supervariantList : List SupervariantInfo) :
    List (ShaderPlatformInterface × Nat × SupervariantInfo) :=
  platformInterfaces.flatMap (fun shaderPlatformInterface =>
    supervariantList.enum.map (fun entry =>
      (shaderPlatformInterface, entry.1 % uint32Modulus, entry.2)))

/-- The loop body run over a list of iterations, stopping at the first one that returns. -/
def runIterations (env : BuilderEnv) (jobEnv : JobEnv) (IsCancelled : Nat → Bool)
    (request : ProcessJobRequest) (inputs : VariantJobInputs) :
    List (ShaderPlatformInterface × Nat × SupervariantInfo) → VariantJobState → LoopStep
  | [], state => .next state
  | iteration :: rest, state =>
    match variantIteration env jobEnv IsCancelled request inputs iteration.1 iteration.2.1
        iteration.2.2 state with
    | .done response => .done response
    | .fault fault => .fault fault
    | .next state => runIterations env jobEnv IsCancelled request inputs rest state

/-- One of the steps of an iteration fails: the schema load, the entry-point metadata, the
source load, the variant creation (it returns an error, or its creator does not build the
asset and the handle it returns is null) or the serialization. -/
def iterationFails (env : BuilderEnv) (jobEnv : JobEnv) (request : ProcessJobRequest)
    (inputs : VariantJobInputs) (shaderPlatformInterface : ShaderPlatformInterface)
    (supervariantIndex : Nat) (supervariantInfo : SupervariantInfo)
    (state : VariantJobState) : Prop :=
  let azslFunctions := LoadShaderFunctionsFromShaderAssetBuilder2 jobEnv
    shaderPlatformInterface request.m_platformInfo inputs.azslc
    inputs.shaderSourceFileFullPath supervariantIndex []
  let loaded := LoadHlslFileFromShaderAssetBuilder2 jobEnv shaderPlatformInterface
    request.m_platformInfo inputs.shaderSourceFileFullPath supervariantIndex ""
  iterationLayout jobEnv request inputs shaderPlatformInterface supervariantIndex state = none
  ∨ azslFunctions = []
  ∨ (loaded.1 = "" ∨ loaded.2 = "")
  ∨ (∃ layout message,
      iterationLayout jobEnv request inputs shaderPlatformInterface supervariantIndex state
        = some layout
      ∧ (CreateShaderVariantAsset env jobEnv inputs.variantInfo
          (iterationContext jobEnv request inputs shaderPlatformInterface supervariantIndex
            supervariantInfo layout azslFunctions loaded.1 loaded.2) none).outcome
        = .error message)
  ∨ (∃ layout,
      iterationLayout jobEnv request inputs shaderPlatformInterface supervariantIndex state
        = some layout
      ∧ (CreateShaderVariantAsset env jobEnv inputs.variantInfo
          (iterationContext jobEnv request inputs shaderPlatformInterface supervariantIndex
            supervariantInfo layout azslFunctions loaded.1 loaded.2) none).outcome
        = .ok none)
  ∨ (∃ layout shaderVariantAsset,
      iterationLayout jobEnv request inputs shaderPlatformInterface supervariantIndex state
        = some layout
      ∧ (CreateShaderVariantAsset env jobEnv inputs.variantInfo
          (iterationContext jobEnv request inputs shaderPlatformInterface supervariantIndex
            supervariantInfo layout azslFunctions loaded.1 loaded.2) none).outcome
        = .ok (some shaderVariantAsset)
      ∧ (SerializeOutShaderVariantAsset env jobEnv shaderVariantAsset
          (stemNamePrefix inputs.shaderFileName supervariantIndex supervariantInfo.m_name)
          request.m_tempDirPath shaderPlatformInterface
          (jobEnv.MakeAssetProductSubId shaderPlatformInterface.GetAPIUniqueIndex
            supervariantIndex shaderVariantAsset.m_stableId none)
          JobProduct.default).1 = false)

/-- The hash of the option schema that the tree job loads for a backend (line 564), `none`
when the schema does not load. -/
def backendSchemaHash (jobEnv : JobEnv) (treeEnv : TreeJobEnv) (request : ProcessJobRequest)
    (azslc : AzslCompiler) (shaderSourceFileFullPath : String)
    (shaderPlatformInterface : ShaderPlatformInterface) : Option Nat :=
  (LoadShaderOptionsGroupLayoutFromShaderAssetBuilder2 jobEnv shaderPlatformInterface
      request.m_platformInfo azslc shaderSourceFileFullPath
      treeEnv.DefaultSupervariantIndex).map (fun layout => layout.GetHash)

/-- Whether the backend loop of the tree job visited every backend without an error. -/
def SchemaLoopResult.passes : SchemaLoopResult → Bool
  | .agreed _ _ => true
  | _ => false

/-- The call of `CreateShaderVariantAsset` that an iteration of the variant job makes
(lines 742-755) once the layout, the functions and the source are loaded. -/
def iterationCreated (env : BuilderEnv) (jobEnv : JobEnv) (request : ProcessJobRequest)
    (inputs : VariantJobInputs) (shaderPlatformInterface : ShaderPlatformInterface)
    (supervariantIndex : Nat) (supervariantInfo : SupervariantInfo)
    (layout : ShaderOptionGroupLayout) : CreateShaderVariantAssetResult :=
  CreateShaderVariantAsset env jobEnv inputs.variantInfo
    (iterationContext jobEnv request inputs shaderPlatformInterface supervariantIndex
      supervariantInfo layout
      (LoadShaderFunctionsFromShaderAssetBuilder2 jobEnv shaderPlatformInterface
        request.m_platformInfo inputs.azslc inputs.shaderSourceFileFullPath
        supervariantIndex [])
      (LoadHlslFileFromShaderAssetBuilder2 jobEnv shaderPlatformInterface
        request.m_platformInfo inputs.shaderSourceFileFullPath supervariantIndex "").1
      (LoadHlslFileFromShaderAssetBuilder2 jobEnv shaderPlatformInterface
        request.m_platformInfo inputs.shaderSourceFileFullPath supervariantIndex "").2)
    none

/-- The byproduct paths that a call of `CreateShaderVariantAsset` hands back: those of the
byproducts output when it is set, none otherwise (line 779). -/
def retainedByproductPaths (created : CreateShaderVariantAssetResult) : List String :=
  match created.outputByproducts with
  | some byproducts => byproducts.m_intermediatePaths
  | none => []

/-- The product of the primary artifact of an iteration of the variant job (lines 766-777
and 820-823). -/
def primaryProduct (env : BuilderEnv) (jobEnv : JobEnv) (request : ProcessJobRequest)
    (inputs : VariantJobInputs) (shaderPlatformInterface : ShaderPlatformInterface)
    (supervariantIndex : Nat) (supervariantInfo : SupervariantInfo) : JobProduct :=
  { m_productFileName := env.ConstructFull request.m_tempDirPath
      (variantAssetFileName jobEnv
        (stemNamePrefix inputs.shaderFileName supervariantIndex supervariantInfo.m_name)
        shaderPlatformInterface.GetAPIName inputs.variantInfo.m_stableId) true
    m_productSubID := jobEnv.MakeAssetProductSubId shaderPlatformInterface.GetAPIUniqueIndex
      supervariantIndex inputs.variantInfo.m_stableId none
    m_productAssetType := jobEnv.ShaderVariantAsset2TypeId
    m_dependenciesHandled := true }

/-- The error text of lines 855 and 862-863 for a pair that does not resolve: the option
name is unknown, or the option is known and the value name is not one of its values. -/
def invalidOptionMessage (layout : ShaderOptionGroupLayout) (shaderOption : String × String) :
    String :=
  match layout.FindShaderOptionIndex shaderOption.1 with
  | none => "Invalid shader option: " ++ shaderOption.1
  | some _ =>
    "Invalid value (" ++ shaderOption.2 ++ ") for shader option: " ++ shaderOption.1

/-! ## The option layout of the spec -/

/-- Modelled from the spec: `RPI::ShaderOptionDescriptor` is not in the source file. The
spec describes the schema as a "mapping from option name → {allowed value set, default
value, bit-width/packing position}"; the default value plays no part in the builder and is
left out, and a value is identified by its position in the allowed set. -/
structure ShaderOptionDescriptor where
  m_name : String
  m_values : List String
  m_bitOffset : Nat
  m_bitCount : Nat
  deriving DecidableEq, Repr

/-- Modelled from the spec: the bits of the packed id that belong to the option, from its
packing position and bit width. -/
def ShaderOptionDescriptor.bitMask (option : ShaderOptionDescriptor) : Nat :=
  (2 ^ option.m_bitCount - 1) <<< option.m_bitOffset

/-- Modelled from the spec: `ShaderOptionDescriptor::Set` is not in the source file. The
spec has each resolved value applied "into a fresh option-group instance (building the
packed ShaderVariantId)", the id being a "packed numeric encoding of a full or partial
option-value assignment": the value is written into the option's bits of the key, and
those bits are marked in the mask. -/
def ShaderOptionDescriptor.Set (option : ShaderOptionDescriptor)
    (optionGroup : ShaderOptionGroup) (value : Nat) : ShaderOptionGroup :=
  { m_id :=
      { m_key := (optionGroup.m_id.m_key ^^^ (optionGroup.m_id.m_key &&& option.bitMask))
          ||| ((value <<< option.m_bitOffset) &&& option.bitMask)
        m_mask := optionGroup.m_id.m_mask ||| option.bitMask } }

/-- Modelled from the spec: `RPI::ShaderOptionGroupLayout` is not in the source file. The
layout is the list of its options; an option is found by its name, a value by its name in
the option's allowed set, and an id is fully specified when the bits of every option are
marked. The hash is given with the layout. -/
def packedLayout (options : List ShaderOptionDescriptor) (hashValue : Nat) :
    ShaderOptionGroupLayout :=
  { GetShaderOptionCount := options.length
    FindShaderOptionIndex := fun optionName =>
      options.findIdx? (fun option => option.m_name == optionName)
    FindValue := fun optionIndex valueName =>
      match options[optionIndex]? with
      | some option => option.m_values.indexOf? valueName
      | none => none
    Set := fun optionIndex optionGroup value =>
      match options[optionIndex]? with
      | some option => option.Set optionGroup value
      | none => optionGroup
    IsFullySpecified := fun id =>
      options.all (fun option => id.m_mask &&& option.bitMask == option.bitMask)
    GetHash := hashValue }

/-- Modelled from the spec: the schema gives every option its own "bit-width/packing
position" in the packed id, so the bits of two options of the layout do not overlap. -/
def disjointPacking (options : List ShaderOptionDescriptor) : Prop :=
  options.Pairwise (fun first second => first.bitMask &&& second.bitMask = 0)

/-! ## Concrete inputs

The values below are used to run the definitions on concrete inputs. -/

/-- Constants for the concrete runs. -/
def sampleConstants : BuilderConstants :=
  { ShaderAssetBuilder2JobKey := "Shader Asset"
    ShaderVariantAssetBuilder2JobKey := "Shader Variant Asset"
    GetShaderVariantTreeAssetJobKey := "Shader Variant Asset_varianttree"
    GetShaderVariantAssetJobKey := fun stableId =>
      "Shader Variant Asset_variant_" ++ toString stableId
    ShaderVariantLoadErrorParam := "ShaderVariantLoadError"
    ShouldExitEarlyFromProcessJobParam := "ShouldExitEarlyFromProcessJob"
    ShaderSourceFilePathJobParam := "ShaderSourceFilePath"
    ShaderVariantJobVariantParam := "ShaderVariantJobVariant"
    Extension := "shadervariantlist"
    CommonSubFolder := "ShaderVariants" }

/-- A variant list with two variants that share the stable id 1. -/
def duplicateIdList : ShaderVariantListSourceData :=
  { m_shaderFilePath := "a.shader"
    m_shaderVariants := [{ m_stableId := 1, m_options := [] }, { m_stableId := 1, m_options := [] }] }

/-- A variant list with two variants of stable ids 1 and 2. -/
def twoVariantList : ShaderVariantListSourceData :=
  { m_shaderFilePath := "a.shader"
    m_shaderVariants := [{ m_stableId := 1, m_options := [] }, { m_stableId := 2, m_options := [] }] }

/-- The part of a path before its first dot. -/
def sampleStripExtension (path : String) : String :=
  String.mk (path.data.takeWhile (fun ch => ch != '.'))

/-- An environment for the concrete runs: one scan folder `/s`, the game project at `/g`,
every variant list file parses to `list`, a referenced shader resolves into `/s`, the
shader file exists iff `shaderExists`, and the asset system knows the override iff
`overrideFound`. Paths are joined with `/` and are already normalized. With the shader
`/s/a.shader` the override location is `/g/ShaderVariants/a.shadervariantlist`. -/
def sampleEnv (list : ShaderVariantListSourceData) (shaderExists overrideFound : Bool) :
    BuilderEnv :=
  { ConstructFull := fun root file _ => root ++ "/" ++ file
    LoadObjectFromFile := fun _ => some list
    ResolvePathReference := fun _ referenced => "/s/" ++ referenced
    LocalFileExists := fun _ => shaderExists
    FileBaseExists := fun _ => shaderExists
    GetAssetSafeFolders := (true, ["/s"])
    GetAbsoluteDevGameFolderPath := "/g"
    GetSourceInfoBySourcePath := fun _ => overrideFound
    Normalize := fun path => path
    StartsWith := fun source start => start.data.isPrefixOf source.data
    ReplaceExtension := fun path extension => sampleStripExtension path ++ "." ++ extension
    StripExtension := sampleStripExtension
    Join := fun first second _ _ => first ++ "/" ++ second
    Equal := fun a b _ => a == b
    AZ_TRAIT_OS_USE_WINDOWS_FILE_PATHS := false
    ValidateStableIdsAreUnique := fun variants =>
      decide ((variants.map (fun variantInfo => variantInfo.m_stableId)).Nodup)
    GetPossibleDepenencyPaths := fun _ referenced => ["/s/" ++ referenced, referenced]
    SaveObjectToJsonString := fun variantInfo =>
      (true, "StableId " ++ toString variantInfo.m_stableId) }

/-- A request for the list next to the shader, on two platforms. -/
def sampleRequest : CreateJobsRequest :=
  { m_watchFolder := "/s", m_sourceFile := "a.shadervariantlist"
    m_enabledPlatforms := [{ m_identifier := "pc" }, { m_identifier := "mac" }] }

/-- A request for the list at the override location, on two platforms. -/
def overrideRequest : CreateJobsRequest :=
  { m_watchFolder := "/g/ShaderVariants", m_sourceFile := "a.shadervariantlist"
    m_enabledPlatforms := [{ m_identifier := "pc" }, { m_identifier := "mac" }] }

/-- A response before `CreateJobs` has run. -/
def emptyResponse : CreateJobsResponse :=
  { m_result := CreateJobsResultCode.ShuttingDown, m_createJobOutputs := [] }

/-- An option schema for the concrete runs: two options of one bit each. -/
def sampleOptions : List ShaderOptionDescriptor :=
  [{ m_name := "o_quality", m_values := ["Low", "High"], m_bitOffset := 0, m_bitCount := 1 },
   { m_name := "o_fog", m_values := ["Off", "On"], m_bitOffset := 1, m_bitCount := 1 }]

/-- A backend for the concrete runs: every entry point compiles, with one byproduct. -/
def sampleBackend (apiName : String) (apiUniqueIndex : Nat) : ShaderPlatformInterface :=
  { GetAPIName := apiName
    GetAPIUniqueIndex := apiUniqueIndex
    CompilePlatformInternal := fun _ sourcePath entryName _ _ _ =>
      some { m_byProducts :=
               { m_intermediatePaths := [sourcePath ++ "." ++ entryName ++ ".pdb"]
                 m_dynamicBranchCount := 0 }
             m_compiled := entryName }
    CreateShaderStageFunction := fun descriptor => descriptor.m_compiled }

/-- An environment of job execution for the concrete runs: the job is for `variantInfo`,
the shader has the given backends and supervariants and the entry points `MainVS` and
`MainPS`, the option schema is `sampleOptions`, and every file can be read and written
except the generated sources listed in `unreadable`. The creator builds every asset, and
the entry-point map of this environment iterates in insertion order. -/
def sampleJobEnv (variantInfo : VariantInfo) (backends : List ShaderPlatformInterface)
    (supervariants : List SupervariantInfo) (unreadable : List String) : JobEnv :=
  { ShaderVariantAsset2Extension := "azshadervariant2"
    ShaderVariantAsset2TypeId := "ShaderVariantAsset2"
    ShaderVariantAsset2SubProductType := 1
    MakeAssetProductSubId := fun api supervariant stableId subProductType =>
      ((api * 8 + supervariant) * 1000 + stableId) * 8 + subProductType.getD 0
    CreateName := fun name => name
    GetFileName := fun path => sampleStripExtension (path.drop 3)
    LoadObjectFromJsonString := fun _ => (true, variantInfo)
    PrepareSourceInput := fun _ shaderPath =>
      (some { m_azslSourceFullPath := sampleStripExtension shaderPath ++ ".azsl" },
        { m_source := "a.azsl"
          m_programSettings :=
            { m_entryPoints := [{ m_name := "MainVS", m_type := 0 },
                                { m_name := "MainPS", m_type := 1 }] }
          m_compiler := "" })
    DiscoverEnabledShaderPlatformInterfaces := fun _ _ => backends
    GetSupervariantListFromShaderSourceData := fun _ => supervariants
    ReadBuildOptions := fun _ => "-O3"
    Merge := fun first second => first ++ second
    ObtainBuildArtifactPathFromShaderAssetBuilder2 := fun api _ _ supervariant subId =>
      .ok ("/cache/a_" ++ toString api ++ "_" ++ toString supervariant
        ++ (match subId with
            | ShaderAssetSubId.OptionsJson => ".options.json"
            | ShaderAssetSubId.IaJson => ".ia.json"
            | ShaderAssetSubId.GeneratedHlslSource => ".hlsl"))
    ReadJsonFile := fun path => .ok path
    ParseOptionsPopulateOptionGroupLayout := fun _ _ => some (packedLayout sampleOptions 7)
    ParseIaPopulateFunctionData := fun _ _ => (true, ["MainVS", "MainPS"])
    ReadFile := fun path =>
      if path ∈ unreadable then .error "not found" else .ok "float4 MainPS();"
    GetDefaultEntryPointsFromFunctionDataList := fun functions =>
      functions.map (fun name => (name, 0))
    ToAssetBuilderShaderType := fun stageType => stageType
    ToRHIShaderStage := fun shaderType => shaderType
    WriteFile := fun _ _ => true
    SaveObjectToFile := fun _ _ => true
    ShaderVariantAssetCreatorEnd := fun _ => true
    EntryPointIterationOrder := fun entries => entries }

/-- A variant of stable id 5 that sets both options of `sampleOptions`. -/
def sampleVariant : VariantInfo :=
  { m_stableId := 5, m_options := [("o_quality", "High"), ("o_fog", "On")] }

/-- The variant `sampleVariant` with its options declared in the other order. -/
def sampleVariantSwapped : VariantInfo :=
  { m_stableId := 5, m_options := [("o_fog", "On"), ("o_quality", "High")] }

/-- The root variant: no option is set. -/
def rootVariant : VariantInfo :=
  { m_stableId := 0, m_options := [] }

/-- A creation context for the concrete runs, on the backend `dx12`. -/
def sampleContext : ShaderVariantCreationContext2 :=
  { m_shaderPlatformInterface := sampleBackend "dx12" 0
    m_platformInfo := { m_identifier := "pc" }
    m_shaderCompilerArguments := "-O3"
    m_tempDirPath := "/tmp"
    m_shaderOptionGroupLayout := packedLayout sampleOptions 7
    m_shaderEntryPoints := [("MainVS", 0), ("MainPS", 1)]
    m_shaderStemNamePrefix := "a"
    m_hlslSourcePath := "/cache/a_0_0.hlsl"
    m_hlslSourceContent := "float4 MainPS();" }

/-- A variant job request as `CreateJobs` emits it. -/
def sampleJobRequest : ProcessJobRequest :=
  { m_jobDescription :=
      { m_priority := -5000, m_critical := false
        m_jobKey := "Shader Variant Asset_variant_5", m_platformIdentifier := "pc"
        m_jobDependencyList := []
        m_jobParameters := [("ShaderVariantJobVariant", "StableId 5"),
                            ("ShaderSourceFilePath", "/s/a.shader")] }
    m_jobId := 1, m_watchFolder := "/s", m_sourceFile := "a.shadervariantlist"
    m_tempDirPath := "/tmp", m_platformInfo := { m_identifier := "pc" } }

/-- A response before `ProcessJob` has run. -/
def emptyJobResponse : ProcessJobResponse :=
  { m_resultCode := ProcessJobResultCode.Failed, m_outputProducts := [] }

/-- An environment of the tree job for the concrete runs: the shader data loads, the asset
is built and saved. -/
def sampleTreeJobEnv : TreeJobEnv :=
  { LoadShaderDataJson := fun _ =>
      .ok { m_source := "a.azsl", m_programSettings := { m_entryPoints := [] }
            m_compiler := "" }
    GetAbsolutePathToAzslFile := fun shaderPath _ => sampleStripExtension shaderPath ++ ".azsl"
    DefaultSupervariantIndex := 0
    CreatorEnd := fun _ => true
    ShaderVariantTreeAssetExtension := "azshadervarianttree"
    ShaderVariantTreeAssetProductSubID := 0
    ShaderVariantTreeAssetTypeId := "ShaderVariantTreeAsset"
    SaveObjectToFile := fun _ _ => true }

/-- A tree job request as `CreateJobs` emits it. -/
def sampleTreeJobRequest : ProcessJobRequest :=
  { m_jobDescription :=
      { m_priority := 1, m_critical := false
        m_jobKey := "Shader Variant Asset_varianttree", m_platformIdentifier := "pc"
        m_jobDependencyList := []
        m_jobParameters := [("ShaderSourceFilePath", "/s/a.shader")] }
    m_jobId := 1, m_watchFolder := "/s", m_sourceFile := "a.shadervariantlist"
    m_tempDirPath := "/tmp", m_platformInfo := { m_identifier := "pc" } }

/-- The environment `sampleJobEnv` in which the option schema of the backend of unique
index 1 has the hash 8 and the schema of every other backend the hash 7. -/
def mismatchJobEnv (backends : List ShaderPlatformInterface) : JobEnv :=
  { sampleJobEnv sampleVariant backends [{ m_name := "" }] [] with
    ParseOptionsPopulateOptionGroupLayout := fun _ json =>
      some (packedLayout sampleOptions (if json = "/cache/a_1_0.options.json" then 8 else 7)) }

/-- The environment `sampleJobEnv` in which `ShaderVariantAssetCreator2::End` builds no
asset. -/
def endFailsJobEnv (backends : List ShaderPlatformInterface) : JobEnv :=
  { sampleJobEnv sampleVariant backends [{ m_name := "" }] [] with
    ShaderVariantAssetCreatorEnd := fun _ => false }

/-! ## Auxiliary facts about lists and the job loops -/

theorem foldl_push_back {α : Type} (f : α → JobDescriptor) (xs : List α)
    (response : CreateJobsResponse) :
    xs.foldl (fun response x => response.push_back (f x)) response
      = { response with m_createJobOutputs := response.m_createJobOutputs ++ xs.map f } := by
  induction xs generalizing response with
  | nil => simp
  | cons x xs ih =>
    rw [List.foldl_cons, ih]
    simp [CreateJobsResponse.push_back]

theorem foldl_platform_blocks {α β : Type} (tree : β → JobDescriptor)
    (variant : β → α → JobDescriptor) (variants : List α) (platforms : List β)
    (response : CreateJobsResponse) :
    platforms.foldl
        (fun response info =>
          variants.foldl (fun response v => response.push_back (variant info v))
            (response.push_back (tree info)))
        response
      = { response with
          m_createJobOutputs := response.m_createJobOutputs
            ++ platforms.flatMap (fun info => tree info :: variants.map (variant info)) } := by
  induction platforms generalizing response with
  | nil => simp
  | cons info platforms ih =>
    rw [List.foldl_cons, ih, foldl_push_back]
    simp [CreateJobsResponse.push_back]

theorem length_flatMap_blocks {α β : Type} (f : α → List β) (m : Nat)
    (hf : ∀ x, (f x).length = m) (xs : List α) :
    (xs.flatMap f).length = xs.length * m := by
  induction xs with
  | nil => simp
  | cons x xs ih => simp [List.flatMap_cons, hf, ih, Nat.succ_mul, Nat.add_comm]

theorem getElem?_flatMap_blocks {α β : Type} (f : α → List β) (m : Nat)
    (hf : ∀ x, (f x).length = m) (xs : List α) (i r : Nat) (x : α)
    (hx : xs[i]? = some x) (hr : r < m) :
    (xs.flatMap f)[i * m + r]? = (f x)[r]? := by
  induction xs generalizing i with
  | nil => simp at hx
  | cons y ys ih =>
    cases i with
    | zero =>
      simp at hx
      subst hx
      simp [List.flatMap_cons, List.getElem?_append_left, hf, hr]
    | succ i =>
      simp at hx
      have h1 : (i + 1) * m + r = (f y).length + (i * m + r) := by
        rw [hf, Nat.succ_mul]; omega
      rw [List.flatMap_cons, h1, List.getElem?_append_right (by omega)]
      simpa using ih i hx

/-! ## Auxiliary facts about the embedded functions -/

theorem AddShaderAssetJobDependency2_eq (c : BuilderConstants) (env : BuilderEnv)
    (jobDescriptor : JobDescriptor) (platformInfo : PlatformInfo)
    (shaderVariantListFilePath shaderFilePath : String) :
    AddShaderAssetJobDependency2 c env jobDescriptor platformInfo shaderVariantListFilePath
        shaderFilePath
      = { jobDescriptor with
          m_jobDependencyList := jobDescriptor.m_jobDependencyList
            ++ (env.GetPossibleDepenencyPaths shaderVariantListFilePath shaderFilePath).map
                (fun file =>
                  { m_jobKey := c.ShaderAssetBuilder2JobKey
                    m_platformIdentifier := platformInfo.m_identifier
                    m_type := JobDependencyType.Order
                    m_sourceFile := { m_sourceFileDependencyPath := file } }) } := by
  unfold AddShaderAssetJobDependency2
  generalize env.GetPossibleDepenencyPaths shaderVariantListFilePath shaderFilePath = paths
  induction paths generalizing jobDescriptor with
  | nil => simp
  | cons file paths ih =>
    rw [List.foldl_cons, ih]
    simp

theorem find_emplace_nil (key value : String) :
    JobParameterMap.find (JobParameterMap.emplace [] key value) key = some value := by
  simp [JobParameterMap.find, JobParameterMap.emplace, List.lookup]

theorem Validate_false_keeps_flag (c : BuilderConstants) (env : BuilderEnv)
    (listPath shaderPath : String) (flag flagOut : Bool)
    (h : ValidateShaderVariantListLocation2 c env listPath shaderPath flag
      = .ok (false, flagOut)) : flagOut = flag := by
  unfold ValidateShaderVariantListLocation2 at h
  split at h
  · simp at h
  · simp at h; exact h.symm
  · simp only [] at h
    split_ifs at h <;> simp at h
    exact h.symm

theorem load_exit_code (c : BuilderConstants) (env : BuilderEnv) (listPath : String)
    (list0 : ShaderVariantListSourceData) (path0 : String) (loadResult : LoadResult2)
    (list : ShaderVariantListSourceData) (path : String)
    (hload : LoadShaderVariantList2 c env listPath list0 path0 false
      = .ok (loadResult, list, path, true)) :
    loadResult.m_code = LoadResult2.Code.Success := by
  unfold LoadShaderVariantList2 at hload
  cases hp : env.LoadObjectFromFile listPath with
  | none => simp [hp] at hload
  | some parsed =>
    simp only [hp] at hload
    cases hex : env.LocalFileExists (env.ResolvePathReference listPath parsed.m_shaderFilePath) with
    | false => simp [hex] at hload
    | true =>
      simp only [hex] at hload
      cases hv : ValidateShaderVariantListLocation2 c env listPath
          (env.ResolvePathReference listPath parsed.m_shaderFilePath) false with
      | error e => simp [hv] at hload
      | ok r =>
        obtain ⟨b, e⟩ := r
        cases b with
        | false =>
          have := Validate_false_keeps_flag _ _ _ _ _ _ hv
          subst this
          simp [hv] at hload
        | true =>
          cases e with
          | true =>
            simp [hv] at hload
            rw [← hload.1]
          | false =>
            simp only [hv] at hload
            split_ifs at hload <;> simp at hload

theorem CreateJobs_of_load (c : BuilderConstants) (env : BuilderEnv)
    (request : CreateJobsRequest) (response : CreateJobsResponse) (loadResult : LoadResult2)
    (list : ShaderVariantListSourceData) (path : String) (exit : Bool)
    (hload : LoadShaderVariantList2 c env
      (env.ConstructFull request.m_watchFolder request.m_sourceFile true) {} "" false
      = .ok (loadResult, list, path, exit)) :
    CreateJobs c env request response =
      if loadResult.m_code = LoadResult2.Code.Error then
        .ok { response with m_result := CreateJobsResultCode.Failed }
      else if loadResult.m_code = LoadResult2.Code.DeferredError ∨ exit = true then
        .ok { m_result := CreateJobsResultCode.Success
              m_createJobOutputs := response.m_createJobOutputs
                ++ request.m_enabledPlatforms.map
                  (dependencyOnlyJobDescriptor c env loadResult exit
                    (env.ConstructFull request.m_watchFolder request.m_sourceFile true) list) }
      else
        .ok { m_result := CreateJobsResultCode.Success
              m_createJobOutputs := response.m_createJobOutputs
                ++ normalJobs c env
                  (env.ConstructFull request.m_watchFolder request.m_sourceFile true) list path
                  request.m_enabledPlatforms } := by
  unfold CreateJobs
  simp only [hload]
  split_ifs
  · rfl
  · rw [foldl_push_back]
  · rw [foldl_platform_blocks]
    rfl

theorem normalJobs_length (c : BuilderConstants) (env : BuilderEnv) (listPath : String)
    (list : ShaderVariantListSourceData) (path : String) (platforms : List PlatformInfo) :
    (normalJobs c env listPath list path platforms).length
      = platforms.length * (list.m_shaderVariants.length + 1) := by
  unfold normalJobs
  exact length_flatMap_blocks _ _ (fun info => by simp) platforms

theorem normalJobs_tree (c : BuilderConstants) (env : BuilderEnv) (listPath : String)
    (list : ShaderVariantListSourceData) (path : String) (platforms : List PlatformInfo)
    (i : Nat) (info : PlatformInfo) (hi : platforms[i]? = some info) :
    (normalJobs c env listPath list path platforms)[i * (list.m_shaderVariants.length + 1)]?
      = some (treeJobDescriptor c env listPath list path info) := by
  unfold normalJobs
  have h := getElem?_flatMap_blocks
    (fun info => treeJobDescriptor c env listPath list path info
      :: list.m_shaderVariants.map (variantJobDescriptor c env listPath path info))
    (list.m_shaderVariants.length + 1) (fun info => by simp) platforms i 0 info hi (by omega)
  simpa using h

theorem normalJobs_variant (c : BuilderConstants) (env : BuilderEnv) (listPath : String)
    (list : ShaderVariantListSourceData) (path : String) (platforms : List PlatformInfo)
    (i : Nat) (info : PlatformInfo) (hi : platforms[i]? = some info)
    (k : Nat) (variantInfo : VariantInfo) (hk : list.m_shaderVariants[k]? = some variantInfo) :
    (normalJobs c env listPath list path platforms)[
        i * (list.m_shaderVariants.length + 1) + 1 + k]?
      = some (variantJobDescriptor c env listPath path info variantInfo) := by
  unfold normalJobs
  have hlt : k < list.m_shaderVariants.length := by
    rcases Nat.lt_or_ge k list.m_shaderVariants.length with h | h
    · exact h
    · rw [List.getElem?_eq_none h] at hk; cases hk
  have h := getElem?_flatMap_blocks
    (fun info => treeJobDescriptor c env listPath list path info
      :: list.m_shaderVariants.map (variantJobDescriptor c env listPath path info))
    (list.m_shaderVariants.length + 1) (fun info => by simp) platforms i (k + 1) info hi
    (by omega)
  rw [Nat.add_assoc, Nat.add_comm 1 k, h]
  simp [hk]

theorem load_of_missing_shader (c : BuilderConstants) (env : BuilderEnv) (listPath : String)
    (list0 : ShaderVariantListSourceData) (path0 : String) (flag : Bool)
    (list : ShaderVariantListSourceData)
    (hparse : env.LoadObjectFromFile listPath = some list)
    (hmissing : env.LocalFileExists (env.ResolvePathReference listPath list.m_shaderFilePath)
      = false) :
    LoadShaderVariantList2 c env listPath list0 path0 flag
      = .ok ({ m_code := LoadResult2.Code.DeferredError
               m_deferredMessage := "The shader path ["
                 ++ env.ResolvePathReference listPath list.m_shaderFilePath
                 ++ "] was not found." }, list, path0, flag) := by
  unfold LoadShaderVariantList2
  simp [hparse, hmissing]

theorem load_of_validate (c : BuilderConstants) (env : BuilderEnv) (listPath : String)
    (list0 : ShaderVariantListSourceData) (path0 : String) (flag : Bool)
    (list : ShaderVariantListSourceData) (b e : Bool)
    (hparse : env.LoadObjectFromFile listPath = some list)
    (hexists : env.LocalFileExists (env.ResolvePathReference listPath list.m_shaderFilePath)
      = true)
    (hlocation : ValidateShaderVariantListLocation2 c env listPath
      (env.ResolvePathReference listPath list.m_shaderFilePath) flag = .ok (b, e)) :
    LoadShaderVariantList2 c env listPath list0 path0 flag
      = .ok ({ m_code :=
                 if b = false then LoadResult2.Code.Error
                 else if e = true then LoadResult2.Code.Success
                 else if env.ValidateStableIdsAreUnique list.m_shaderVariants = false then
                   LoadResult2.Code.Error
                 else if env.FileBaseExists
                     (env.ResolvePathReference listPath list.m_shaderFilePath) = false then
                   LoadResult2.Code.DeferredError
                 else LoadResult2.Code.Success
               m_deferredMessage :=
                 if b = true ∧ e = false
                     ∧ env.ValidateStableIdsAreUnique list.m_shaderVariants = true
                     ∧ env.FileBaseExists
                       (env.ResolvePathReference listPath list.m_shaderFilePath) = false then
                   "ShaderSourceData file does not exist: "
                     ++ env.ResolvePathReference listPath list.m_shaderFilePath ++ "."
                 else "" },
        list, env.ResolvePathReference listPath list.m_shaderFilePath, e) := by
  unfold LoadShaderVariantList2
  simp only [hparse, hexists, hlocation]
  cases b <;> cases e <;>
    cases env.ValidateStableIdsAreUnique list.m_shaderVariants <;>
    cases env.FileBaseExists (env.ResolvePathReference listPath list.m_shaderFilePath) <;>
    simp

theorem dependencyOnlyJobDescriptor_fields (c : BuilderConstants) (env : BuilderEnv)
    (loadResult : LoadResult2) (exit : Bool) (listPath : String)
    (list : ShaderVariantListSourceData) (info : PlatformInfo) :
    (dependencyOnlyJobDescriptor c env loadResult exit listPath list info).m_priority = -5000
      ∧ (dependencyOnlyJobDescriptor c env loadResult exit listPath list info).m_critical
          = false
      ∧ (dependencyOnlyJobDescriptor c env loadResult exit listPath list info).m_jobKey
          = c.ShaderVariantAssetBuilder2JobKey
      ∧ (dependencyOnlyJobDescriptor c env loadResult exit listPath list info).m_platformIdentifier
          = info.m_identifier := by
  unfold dependencyOnlyJobDescriptor
  simp only [AddShaderAssetJobDependency2_eq]
  split_ifs <;> simp

theorem dependencyOnlyJobDescriptor_deferred_param (c : BuilderConstants) (env : BuilderEnv)
    (loadResult : LoadResult2) (listPath : String) (list : ShaderVariantListSourceData)
    (info : PlatformInfo) (hcode : loadResult.m_code = LoadResult2.Code.DeferredError) :
    JobParameterMap.find
        (dependencyOnlyJobDescriptor c env loadResult false listPath list info).m_jobParameters
        c.ShaderVariantLoadErrorParam
      = some loadResult.m_deferredMessage := by
  unfold dependencyOnlyJobDescriptor
  simp [AddShaderAssetJobDependency2_eq, hcode, find_emplace_nil]

theorem dependencyOnlyJobDescriptor_exit_param (c : BuilderConstants) (env : BuilderEnv)
    (loadResult : LoadResult2) (listPath : String) (list : ShaderVariantListSourceData)
    (info : PlatformInfo) (hcode : loadResult.m_code = LoadResult2.Code.Success) :
    JobParameterMap.find
        (dependencyOnlyJobDescriptor c env loadResult true listPath list info).m_jobParameters
        c.ShouldExitEarlyFromProcessJobParam
      = some listPath := by
  unfold dependencyOnlyJobDescriptor
  simp [AddShaderAssetJobDependency2_eq, hcode, find_emplace_nil]

theorem ProcessJob_of_load_error_param (c : BuilderConstants) (IsCancelled : Nat → Bool)
    (tree variant : ProcessJobRequest → ProcessJobResponse → Except Fault ProcessJobResponse)
    (request : ProcessJobRequest) (response : ProcessJobResponse) (message : String)
    (h : JobParameterMap.find request.m_jobDescription.m_jobParameters
      c.ShaderVariantLoadErrorParam = some message) :
    ProcessJob c IsCancelled tree variant request response
      = .ok { m_resultCode := ProcessJobResultCode.Failed
              m_outputProducts := response.m_outputProducts } := by
  unfold ProcessJob
  simp [h, JobParameterMap.atKey]

theorem load_error_iff (c : BuilderConstants) (env : BuilderEnv) (listPath : String)
    (list0 : ShaderVariantListSourceData) (path0 : String) (loadResult : LoadResult2)
    (list : ShaderVariantListSourceData) (path : String) (exit : Bool)
    (hload : LoadShaderVariantList2 c env listPath list0 path0 false
      = .ok (loadResult, list, path, exit)) :
    loadResult.m_code = LoadResult2.Code.Error ↔
      (env.LoadObjectFromFile listPath = none
        ∨ ∃ parsed, env.LoadObjectFromFile listPath = some parsed
            ∧ env.LocalFileExists (env.ResolvePathReference listPath parsed.m_shaderFilePath)
                = true
            ∧ ((∃ e, ValidateShaderVariantListLocation2 c env listPath
                  (env.ResolvePathReference listPath parsed.m_shaderFilePath) false
                  = .ok (false, e))
              ∨ (ValidateShaderVariantListLocation2 c env listPath
                    (env.ResolvePathReference listPath parsed.m_shaderFilePath) false
                    = .ok (true, false)
                  ∧ env.ValidateStableIdsAreUnique parsed.m_shaderVariants = false))) := by
  cases hp : env.LoadObjectFromFile listPath with
  | none =>
    unfold LoadShaderVariantList2 at hload
    simp [hp] at hload
    simp [← hload.1]
  | some parsed =>
    cases hex : env.LocalFileExists (env.ResolvePathReference listPath parsed.m_shaderFilePath) with
    | false =>
      rw [load_of_missing_shader c env listPath list0 path0 false parsed hp hex] at hload
      simp at hload
      simp [← hload.1, hex]
    | true =>
      cases hv : ValidateShaderVariantListLocation2 c env listPath
          (env.ResolvePathReference listPath parsed.m_shaderFilePath) false with
      | error e =>
        unfold LoadShaderVariantList2 at hload
        simp [hp, hex, hv] at hload
      | ok r =>
        obtain ⟨b, e⟩ := r
        rw [load_of_validate c env listPath list0 path0 false parsed b e hp hex hv] at hload
        simp at hload
        rw [← hload.1]
        cases b <;> cases e <;>
          cases hu : env.ValidateStableIdsAreUnique parsed.m_shaderVariants <;>
          cases hf : env.FileBaseExists
            (env.ResolvePathReference listPath parsed.m_shaderFilePath) <;>
          simp [hex, hv, hu, hf]

theorem ProcessJob_of_exit_param_only (c : BuilderConstants) (IsCancelled : Nat → Bool)
    (tree variant : ProcessJobRequest → ProcessJobResponse → Except Fault ProcessJobResponse)
    (request : ProcessJobRequest) (response : ProcessJobResponse) (value : String)
    (hexit : JobParameterMap.find request.m_jobDescription.m_jobParameters
      c.ShouldExitEarlyFromProcessJobParam = some value)
    (herror : JobParameterMap.find request.m_jobDescription.m_jobParameters
      c.ShaderVariantLoadErrorParam = none) :
    ProcessJob c IsCancelled tree variant request response
      = .error (Fault.keyNotFound c.ShaderVariantLoadErrorParam) := by
  unfold ProcessJob
  simp [hexit, herror, JobParameterMap.atKey]

theorem load_success_inputs (c : BuilderConstants) (env : BuilderEnv) (listPath : String)
    (list0 : ShaderVariantListSourceData) (path0 : String) (loadResult : LoadResult2)
    (list : ShaderVariantListSourceData) (path : String) (exit : Bool)
    (hload : LoadShaderVariantList2 c env listPath list0 path0 false
      = .ok (loadResult, list, path, exit))
    (hcode : loadResult.m_code = LoadResult2.Code.Success) :
    env.LoadObjectFromFile listPath = some list
      ∧ path = env.ResolvePathReference listPath list.m_shaderFilePath := by
  cases hp : env.LoadObjectFromFile listPath with
  | none =>
    unfold LoadShaderVariantList2 at hload
    simp [hp] at hload
    rw [← hload.1] at hcode
    cases hcode
  | some parsed =>
    cases hex : env.LocalFileExists (env.ResolvePathReference listPath parsed.m_shaderFilePath) with
    | false =>
      rw [load_of_missing_shader c env listPath list0 path0 false parsed hp hex] at hload
      simp at hload
      rw [← hload.1] at hcode
      cases hcode
    | true =>
      cases hv : ValidateShaderVariantListLocation2 c env listPath
          (env.ResolvePathReference listPath parsed.m_shaderFilePath) false with
      | error e =>
        unfold LoadShaderVariantList2 at hload
        simp [hp, hex, hv] at hload
      | ok r =>
        obtain ⟨b, e⟩ := r
        rw [load_of_validate c env listPath list0 path0 false parsed b e hp hex hv] at hload
        simp at hload
        obtain ⟨-, h2, h3, -⟩ := hload
        subst h2
        exact ⟨rfl, h3.symm⟩

theorem Validate_of_split (c : BuilderConstants) (env : BuilderEnv)
    (listPath shaderPath scanFolder relativePath : String) (flag : Bool)
    (hsplit : SplitSourceAssetPathIntoScanFolderFullPathAndRelativeFilePath2 env shaderPath
      "" "" = .ok (true, scanFolder, relativePath)) :
    ValidateShaderVariantListLocation2 c env listPath shaderPath flag =
      if expectedHigherPrecedenceFileFullPath c env relativePath = env.Normalize listPath then
        .ok (true, false)
      else if env.GetSourceInfoBySourcePath
          (expectedHigherPrecedenceFileFullPath c env relativePath) = true then
        .ok (true, true)
      else if env.Equal (env.StripExtension (env.Normalize shaderPath))
          (env.StripExtension (env.Normalize listPath))
          (!env.AZ_TRAIT_OS_USE_WINDOWS_FILE_PATHS) = false then
        .ok (false, flag)
      else .ok (true, false) := by
  unfold ValidateShaderVariantListLocation2
  simp only [hsplit]
  split_ifs <;> simp_all

/-! ## Claims -/

/-- C1: when the variant list loads with code `Success` and without early exit, `CreateJobs`
returns with result `Success` and appends exactly `P * (N + 1)` job descriptors, where `P`
is the number of enabled platforms and `N` the number of declared variants: for the `i`-th
platform, the job at position `i * (N + 1)` is the tree job (key
`GetShaderVariantTreeAssetJobKey`) and the job at position `i * (N + 1) + 1 + k` is the job
of the `k`-th `VariantInfo` (key `GetShaderVariantAssetJobKey` of its stable id), all tagged
with the identifier of the `i`-th platform. -/
theorem C1_normal_path_emits_tree_and_variant_jobs (c : BuilderConstants) (env : BuilderEnv)
    (request : CreateJobsRequest) (response : CreateJobsResponse) (loadResult : LoadResult2)
    (list : ShaderVariantListSourceData) (path : String)
    (hload : LoadShaderVariantList2 c env
      (env.ConstructFull request.m_watchFolder request.m_sourceFile true) {} "" false
      = .ok (loadResult, list, path, false))
    (hcode : loadResult.m_code = LoadResult2.Code.Success) :
    ∃ emitted : List JobDescriptor,
      CreateJobs c env request response
        = .ok { m_result := CreateJobsResultCode.Success
                m_createJobOutputs := response.m_createJobOutputs ++ emitted }
      ∧ emitted.length
          = request.m_enabledPlatforms.length * (list.m_shaderVariants.length + 1)
      ∧ ∀ (i : Nat) (info : PlatformInfo), request.m_enabledPlatforms[i]? = some info →
          (∃ job, emitted[i * (list.m_shaderVariants.length + 1)]? = some job
            ∧ job.m_jobKey = c.GetShaderVariantTreeAssetJobKey
            ∧ job.m_platformIdentifier = info.m_identifier)
          ∧ ∀ (k : Nat) (variantInfo : VariantInfo),
              list.m_shaderVariants[k]? = some variantInfo →
              ∃ job, emitted[i * (list.m_shaderVariants.length + 1) + 1 + k]? = some job
                ∧ job.m_jobKey = c.GetShaderVariantAssetJobKey variantInfo.m_stableId
                ∧ job.m_platformIdentifier = info.m_identifier := by
  refine ⟨normalJobs c env (env.ConstructFull request.m_watchFolder request.m_sourceFile true)
    list path request.m_enabledPlatforms, ?_, normalJobs_length _ _ _ _ _ _, ?_⟩
  · rw [CreateJobs_of_load c env request response loadResult list path false hload]
    simp [hcode]
  · intro i info hi
    refine ⟨⟨_, normalJobs_tree _ _ _ _ _ _ i info hi, ?_, ?_⟩, ?_⟩
    · simp [treeJobDescriptor, AddShaderAssetJobDependency2_eq]
    · simp [treeJobDescriptor, AddShaderAssetJobDependency2_eq]
    · intro k variantInfo hk
      exact ⟨_, normalJobs_variant _ _ _ _ _ _ i info hi k variantInfo hk, rfl, rfl⟩

/-- Witness of C1: the sample list with two variants on two platforms gives six jobs. -/
theorem C1_normal_path_emits_tree_and_variant_jobs_witness :
    ∃ emitted : List JobDescriptor,
      CreateJobs sampleConstants (sampleEnv twoVariantList true false) sampleRequest
          emptyResponse
        = .ok { m_result := CreateJobsResultCode.Success
                m_createJobOutputs := emptyResponse.m_createJobOutputs ++ emitted }
      ∧ emitted.length = 2 * (2 + 1) := by
  obtain ⟨emitted, h1, h2, _⟩ :=
    C1_normal_path_emits_tree_and_variant_jobs sampleConstants
      (sampleEnv twoVariantList true false) sampleRequest emptyResponse
      { m_code := LoadResult2.Code.Success } twoVariantList "/s/a.shader" (by rfl) rfl
  exact ⟨emitted, h1, h2⟩

/-- C2, counterexample: the sample list has two variants with stable id 1 and parses, yet
`CreateJobs` reports `Success` and appends one job per platform, both when the referenced
shader file is missing and when the list is superseded by an override. -/
theorem C2_duplicate_ids_do_not_always_fail :
    ¬ (duplicateIdList.m_shaderVariants.map (fun variantInfo => variantInfo.m_stableId)).Nodup
      ∧ (∃ job1 job2,
          CreateJobs sampleConstants (sampleEnv duplicateIdList false false) sampleRequest
              emptyResponse
            = .ok { m_result := CreateJobsResultCode.Success
                    m_createJobOutputs := [job1, job2] })
      ∧ (∃ job1 job2,
          CreateJobs sampleConstants (sampleEnv duplicateIdList true true) sampleRequest
              emptyResponse
            = .ok { m_result := CreateJobsResultCode.Success
                    m_createJobOutputs := [job1, job2] }) := by
  refine ⟨by decide, ⟨_, _, rfl⟩, ⟨_, _, rfl⟩⟩

/-- C2, amended: for a variant list that parses and has two entries with the same stable id
(which the stable-id validation rejects), if the resolved shader file exists and the
location validation returns without asking for an early exit, `CreateJobs` reports `Failed`
and leaves the job list unchanged. -/
theorem C2_duplicate_ids_fail_once_checked (c : BuilderConstants) (env : BuilderEnv)
    (request : CreateJobsRequest) (response : CreateJobsResponse)
    (list : ShaderVariantListSourceData) (b : Bool)
    (hparse : env.LoadObjectFromFile
      (env.ConstructFull request.m_watchFolder request.m_sourceFile true) = some list)
    (hdup : ¬ (list.m_shaderVariants.map (fun variantInfo => variantInfo.m_stableId)).Nodup)
    (hvalidator : ∀ variants : List VariantInfo,
      ¬ (variants.map (fun variantInfo => variantInfo.m_stableId)).Nodup →
      env.ValidateStableIdsAreUnique variants = false)
    (hexists : env.LocalFileExists
      (env.ResolvePathReference
        (env.ConstructFull request.m_watchFolder request.m_sourceFile true)
        list.m_shaderFilePath) = true)
    (hlocation : ValidateShaderVariantListLocation2 c env
      (env.ConstructFull request.m_watchFolder request.m_sourceFile true)
      (env.ResolvePathReference
        (env.ConstructFull request.m_watchFolder request.m_sourceFile true)
        list.m_shaderFilePath) false = .ok (b, false)) :
    CreateJobs c env request response
      = .ok { m_result := CreateJobsResultCode.Failed
              m_createJobOutputs := response.m_createJobOutputs } := by
  have hload := load_of_validate c env _ {} "" false list b false hparse hexists hlocation
  rw [CreateJobs_of_load c env request response _ _ _ _ hload]
  cases b <;> simp [hvalidator _ hdup]

/-- Witness of C2 (amended): the sample list with a duplicated stable id, next to an
existing shader and with no override. -/
theorem C2_duplicate_ids_fail_once_checked_witness :
    CreateJobs sampleConstants (sampleEnv duplicateIdList true false) sampleRequest
        emptyResponse
      = .ok { m_result := CreateJobsResultCode.Failed
              m_createJobOutputs := emptyResponse.m_createJobOutputs } :=
  C2_duplicate_ids_fail_once_checked sampleConstants (sampleEnv duplicateIdList true false)
    sampleRequest emptyResponse duplicateIdList true rfl (by decide)
    (fun variants h => by simpa [sampleEnv] using h) rfl (by rfl)

/-- C3: when the variant list parses and the resolved shader file does not exist (the check
of lines 243-247), `CreateJobs` returns with result `Success`, appends one job per platform,
and every appended job carries the deferred-error parameter with the recorded message;
`ProcessJob` on a request for any of these jobs returns with result `Failed` and the output
products unchanged, whatever the cancellation state and the two job handlers. -/
theorem C3_missing_shader_is_deferred_to_ProcessJob (c : BuilderConstants) (env : BuilderEnv)
    (request : CreateJobsRequest) (response : CreateJobsResponse)
    (list : ShaderVariantListSourceData)
    (hparse : env.LoadObjectFromFile
      (env.ConstructFull request.m_watchFolder request.m_sourceFile true) = some list)
    (hmissing : env.LocalFileExists
      (env.ResolvePathReference
        (env.ConstructFull request.m_watchFolder request.m_sourceFile true)
        list.m_shaderFilePath) = false) :
    ∃ emitted : List JobDescriptor,
      CreateJobs c env request response
        = .ok { m_result := CreateJobsResultCode.Success
                m_createJobOutputs := response.m_createJobOutputs ++ emitted }
      ∧ emitted.length = request.m_enabledPlatforms.length
      ∧ ∀ job ∈ emitted,
          JobParameterMap.find job.m_jobParameters c.ShaderVariantLoadErrorParam
            = some ("The shader path ["
                ++ env.ResolvePathReference
                    (env.ConstructFull request.m_watchFolder request.m_sourceFile true)
                    list.m_shaderFilePath
                ++ "] was not found.")
          ∧ ∀ (IsCancelled : Nat → Bool)
              (tree variant :
                ProcessJobRequest → ProcessJobResponse → Except Fault ProcessJobResponse)
              (jobRequest : ProcessJobRequest) (jobResponse : ProcessJobResponse),
              jobRequest.m_jobDescription = job →
              ProcessJob c IsCancelled tree variant jobRequest jobResponse
                = .ok { m_resultCode := ProcessJobResultCode.Failed
                        m_outputProducts := jobResponse.m_outputProducts } := by
  have hload := load_of_missing_shader c env _ {} "" false list hparse hmissing
  refine ⟨request.m_enabledPlatforms.map
    (dependencyOnlyJobDescriptor c env
      { m_code := LoadResult2.Code.DeferredError
        m_deferredMessage := "The shader path ["
          ++ env.ResolvePathReference
              (env.ConstructFull request.m_watchFolder request.m_sourceFile true)
              list.m_shaderFilePath
          ++ "] was not found." }
      false (env.ConstructFull request.m_watchFolder request.m_sourceFile true) list),
    ?_, ?_, ?_⟩
  · rw [CreateJobs_of_load c env request response _ _ _ _ hload]
    simp
  · simp
  · intro job hjob
    obtain ⟨info, -, rfl⟩ := List.mem_map.1 hjob
    have hparam := dependencyOnlyJobDescriptor_deferred_param c env
      { m_code := LoadResult2.Code.DeferredError
        m_deferredMessage := "The shader path ["
          ++ env.ResolvePathReference
              (env.ConstructFull request.m_watchFolder request.m_sourceFile true)
              list.m_shaderFilePath
          ++ "] was not found." }
      (env.ConstructFull request.m_watchFolder request.m_sourceFile true) list info rfl
    refine ⟨hparam, ?_⟩
    intro IsCancelled tree variant jobRequest jobResponse hreq
    exact ProcessJob_of_load_error_param c IsCancelled tree variant jobRequest jobResponse _
      (by rw [hreq]; exact hparam)

/-- Witness of C3: the sample list next to a shader file that does not exist. -/
theorem C3_missing_shader_is_deferred_to_ProcessJob_witness :
    ∃ emitted : List JobDescriptor,
      CreateJobs sampleConstants (sampleEnv twoVariantList false false) sampleRequest
          emptyResponse
        = .ok { m_result := CreateJobsResultCode.Success
                m_createJobOutputs := emptyResponse.m_createJobOutputs ++ emitted }
      ∧ emitted.length = 2 := by
  obtain ⟨emitted, h1, h2, _⟩ :=
    C3_missing_shader_is_deferred_to_ProcessJob sampleConstants
      (sampleEnv twoVariantList false false) sampleRequest emptyResponse twoVariantList rfl rfl
  exact ⟨emitted, h1, h2⟩

/-- C4: when the load result is a deferred error or the list is superseded (early exit),
`CreateJobs` returns with result `Success` and appends exactly one job per enabled
platform, in platform order, each tagged with its platform, with priority -5000 and not
critical; every appended job has the builder's generic job key, so none of them is a tree
job or a per-variant job as soon as those keys differ from the generic key. -/
theorem C4_deferred_or_superseded_emits_one_job_per_platform (c : BuilderConstants)
    (env : BuilderEnv) (request : CreateJobsRequest) (response : CreateJobsResponse)
    (loadResult : LoadResult2) (list : ShaderVariantListSourceData) (path : String)
    (exit : Bool)
    (hload : LoadShaderVariantList2 c env
      (env.ConstructFull request.m_watchFolder request.m_sourceFile true) {} "" false
      = .ok (loadResult, list, path, exit))
    (hcase : loadResult.m_code = LoadResult2.Code.DeferredError ∨ exit = true) :
    ∃ emitted : List JobDescriptor,
      CreateJobs c env request response
        = .ok { m_result := CreateJobsResultCode.Success
                m_createJobOutputs := response.m_createJobOutputs ++ emitted }
      ∧ emitted.length = request.m_enabledPlatforms.length
      ∧ (∀ (i : Nat) (info : PlatformInfo), request.m_enabledPlatforms[i]? = some info →
          ∃ job, emitted[i]? = some job
            ∧ job.m_platformIdentifier = info.m_identifier
            ∧ job.m_priority = -5000
            ∧ job.m_critical = false)
      ∧ (∀ job ∈ emitted, job.m_jobKey = c.ShaderVariantAssetBuilder2JobKey)
      ∧ (c.ShaderVariantAssetBuilder2JobKey ≠ c.GetShaderVariantTreeAssetJobKey →
          ∀ job ∈ emitted, job.m_jobKey ≠ c.GetShaderVariantTreeAssetJobKey)
      ∧ (∀ stableId : Nat,
          c.ShaderVariantAssetBuilder2JobKey ≠ c.GetShaderVariantAssetJobKey stableId →
          ∀ job ∈ emitted, job.m_jobKey ≠ c.GetShaderVariantAssetJobKey stableId) := by
  have hne : loadResult.m_code ≠ LoadResult2.Code.Error := by
    rcases hcase with h | h
    · rw [h]; decide
    · subst h
      rw [load_exit_code c env _ _ _ _ _ _ hload]; decide
  have hkey : ∀ job ∈ request.m_enabledPlatforms.map
      (dependencyOnlyJobDescriptor c env loadResult exit
        (env.ConstructFull request.m_watchFolder request.m_sourceFile true) list),
      job.m_jobKey = c.ShaderVariantAssetBuilder2JobKey := by
    intro job hjob
    obtain ⟨info, -, rfl⟩ := List.mem_map.1 hjob
    exact (dependencyOnlyJobDescriptor_fields c env loadResult exit _ list info).2.2.1
  refine ⟨request.m_enabledPlatforms.map
    (dependencyOnlyJobDescriptor c env loadResult exit
      (env.ConstructFull request.m_watchFolder request.m_sourceFile true) list),
    ?_, by simp, ?_, hkey, ?_, ?_⟩
  · rw [CreateJobs_of_load c env request response _ _ _ _ hload]
    simp [hne, hcase]
  · intro i info hi
    have hf := dependencyOnlyJobDescriptor_fields c env loadResult exit
      (env.ConstructFull request.m_watchFolder request.m_sourceFile true) list info
    exact ⟨_, by simp [List.getElem?_map, hi], hf.2.2.2, hf.1, hf.2.1⟩
  · intro hdiff job hjob
    rw [hkey job hjob]; exact hdiff
  · intro stableId hdiff job hjob
    rw [hkey job hjob]; exact hdiff

/-- Witness of C4: the sample list next to a shader file that does not exist. -/
theorem C4_deferred_or_superseded_emits_one_job_per_platform_witness :
    ∃ emitted : List JobDescriptor,
      CreateJobs sampleConstants (sampleEnv twoVariantList false false) sampleRequest
          emptyResponse
        = .ok { m_result := CreateJobsResultCode.Success
                m_createJobOutputs := emptyResponse.m_createJobOutputs ++ emitted }
      ∧ emitted.length = 2
      ∧ ∀ job ∈ emitted, job.m_jobKey ≠ sampleConstants.GetShaderVariantTreeAssetJobKey := by
  obtain ⟨emitted, h1, h2, _, _, h5, _⟩ :=
    C4_deferred_or_superseded_emits_one_job_per_platform sampleConstants
      (sampleEnv twoVariantList false false) sampleRequest emptyResponse
      { m_code := LoadResult2.Code.DeferredError
        m_deferredMessage := "The shader path [/s/a.shader] was not found." }
      twoVariantList "" false (by rfl) (Or.inl rfl)
  exact ⟨emitted, h1, h2, h5 (by decide)⟩

/-- C5: whenever `LoadShaderVariantList2` returns, `CreateJobs` returns; its result is
`Failed` if and only if the load code is `Error`, which happens exactly on a parse failure,
on an invalid location, or when the stable-id validation is reached and rejects the list;
in that case the job list is left unchanged, and in every other case the result is
`Success`. -/
theorem C5_Failed_iff_load_Error (c : BuilderConstants) (env : BuilderEnv)
    (request : CreateJobsRequest) (response : CreateJobsResponse) (loadResult : LoadResult2)
    (list : ShaderVariantListSourceData) (path : String) (exit : Bool)
    (hload : LoadShaderVariantList2 c env
      (env.ConstructFull request.m_watchFolder request.m_sourceFile true) {} "" false
      = .ok (loadResult, list, path, exit)) :
    ∃ response' : CreateJobsResponse,
      CreateJobs c env request response = .ok response'
      ∧ (response'.m_result = CreateJobsResultCode.Failed
          ↔ loadResult.m_code = LoadResult2.Code.Error)
      ∧ (loadResult.m_code = LoadResult2.Code.Error →
          response'.m_createJobOutputs = response.m_createJobOutputs)
      ∧ (loadResult.m_code ≠ LoadResult2.Code.Error →
          response'.m_result = CreateJobsResultCode.Success)
      ∧ (loadResult.m_code = LoadResult2.Code.Error ↔
          (env.LoadObjectFromFile
              (env.ConstructFull request.m_watchFolder request.m_sourceFile true) = none
            ∨ ∃ parsed,
                env.LoadObjectFromFile
                    (env.ConstructFull request.m_watchFolder request.m_sourceFile true)
                  = some parsed
                ∧ env.LocalFileExists
                    (env.ResolvePathReference
                      (env.ConstructFull request.m_watchFolder request.m_sourceFile true)
                      parsed.m_shaderFilePath) = true
                ∧ ((∃ e, ValidateShaderVariantListLocation2 c env
                      (env.ConstructFull request.m_watchFolder request.m_sourceFile true)
                      (env.ResolvePathReference
                        (env.ConstructFull request.m_watchFolder request.m_sourceFile true)
                        parsed.m_shaderFilePath) false = .ok (false, e))
                  ∨ (ValidateShaderVariantListLocation2 c env
                        (env.ConstructFull request.m_watchFolder request.m_sourceFile true)
                        (env.ResolvePathReference
                          (env.ConstructFull request.m_watchFolder request.m_sourceFile true)
                          parsed.m_shaderFilePath) false = .ok (true, false)
                      ∧ env.ValidateStableIdsAreUnique parsed.m_shaderVariants = false)))) := by
  have hiff := load_error_iff c env _ _ _ _ _ _ _ hload
  rw [CreateJobs_of_load c env request response _ _ _ _ hload]
  by_cases herr : loadResult.m_code = LoadResult2.Code.Error
  · exact ⟨_, by rw [if_pos herr], by simp [herr], by simp, by simp [herr], hiff⟩
  · by_cases hcase : loadResult.m_code = LoadResult2.Code.DeferredError ∨ exit = true
    · exact ⟨_, by rw [if_neg herr, if_pos hcase], by simp [herr], by simp [herr],
        by simp, hiff⟩
    · exact ⟨_, by rw [if_neg herr, if_neg hcase], by simp [herr], by simp [herr],
        by simp, hiff⟩

/-- Witness of C5: the sample list with a duplicated stable id loads with code `Error`. -/
theorem C5_Failed_iff_load_Error_witness :
    ∃ response' : CreateJobsResponse,
      CreateJobs sampleConstants (sampleEnv duplicateIdList true false) sampleRequest
          emptyResponse = .ok response'
      ∧ (response'.m_result = CreateJobsResultCode.Failed
          ↔ ({ m_code := LoadResult2.Code.Error } : LoadResult2).m_code
              = LoadResult2.Code.Error) := by
  obtain ⟨response', h1, h2, _⟩ :=
    C5_Failed_iff_load_Error sampleConstants (sampleEnv duplicateIdList true false)
      sampleRequest emptyResponse { m_code := LoadResult2.Code.Error } duplicateIdList
      "/s/a.shader" false (by rfl)
  exact ⟨response', h1, h2⟩

/-- C6, the code at the failing input: the first job that `CreateJobs` emits for a
superseded list carries the early-exit parameter and not the deferred-error parameter, and
`ProcessJob` on it looks up the deferred-error parameter with `at` (line 401), a key that is
absent. -/
theorem C6_early_exit_job_looks_up_absent_key :
    ∃ job rest,
      CreateJobs sampleConstants (sampleEnv twoVariantList true true) sampleRequest
          emptyResponse
        = .ok { m_result := CreateJobsResultCode.Success, m_createJobOutputs := job :: rest }
      ∧ JobParameterMap.find job.m_jobParameters
          sampleConstants.ShouldExitEarlyFromProcessJobParam = some "/s/a.shadervariantlist"
      ∧ JobParameterMap.find job.m_jobParameters sampleConstants.ShaderVariantLoadErrorParam
          = none
      ∧ ProcessJob sampleConstants (fun _ => false) (fun _ r => .ok r) (fun _ r => .ok r)
          { m_jobDescription := job, m_jobId := 0, m_watchFolder := "/s"
            m_sourceFile := "a.shadervariantlist", m_tempDirPath := "/tmp"
            m_platformInfo := { m_identifier := "pc" } }
          { m_resultCode := ProcessJobResultCode.Failed, m_outputProducts := [] }
        = .error (Fault.keyNotFound sampleConstants.ShaderVariantLoadErrorParam) := by
  refine ⟨_, _, rfl, rfl, rfl, ?_⟩
  exact ProcessJob_of_exit_param_only _ _ _ _ _ _ "/s/a.shadervariantlist" rfl rfl

/-- C7, counterexample: in the sample run the referenced shader has two possible dependency
paths, and the job emitted right after the first tree job is the variant job of stable id 1,
whose dependency list has no edge on the shader asset job key. -/
theorem C7_variant_job_has_no_shader_asset_edge :
    ∃ tree variant rest,
      CreateJobs sampleConstants (sampleEnv twoVariantList true false) sampleRequest
          emptyResponse
        = .ok { m_result := CreateJobsResultCode.Success
                m_createJobOutputs := tree :: variant :: rest }
      ∧ variant.m_jobKey = sampleConstants.GetShaderVariantAssetJobKey 1
      ∧ (sampleEnv twoVariantList true false).GetPossibleDepenencyPaths "/s/a.shadervariantlist" "a.shader"
          = ["/s/a.shader", "a.shader"]
      ∧ ∀ dependency ∈ variant.m_jobDependencyList,
          dependency.m_jobKey ≠ sampleConstants.ShaderAssetBuilder2JobKey := by
  refine ⟨_, _, _, rfl, rfl, rfl, ?_⟩
  decide

/-- C7, amended: in the normal path every tree job declares exactly one `Order` dependency
on the shader asset job key for its own platform per possible dependency path of the
referenced shader, in the order of those paths; every variant job declares exactly one
dependency, the `Order` edge on the tree job key of its own platform for the variant list
file. -/
theorem C7_tree_job_depends_on_shader_asset_job (c : BuilderConstants) (env : BuilderEnv)
    (request : CreateJobsRequest) (response : CreateJobsResponse) (loadResult : LoadResult2)
    (list : ShaderVariantListSourceData) (path : String)
    (hload : LoadShaderVariantList2 c env
      (env.ConstructFull request.m_watchFolder request.m_sourceFile true) {} "" false
      = .ok (loadResult, list, path, false))
    (hcode : loadResult.m_code = LoadResult2.Code.Success) :
    ∃ emitted : List JobDescriptor,
      CreateJobs c env request response
        = .ok { m_result := CreateJobsResultCode.Success
                m_createJobOutputs := response.m_createJobOutputs ++ emitted }
      ∧ ∀ (i : Nat) (info : PlatformInfo), request.m_enabledPlatforms[i]? = some info →
          (∃ job, emitted[i * (list.m_shaderVariants.length + 1)]? = some job
            ∧ job.m_jobDependencyList
                = (env.GetPossibleDepenencyPaths
                    (env.ConstructFull request.m_watchFolder request.m_sourceFile true)
                    list.m_shaderFilePath).map
                  (fun file =>
                    { m_jobKey := c.ShaderAssetBuilder2JobKey
                      m_platformIdentifier := info.m_identifier
                      m_type := JobDependencyType.Order
                      m_sourceFile := { m_sourceFileDependencyPath := file } }))
          ∧ ∀ (k : Nat) (variantInfo : VariantInfo),
              list.m_shaderVariants[k]? = some variantInfo →
              ∃ job, emitted[i * (list.m_shaderVariants.length + 1) + 1 + k]? = some job
                ∧ job.m_jobDependencyList
                    = [{ m_jobKey := c.GetShaderVariantTreeAssetJobKey
                         m_platformIdentifier := info.m_identifier
                         m_type := JobDependencyType.Order
                         m_sourceFile :=
                           { m_sourceFileDependencyPath :=
                               env.ConstructFull request.m_watchFolder request.m_sourceFile
                                 true } }] := by
  refine ⟨normalJobs c env (env.ConstructFull request.m_watchFolder request.m_sourceFile true)
    list path request.m_enabledPlatforms, ?_, ?_⟩
  · rw [CreateJobs_of_load c env request response loadResult list path false hload]
    simp [hcode]
  · intro i info hi
    refine ⟨⟨_, normalJobs_tree _ _ _ _ _ _ i info hi, ?_⟩, ?_⟩
    · simp [treeJobDescriptor, AddShaderAssetJobDependency2_eq]
    · intro k variantInfo hk
      exact ⟨_, normalJobs_variant _ _ _ _ _ _ i info hi k variantInfo hk, rfl⟩

/-- Witness of C7 (amended): the sample list with two variants on two platforms. -/
theorem C7_tree_job_depends_on_shader_asset_job_witness :
    ∃ emitted : List JobDescriptor,
      CreateJobs sampleConstants (sampleEnv twoVariantList true false) sampleRequest
          emptyResponse
        = .ok { m_result := CreateJobsResultCode.Success
                m_createJobOutputs := emptyResponse.m_createJobOutputs ++ emitted }
      ∧ ∃ job, emitted[0 * (twoVariantList.m_shaderVariants.length + 1)]? = some job
          ∧ job.m_jobDependencyList.length = 2 := by
  obtain ⟨emitted, h1, h2⟩ :=
    C7_tree_job_depends_on_shader_asset_job sampleConstants
      (sampleEnv twoVariantList true false) sampleRequest emptyResponse
      { m_code := LoadResult2.Code.Success } twoVariantList "/s/a.shader" (by rfl) rfl
  obtain ⟨⟨job, hjob, hdeps⟩, -⟩ := h2 0 { m_identifier := "pc" } rfl
  exact ⟨emitted, h1, job, hjob, by rw [hdeps]; rfl⟩

/-- C8: in the normal path, the job of the `k`-th variant for the `i`-th platform is tagged
with that platform and has in its dependency list an `Order` dependency whose job key is
the tree job key, whose platform identifier is that platform and whose source path is the
variant list's own full path; the job at the head of the same platform's block is the tree
job with that key and that platform. -/
theorem C8_variant_job_depends_on_its_tree_job (c : BuilderConstants) (env : BuilderEnv)
    (request : CreateJobsRequest) (response : CreateJobsResponse) (loadResult : LoadResult2)
    (list : ShaderVariantListSourceData) (path : String)
    (hload : LoadShaderVariantList2 c env
      (env.ConstructFull request.m_watchFolder request.m_sourceFile true) {} "" false
      = .ok (loadResult, list, path, false))
    (hcode : loadResult.m_code = LoadResult2.Code.Success) :
    ∃ emitted : List JobDescriptor,
      CreateJobs c env request response
        = .ok { m_result := CreateJobsResultCode.Success
                m_createJobOutputs := response.m_createJobOutputs ++ emitted }
      ∧ ∀ (i : Nat) (info : PlatformInfo), request.m_enabledPlatforms[i]? = some info →
          ∀ (k : Nat) (variantInfo : VariantInfo),
            list.m_shaderVariants[k]? = some variantInfo →
            ∃ variantJob treeJob,
              emitted[i * (list.m_shaderVariants.length + 1) + 1 + k]? = some variantJob
              ∧ emitted[i * (list.m_shaderVariants.length + 1)]? = some treeJob
              ∧ variantJob.m_jobKey = c.GetShaderVariantAssetJobKey variantInfo.m_stableId
              ∧ variantJob.m_platformIdentifier = info.m_identifier
              ∧ treeJob.m_jobKey = c.GetShaderVariantTreeAssetJobKey
              ∧ treeJob.m_platformIdentifier = info.m_identifier
              ∧ ({ m_jobKey := treeJob.m_jobKey
                   m_platformIdentifier := treeJob.m_platformIdentifier
                   m_type := JobDependencyType.Order
                   m_sourceFile :=
                     { m_sourceFileDependencyPath :=
                         env.ConstructFull request.m_watchFolder request.m_sourceFile true } }
                  : JobDependency) ∈ variantJob.m_jobDependencyList := by
  refine ⟨normalJobs c env (env.ConstructFull request.m_watchFolder request.m_sourceFile true)
    list path request.m_enabledPlatforms, ?_, ?_⟩
  · rw [CreateJobs_of_load c env request response loadResult list path false hload]
    simp [hcode]
  · intro i info hi k variantInfo hk
    refine ⟨_, _, normalJobs_variant _ _ _ _ _ _ i info hi k variantInfo hk,
      normalJobs_tree _ _ _ _ _ _ i info hi, rfl, rfl, ?_, ?_, ?_⟩
    · simp [treeJobDescriptor, AddShaderAssetJobDependency2_eq]
    · simp [treeJobDescriptor, AddShaderAssetJobDependency2_eq]
    · simp [treeJobDescriptor, variantJobDescriptor, AddShaderAssetJobDependency2_eq]

/-- Witness of C8: the sample list with two variants on two platforms. -/
theorem C8_variant_job_depends_on_its_tree_job_witness :
    ∃ emitted : List JobDescriptor,
      CreateJobs sampleConstants (sampleEnv twoVariantList true false) sampleRequest
          emptyResponse
        = .ok { m_result := CreateJobsResultCode.Success
                m_createJobOutputs := emptyResponse.m_createJobOutputs ++ emitted }
      ∧ ∃ variantJob,
          emitted[1 * (twoVariantList.m_shaderVariants.length + 1) + 1 + 0]? = some variantJob
          ∧ variantJob.m_platformIdentifier = "mac" := by
  obtain ⟨emitted, h1, h2⟩ :=
    C8_variant_job_depends_on_its_tree_job sampleConstants
      (sampleEnv twoVariantList true false) sampleRequest emptyResponse
      { m_code := LoadResult2.Code.Success } twoVariantList "/s/a.shader" (by rfl) rfl
  obtain ⟨variantJob, _, hjob, _, _, hplatform, _⟩ :=
    h2 1 { m_identifier := "mac" } rfl 0 { m_stableId := 1, m_options := [] } rfl
  exact ⟨emitted, h1, variantJob, hjob, hplatform⟩

/-- C9: in the normal path every tree job has priority 1 and carries the resolved shader
source path under the shader-source-path parameter, every variant job has priority -5000
and is not critical, and so every tree job has a strictly greater priority than every
variant job of the same job list. -/
theorem C9_priorities_and_tree_parameter (c : BuilderConstants) (env : BuilderEnv)
    (request : CreateJobsRequest) (response : CreateJobsResponse) (loadResult : LoadResult2)
    (list : ShaderVariantListSourceData) (path : String)
    (hload : LoadShaderVariantList2 c env
      (env.ConstructFull request.m_watchFolder request.m_sourceFile true) {} "" false
      = .ok (loadResult, list, path, false))
    (hcode : loadResult.m_code = LoadResult2.Code.Success) :
    ∃ emitted : List JobDescriptor,
      CreateJobs c env request response
        = .ok { m_result := CreateJobsResultCode.Success
                m_createJobOutputs := response.m_createJobOutputs ++ emitted }
      ∧ path = env.ResolvePathReference
          (env.ConstructFull request.m_watchFolder request.m_sourceFile true)
          list.m_shaderFilePath
      ∧ (∀ (i : Nat) (info : PlatformInfo), request.m_enabledPlatforms[i]? = some info →
          ∃ treeJob, emitted[i * (list.m_shaderVariants.length + 1)]? = some treeJob
            ∧ treeJob.m_priority = 1
            ∧ JobParameterMap.find treeJob.m_jobParameters c.ShaderSourceFilePathJobParam
                = some path)
      ∧ (∀ (i : Nat) (info : PlatformInfo), request.m_enabledPlatforms[i]? = some info →
          ∀ (k : Nat) (variantInfo : VariantInfo),
            list.m_shaderVariants[k]? = some variantInfo →
            ∃ variantJob,
              emitted[i * (list.m_shaderVariants.length + 1) + 1 + k]? = some variantJob
              ∧ variantJob.m_priority = -5000
              ∧ variantJob.m_critical = false)
      ∧ (∀ (i j : Nat) (info other : PlatformInfo),
          request.m_enabledPlatforms[i]? = some info →
          request.m_enabledPlatforms[j]? = some other →
          ∀ (k : Nat) (variantInfo : VariantInfo),
            list.m_shaderVariants[k]? = some variantInfo →
            ∃ treeJob variantJob,
              emitted[i * (list.m_shaderVariants.length + 1)]? = some treeJob
              ∧ emitted[j * (list.m_shaderVariants.length + 1) + 1 + k]? = some variantJob
              ∧ variantJob.m_priority < treeJob.m_priority) := by
  have htree : ∀ info : PlatformInfo,
      (treeJobDescriptor c env
        (env.ConstructFull request.m_watchFolder request.m_sourceFile true) list path
        info).m_priority = 1
      ∧ JobParameterMap.find
          (treeJobDescriptor c env
            (env.ConstructFull request.m_watchFolder request.m_sourceFile true) list path
            info).m_jobParameters c.ShaderSourceFilePathJobParam = some path := by
    intro info
    simp [treeJobDescriptor, AddShaderAssetJobDependency2_eq, find_emplace_nil]
  refine ⟨normalJobs c env (env.ConstructFull request.m_watchFolder request.m_sourceFile true)
    list path request.m_enabledPlatforms, ?_,
    (load_success_inputs c env _ _ _ _ _ _ _ hload hcode).2, ?_, ?_, ?_⟩
  · rw [CreateJobs_of_load c env request response loadResult list path false hload]
    simp [hcode]
  · intro i info hi
    exact ⟨_, normalJobs_tree _ _ _ _ _ _ i info hi, (htree info).1, (htree info).2⟩
  · intro i info hi k variantInfo hk
    exact ⟨_, normalJobs_variant _ _ _ _ _ _ i info hi k variantInfo hk, rfl, rfl⟩
  · intro i j info other hi hj k variantInfo hk
    refine ⟨_, _, normalJobs_tree _ _ _ _ _ _ i info hi,
      normalJobs_variant _ _ _ _ _ _ j other hj k variantInfo hk, ?_⟩
    rw [(htree info).1]
    show (-5000 : Int) < 1
    decide

/-- Witness of C9: the sample list with two variants on two platforms. -/
theorem C9_priorities_and_tree_parameter_witness :
    ∃ emitted : List JobDescriptor,
      CreateJobs sampleConstants (sampleEnv twoVariantList true false) sampleRequest
          emptyResponse
        = .ok { m_result := CreateJobsResultCode.Success
                m_createJobOutputs := emptyResponse.m_createJobOutputs ++ emitted }
      ∧ ∃ treeJob, emitted[0 * (twoVariantList.m_shaderVariants.length + 1)]? = some treeJob
          ∧ treeJob.m_priority = 1 := by
  obtain ⟨emitted, h1, _, h3, _⟩ :=
    C9_priorities_and_tree_parameter sampleConstants
      (sampleEnv twoVariantList true false) sampleRequest emptyResponse
      { m_code := LoadResult2.Code.Success } twoVariantList "/s/a.shader" (by rfl) rfl
  obtain ⟨treeJob, hjob, hpriority, _⟩ := h3 0 { m_identifier := "pc" } rfl
  exact ⟨emitted, h1, treeJob, hjob, hpriority⟩

/-- C10: for a shader that lies under a scan folder, with `expected` the computed
high-precedence override path. (1) If the asset system knows a source at `expected`, the
validation of any variant list whose normalized path is not `expected` (the list next to
the shader in particular) succeeds with `shouldExitEarlyFromProcessJob = true`. (2) The
validation of a list whose normalized path is `expected` succeeds with
`shouldExitEarlyFromProcessJob = false`, whatever the asset system reports. (3) When such a
list parses and the referenced shader resolves to that existing shader file, `CreateJobs`
returns `Success`; in case (1) it appends one job per platform, each with the generic job
key and the early-exit parameter; in case (2), when the stable ids validate and the shader
file is still there, it appends the tree job and the variant jobs of every platform. -/
theorem C10_override_precedence (c : BuilderConstants) (env : BuilderEnv)
    (shaderPath scanFolder relativePath : String)
    (hsplit : SplitSourceAssetPathIntoScanFolderFullPathAndRelativeFilePath2 env shaderPath
      "" "" = .ok (true, scanFolder, relativePath)) :
    (∀ (listPath : String) (flag : Bool),
        env.GetSourceInfoBySourcePath (expectedHigherPrecedenceFileFullPath c env relativePath)
          = true →
        env.Normalize listPath ≠ expectedHigherPrecedenceFileFullPath c env relativePath →
        ValidateShaderVariantListLocation2 c env listPath shaderPath flag = .ok (true, true))
      ∧ (∀ (listPath : String) (flag : Bool),
          env.Normalize listPath = expectedHigherPrecedenceFileFullPath c env relativePath →
          ValidateShaderVariantListLocation2 c env listPath shaderPath flag
            = .ok (true, false))
      ∧ ∀ (request : CreateJobsRequest) (response : CreateJobsResponse)
          (list : ShaderVariantListSourceData),
          env.LoadObjectFromFile
              (env.ConstructFull request.m_watchFolder request.m_sourceFile true)
            = some list →
          env.ResolvePathReference
              (env.ConstructFull request.m_watchFolder request.m_sourceFile true)
              list.m_shaderFilePath = shaderPath →
          env.LocalFileExists shaderPath = true →
          (env.GetSourceInfoBySourcePath
                (expectedHigherPrecedenceFileFullPath c env relativePath) = true →
            env.Normalize (env.ConstructFull request.m_watchFolder request.m_sourceFile true)
              ≠ expectedHigherPrecedenceFileFullPath c env relativePath →
            ∃ emitted : List JobDescriptor,
              CreateJobs c env request response
                = .ok { m_result := CreateJobsResultCode.Success
                        m_createJobOutputs := response.m_createJobOutputs ++ emitted }
              ∧ emitted.length = request.m_enabledPlatforms.length
              ∧ ∀ job ∈ emitted,
                  job.m_jobKey = c.ShaderVariantAssetBuilder2JobKey
                  ∧ JobParameterMap.find job.m_jobParameters
                      c.ShouldExitEarlyFromProcessJobParam
                    = some (env.ConstructFull request.m_watchFolder request.m_sourceFile true))
          ∧ (env.Normalize (env.ConstructFull request.m_watchFolder request.m_sourceFile true)
                = expectedHigherPrecedenceFileFullPath c env relativePath →
            env.ValidateStableIdsAreUnique list.m_shaderVariants = true →
            env.FileBaseExists shaderPath = true →
            ∃ emitted : List JobDescriptor,
              CreateJobs c env request response
                = .ok { m_result := CreateJobsResultCode.Success
                        m_createJobOutputs := response.m_createJobOutputs ++ emitted }
              ∧ emitted.length
                  = request.m_enabledPlatforms.length * (list.m_shaderVariants.length + 1)
              ∧ ∀ (i : Nat) (info : PlatformInfo),
                  request.m_enabledPlatforms[i]? = some info →
                  (∃ job, emitted[i * (list.m_shaderVariants.length + 1)]? = some job
                    ∧ job.m_jobKey = c.GetShaderVariantTreeAssetJobKey
                    ∧ job.m_platformIdentifier = info.m_identifier)
                  ∧ ∀ (k : Nat) (variantInfo : VariantInfo),
                      list.m_shaderVariants[k]? = some variantInfo →
                      ∃ job,
                        emitted[i * (list.m_shaderVariants.length + 1) + 1 + k]? = some job
                        ∧ job.m_jobKey = c.GetShaderVariantAssetJobKey variantInfo.m_stableId
                        ∧ job.m_platformIdentifier = info.m_identifier) := by
  have hlow : ∀ (listPath : String) (flag : Bool),
      env.GetSourceInfoBySourcePath (expectedHigherPrecedenceFileFullPath c env relativePath)
        = true →
      env.Normalize listPath ≠ expectedHigherPrecedenceFileFullPath c env relativePath →
      ValidateShaderVariantListLocation2 c env listPath shaderPath flag
        = .ok (true, true) := by
    intro listPath flag hfound hne
    rw [Validate_of_split c env listPath shaderPath scanFolder relativePath flag hsplit,
      if_neg (fun h => hne h.symm), if_pos hfound]
  have hhigh : ∀ (listPath : String) (flag : Bool),
      env.Normalize listPath = expectedHigherPrecedenceFileFullPath c env relativePath →
      ValidateShaderVariantListLocation2 c env listPath shaderPath flag
        = .ok (true, false) := by
    intro listPath flag heq
    rw [Validate_of_split c env listPath shaderPath scanFolder relativePath flag hsplit,
      if_pos heq.symm]
  refine ⟨hlow, hhigh, ?_⟩
  intro request response list hparse hresolve hexists
  subst hresolve
  constructor
  · intro hfound hne
    have hload := load_of_validate c env _ {} "" false list true true hparse hexists
      (hlow _ false hfound hne)
    simp only [Bool.true_eq_false, if_false, if_true, false_and, and_false] at hload
    refine ⟨request.m_enabledPlatforms.map
      (dependencyOnlyJobDescriptor c env { m_code := LoadResult2.Code.Success } true
        (env.ConstructFull request.m_watchFolder request.m_sourceFile true) list), ?_,
      by simp, ?_⟩
    · rw [CreateJobs_of_load c env request response _ _ _ _ hload]
      simp
    · intro job hjob
      obtain ⟨info, -, rfl⟩ := List.mem_map.1 hjob
      exact ⟨(dependencyOnlyJobDescriptor_fields c env _ true _ list info).2.2.1,
        dependencyOnlyJobDescriptor_exit_param c env _ _ list info rfl⟩
  · intro heq hunique hstill
    have hload := load_of_validate c env _ {} "" false list true false hparse hexists
      (hhigh _ false heq)
    simp only [hunique, hstill, Bool.true_eq_false, if_false, Bool.false_eq_true,
      and_false, and_true, true_and] at hload
    refine ⟨normalJobs c env
      (env.ConstructFull request.m_watchFolder request.m_sourceFile true) list
      (env.ResolvePathReference
        (env.ConstructFull request.m_watchFolder request.m_sourceFile true)
        list.m_shaderFilePath)
      request.m_enabledPlatforms, ?_, normalJobs_length _ _ _ _ _ _, ?_⟩
    · rw [CreateJobs_of_load c env request response _ _ _ _ hload]
      simp
    · intro i info hi
      refine ⟨⟨_, normalJobs_tree _ _ _ _ _ _ i info hi, ?_, ?_⟩, ?_⟩
      · simp [treeJobDescriptor, AddShaderAssetJobDependency2_eq]
      · simp [treeJobDescriptor, AddShaderAssetJobDependency2_eq]
      · intro k variantInfo hk
        exact ⟨_, normalJobs_variant _ _ _ _ _ _ i info hi k variantInfo hk, rfl, rfl⟩

/-- Witness of C10: the sample shader `/s/a.shader` with an override known to the asset system;
the list next to the shader is superseded, the list at the override location is built. -/
theorem C10_override_precedence_witness :
    ValidateShaderVariantListLocation2 sampleConstants (sampleEnv twoVariantList true true)
        "/s/a.shadervariantlist" "/s/a.shader" false = .ok (true, true)
      ∧ ValidateShaderVariantListLocation2 sampleConstants (sampleEnv twoVariantList true true)
          "/g/ShaderVariants/a.shadervariantlist" "/s/a.shader" false = .ok (true, false)
      ∧ (∃ emitted : List JobDescriptor,
          CreateJobs sampleConstants (sampleEnv twoVariantList true true) sampleRequest
              emptyResponse
            = .ok { m_result := CreateJobsResultCode.Success
                    m_createJobOutputs := emptyResponse.m_createJobOutputs ++ emitted }
          ∧ emitted.length = 2)
      ∧ ∃ emitted : List JobDescriptor,
          CreateJobs sampleConstants (sampleEnv twoVariantList true true) overrideRequest
              emptyResponse
            = .ok { m_result := CreateJobsResultCode.Success
                    m_createJobOutputs := emptyResponse.m_createJobOutputs ++ emitted }
          ∧ emitted.length = 2 * (2 + 1) := by
  obtain ⟨h1, h2, h3⟩ :=
    C10_override_precedence sampleConstants (sampleEnv twoVariantList true true)
      "/s/a.shader" "/s" "a.shader" (by rfl)
  refine ⟨h1 "/s/a.shadervariantlist" false rfl (by decide), h2 "/g/ShaderVariants/a.shadervariantlist" false rfl, ?_, ?_⟩
  · obtain ⟨emitted, h4, h5, _⟩ :=
      (h3 sampleRequest emptyResponse twoVariantList rfl rfl rfl).1 rfl (by decide)
    exact ⟨emitted, h4, h5⟩
  · obtain ⟨emitted, h4, h5, _⟩ :=
      (h3 overrideRequest emptyResponse twoVariantList rfl rfl rfl).2 rfl rfl rfl
    exact ⟨emitted, h4, h5⟩

/-! ## Claims on the location check and the dispatch -/

/-- C11, counterexample: the list `/s/other.shadervariantlist` is neither at the override
location of the shader `/s/a.shader` nor next to it, yet with the override known to the
asset system its validation succeeds with early exit, and `CreateJobs` reports `Success`
with one job per platform. -/
theorem C11_stray_list_is_superseded_not_rejected :
    (sampleEnv twoVariantList true true).Normalize "/s/other.shadervariantlist"
        ≠ expectedHigherPrecedenceFileFullPath sampleConstants
            (sampleEnv twoVariantList true true) "a.shader"
      ∧ (sampleEnv twoVariantList true true).Equal
          ((sampleEnv twoVariantList true true).StripExtension "/s/a.shader")
          ((sampleEnv twoVariantList true true).StripExtension "/s/other.shadervariantlist")
          true = false
      ∧ ValidateShaderVariantListLocation2 sampleConstants (sampleEnv twoVariantList true true)
          "/s/other.shadervariantlist" "/s/a.shader" false = .ok (true, true)
      ∧ ∃ job1 job2,
          CreateJobs sampleConstants (sampleEnv twoVariantList true true)
              { m_watchFolder := "/s", m_sourceFile := "other.shadervariantlist"
                m_enabledPlatforms := [{ m_identifier := "pc" }, { m_identifier := "mac" }] }
              emptyResponse
            = .ok { m_result := CreateJobsResultCode.Success
                    m_createJobOutputs := [job1, job2] } := by
  refine ⟨by decide, rfl, rfl, _, _, rfl⟩

/-- C11, amended: for a shader under a scan folder and a variant-list path that is neither
the computed high-precedence override path nor the shader's own path with swapped extension,
if the asset system knows no source at the override path, then
`ValidateShaderVariantListLocation2` returns false and leaves the early-exit flag as it was;
and when that list parses and refers to that existing shader, `CreateJobs` reports `Failed`
and leaves the job list unchanged. -/
theorem C11_stray_list_is_rejected_without_override (c : BuilderConstants) (env : BuilderEnv)
    (shaderPath scanFolder relativePath listPath : String)
    (hsplit : SplitSourceAssetPathIntoScanFolderFullPathAndRelativeFilePath2 env shaderPath
      "" "" = .ok (true, scanFolder, relativePath))
    (hnotHigh : env.Normalize listPath
      ≠ expectedHigherPrecedenceFileFullPath c env relativePath)
    (hnotLow : env.Equal (env.StripExtension (env.Normalize shaderPath))
      (env.StripExtension (env.Normalize listPath))
      (!env.AZ_TRAIT_OS_USE_WINDOWS_FILE_PATHS) = false)
    (hnoOverride : env.GetSourceInfoBySourcePath
      (expectedHigherPrecedenceFileFullPath c env relativePath) = false) :
    (∀ flag : Bool,
        ValidateShaderVariantListLocation2 c env listPath shaderPath flag = .ok (false, flag))
      ∧ ∀ (request : CreateJobsRequest) (response : CreateJobsResponse)
          (list : ShaderVariantListSourceData),
          env.ConstructFull request.m_watchFolder request.m_sourceFile true = listPath →
          env.LoadObjectFromFile listPath = some list →
          env.ResolvePathReference listPath list.m_shaderFilePath = shaderPath →
          env.LocalFileExists shaderPath = true →
          CreateJobs c env request response
            = .ok { m_result := CreateJobsResultCode.Failed
                    m_createJobOutputs := response.m_createJobOutputs } := by
  have hvalidate : ∀ flag : Bool,
      ValidateShaderVariantListLocation2 c env listPath shaderPath flag
        = .ok (false, flag) := by
    intro flag
    rw [Validate_of_split c env listPath shaderPath scanFolder relativePath flag hsplit,
      if_neg (fun h => hnotHigh h.symm), if_neg (by simp [hnoOverride]), if_pos hnotLow]
  refine ⟨hvalidate, ?_⟩
  intro request response list hpath hparse hresolve hexists
  subst hpath
  subst hresolve
  have hload := load_of_validate c env _ {} "" false list false false hparse hexists
    (hvalidate false)
  rw [CreateJobs_of_load c env request response _ _ _ _ hload]
  simp

/-- Witness of C11 (amended): the stray list of the sample shader, with no override. -/
theorem C11_stray_list_is_rejected_without_override_witness :
    ValidateShaderVariantListLocation2 sampleConstants (sampleEnv twoVariantList true false)
        "/s/other.shadervariantlist" "/s/a.shader" false = .ok (false, false)
      ∧ CreateJobs sampleConstants (sampleEnv twoVariantList true false)
          { m_watchFolder := "/s", m_sourceFile := "other.shadervariantlist"
            m_enabledPlatforms := [{ m_identifier := "pc" }, { m_identifier := "mac" }] }
          emptyResponse
        = .ok { m_result := CreateJobsResultCode.Failed
                m_createJobOutputs := emptyResponse.m_createJobOutputs } := by
  obtain ⟨h1, h2⟩ :=
    C11_stray_list_is_rejected_without_override sampleConstants
      (sampleEnv twoVariantList true false) "/s/a.shader" "/s" "a.shader"
      "/s/other.shadervariantlist" (by rfl) (by decide) rfl rfl
  exact ⟨h1 false, h2 _ emptyResponse twoVariantList rfl rfl rfl rfl⟩

/-- C20: for a job that carries neither the deferred-error nor the early-exit parameter: if
the cancellation signal is already set, `ProcessJob` returns with result `Cancelled` and the
products unchanged, whatever the tree builder and the variant compiler would do (they are
not run); if it is not set, `ProcessJob` is the tree builder on that request when the job
key equals the tree job key, and the variant compiler otherwise. -/
theorem C20_ProcessJob_cancellation_and_dispatch (c : BuilderConstants)
    (IsCancelled : Nat → Bool) (request : ProcessJobRequest) (response : ProcessJobResponse)
    (herror : JobParameterMap.find request.m_jobDescription.m_jobParameters
      c.ShaderVariantLoadErrorParam = none)
    (hexit : JobParameterMap.find request.m_jobDescription.m_jobParameters
      c.ShouldExitEarlyFromProcessJobParam = none) :
    (IsCancelled request.m_jobId = true →
        ∀ tree variant :
          ProcessJobRequest → ProcessJobResponse → Except Fault ProcessJobResponse,
          ProcessJob c IsCancelled tree variant request response
            = .ok { m_resultCode := ProcessJobResultCode.Cancelled
                    m_outputProducts := response.m_outputProducts })
      ∧ (IsCancelled request.m_jobId = false →
          ∀ tree variant :
            ProcessJobRequest → ProcessJobResponse → Except Fault ProcessJobResponse,
            (request.m_jobDescription.m_jobKey = c.GetShaderVariantTreeAssetJobKey →
              ProcessJob c IsCancelled tree variant request response = tree request response)
            ∧ (request.m_jobDescription.m_jobKey ≠ c.GetShaderVariantTreeAssetJobKey →
              ProcessJob c IsCancelled tree variant request response
                = variant request response)) := by
  constructor
  · intro hcancelled tree variant
    unfold ProcessJob
    simp [herror, hexit, hcancelled]
  · intro hcancelled tree variant
    constructor
    · intro hkey
      unfold ProcessJob
      simp [herror, hexit, hcancelled, hkey]
    · intro hkey
      unfold ProcessJob
      simp [herror, hexit, hcancelled, hkey]

/-- Witness of C20: the sample variant job, cancelled before dispatch. -/
theorem C20_ProcessJob_cancellation_and_dispatch_witness :
    ProcessJob sampleConstants (fun _ => true) (fun _ jobResponse => .ok jobResponse)
        (ProcessShaderVariantJob sampleConstants (sampleEnv twoVariantList true false)
          (sampleJobEnv sampleVariant [sampleBackend "dx12" 0] [{ m_name := "" }] [])
          (fun _ => false))
        sampleJobRequest emptyJobResponse
      = .ok { m_resultCode := ProcessJobResultCode.Cancelled
              m_outputProducts := emptyJobResponse.m_outputProducts } :=
  (C20_ProcessJob_cancellation_and_dispatch sampleConstants (fun _ => true) sampleJobRequest
    emptyJobResponse rfl rfl).1 rfl _ _

/-! ## Auxiliary facts about option resolution and variant creation -/

theorem resolveOptionList_of_all_valid (layout : ShaderOptionGroupLayout)
    (options : List (String × String)) (optionList : List OptionCache)
    (hvalid : ∀ shaderOption ∈ options, (optionCacheOf layout shaderOption).isSome) :
    resolveOptionList layout options optionList
      = .ok (optionList ++ options.filterMap (optionCacheOf layout)) := by
  induction options generalizing optionList with
  | nil => simp [resolveOptionList]
  | cons shaderOption rest ih =>
    have hhead := hvalid shaderOption (List.mem_cons_self _ _)
    have hrest := fun optionList =>
      ih optionList (fun p hp => hvalid p (List.mem_cons_of_mem _ hp))
    unfold optionCacheOf at hhead
    unfold resolveOptionList
    cases hindex : layout.FindShaderOptionIndex shaderOption.1 with
    | none => simp [hindex] at hhead
    | some optionIndex =>
      cases hvalue : layout.FindValue optionIndex shaderOption.2 with
      | none => simp [hindex, hvalue] at hhead
      | some value =>
        simp only [hrest]
        simp [List.filterMap_cons, optionCacheOf, hindex, hvalue]

theorem resolveOptionList_valid_of_ok (layout : ShaderOptionGroupLayout)
    (options : List (String × String)) (optionList result : List OptionCache)
    (hok : resolveOptionList layout options optionList = .ok result) :
    ∀ shaderOption ∈ options, (optionCacheOf layout shaderOption).isSome := by
  induction options generalizing optionList with
  | nil => simp
  | cons shaderOption rest ih =>
    unfold resolveOptionList at hok
    cases hindex : layout.FindShaderOptionIndex shaderOption.1 with
    | none => simp [hindex] at hok
    | some optionIndex =>
      cases hvalue : layout.FindValue optionIndex shaderOption.2 with
      | none => simp [hindex, hvalue] at hok
      | some value =>
        simp only [hindex, hvalue] at hok
        intro p hp
        rcases List.mem_cons.1 hp with rfl | hp
        · simp [optionCacheOf, hindex, hvalue]
        · exact ih _ hok p hp

theorem resolveOptionList_append_valid (layout : ShaderOptionGroupLayout)
    (before rest : List (String × String)) (optionList : List OptionCache)
    (hvalid : ∀ shaderOption ∈ before, (optionCacheOf layout shaderOption).isSome) :
    resolveOptionList layout (before ++ rest) optionList
      = resolveOptionList layout rest
          (optionList ++ before.filterMap (optionCacheOf layout)) := by
  induction before generalizing optionList with
  | nil => simp
  | cons shaderOption before ih =>
    have hhead := hvalid shaderOption (List.mem_cons_self _ _)
    have hrest := fun optionList =>
      ih optionList (fun p hp => hvalid p (List.mem_cons_of_mem _ hp))
    unfold optionCacheOf at hhead
    rw [List.cons_append]
    conv => lhs; unfold resolveOptionList
    cases hindex : layout.FindShaderOptionIndex shaderOption.1 with
    | none => simp [hindex] at hhead
    | some optionIndex =>
      cases hvalue : layout.FindValue optionIndex shaderOption.2 with
      | none => simp [hindex, hvalue] at hhead
      | some value =>
        simp only [hrest]
        simp [List.filterMap_cons, optionCacheOf, hindex, hvalue]

theorem resolveOptionList_error_of_invalid (layout : ShaderOptionGroupLayout)
    (options : List (String × String)) (optionList : List OptionCache)
    (shaderOption : String × String) (hmem : shaderOption ∈ options)
    (hinvalid : optionCacheOf layout shaderOption = none) :
    ∃ message, resolveOptionList layout options optionList = .error message := by
  cases h : resolveOptionList layout options optionList with
  | error message => exact ⟨message, rfl⟩
  | ok result =>
    have := resolveOptionList_valid_of_ok layout options optionList result h shaderOption hmem
    simp [hinvalid] at this

theorem CreateShaderVariantAsset_of_resolve_error (env : BuilderEnv) (jobEnv : JobEnv)
    (shaderVariantInfo : VariantInfo) (creationContext : ShaderVariantCreationContext2)
    (outputByproducts : Option ByProducts) (message : String)
    (h : resolveOptionList creationContext.m_shaderOptionGroupLayout
      shaderVariantInfo.m_options [] = .error message) :
    CreateShaderVariantAsset env jobEnv shaderVariantInfo creationContext outputByproducts
      = { outcome := .error message, outputByproducts := outputByproducts, effects := [] } := by
  unfold CreateShaderVariantAsset
  simp [h]

theorem isInfix_append_middle (before name after : String) :
    name.data <:+: (before ++ name ++ after).data :=
  ⟨before.data, after.data, by simp⟩

theorem foldl_append_string (strings : List String) (start : String) :
    strings.foldl (fun r s => r ++ s) start = start ++ String.join strings := by
  unfold String.join
  induction strings generalizing start with
  | nil => simp
  | cons s strings ih =>
    rw [List.foldl_cons, List.foldl_cons, ih (start ++ s), ih ("" ++ s)]
    simp [String.append_assoc]

theorem join_cons_string (s : String) (strings : List String) :
    String.join (s :: strings) = s ++ String.join strings := by
  show List.foldl (fun r s => r ++ s) "" (s :: strings) = _
  rw [List.foldl_cons, foldl_append_string]
  simp

theorem optionDefine_ne_empty (optionName valueName : String) :
    optionDefine optionName valueName ≠ "" := by
  intro h
  have hlength := congrArg String.length h
  have hdefine : "#define ".length = 8 := by decide
  simp [optionDefine, String.length_append, hdefine] at hlength

theorem join_optionDefine_eq_empty_iff (options : List (String × String)) :
    String.join (options.map (fun shaderOption =>
      optionDefine shaderOption.1 shaderOption.2)) = "" ↔ options = [] := by
  constructor
  · intro h
    cases options with
    | nil => rfl
    | cons shaderOption rest =>
      exfalso
      rw [List.map_cons, join_cons_string] at h
      have hlength := congrArg String.length h
      have hdefine : "#define ".length = 8 := by decide
      simp [optionDefine, String.length_append, hdefine] at hlength
  · rintro rfl
    rfl

theorem applyOptionList_eq (layout : ShaderOptionGroupLayout) (optionList : List OptionCache)
    (optionGroup : ShaderOptionGroup) (text : String) (effects : List Effect) :
    applyOptionList layout optionList optionGroup text effects
      = (optionList.foldl
          (fun group optionCache =>
            layout.Set optionCache.m_optionIndex group optionCache.m_value) optionGroup,
        text ++ String.join (optionList.map (fun optionCache =>
          optionDefine optionCache.m_optionName optionCache.m_valueName)),
        effects ++ optionList.map (fun optionCache =>
          Effect.SetOption optionCache.m_optionIndex optionCache.m_value)) := by
  unfold applyOptionList
  induction optionList generalizing optionGroup text effects with
  | nil => simp [String.join]
  | cons optionCache rest ih =>
    rw [List.foldl_cons, ih]
    simp [join_cons_string, String.append_assoc]

theorem filterMap_optionCacheOf_defines (layout : ShaderOptionGroupLayout)
    (options : List (String × String))
    (hvalid : ∀ shaderOption ∈ options, (optionCacheOf layout shaderOption).isSome) :
    (options.filterMap (optionCacheOf layout)).map (fun optionCache =>
        optionDefine optionCache.m_optionName optionCache.m_valueName)
      = options.map (fun shaderOption => optionDefine shaderOption.1 shaderOption.2) := by
  induction options with
  | nil => rfl
  | cons shaderOption rest ih =>
    have hhead := hvalid shaderOption (List.mem_cons_self _ _)
    have hrest := ih (fun p hp => hvalid p (List.mem_cons_of_mem _ hp))
    unfold optionCacheOf at hhead
    cases hindex : layout.FindShaderOptionIndex shaderOption.1 with
    | none => simp [hindex] at hhead
    | some optionIndex =>
      cases hvalue : layout.FindValue optionIndex shaderOption.2 with
      | none => simp [hindex, hvalue] at hhead
      | some value =>
        simp [List.filterMap_cons, optionCacheOf, hindex, hvalue, hrest]

theorem compileEntryPoints_effects (jobEnv : JobEnv)
    (creationContext : ShaderVariantCreationContext2) (sourcePath : String)
    (entryPoints : List (String × Nat)) (state : CompileState) :
    ∃ compiles : List Effect,
      (compileEntryPoints jobEnv creationContext sourcePath entryPoints state).2.effects
        = state.effects ++ compiles
      ∧ (∀ effect ∈ compiles, ∃ entryName,
          effect = Effect.CompilePlatformInternal sourcePath entryName)
      ∧ ((compileEntryPoints jobEnv creationContext sourcePath entryPoints state).1 = .ok () →
          compiles = entryPoints.map (fun entryPoint =>
            Effect.CompilePlatformInternal sourcePath entryPoint.1)) := by
  induction entryPoints generalizing state with
  | nil => exact ⟨[], by simp [compileEntryPoints], by simp, by simp⟩
  | cons entryPoint rest ih =>
    unfold compileEntryPoints
    cases hcompile : creationContext.m_shaderPlatformInterface.CompilePlatformInternal
        creationContext.m_platformInfo sourcePath entryPoint.1
        (jobEnv.ToAssetBuilderShaderType entryPoint.2) creationContext.m_tempDirPath
        creationContext.m_shaderCompilerArguments with
    | none =>
      simp only [hcompile]
      refine ⟨[Effect.CompilePlatformInternal sourcePath entryPoint.1], by simp, ?_, ?_⟩
      · intro effect heffect
        exact ⟨entryPoint.1, by simpa using heffect⟩
      · intro h
        simp at h
    | some descriptor =>
      simp only [hcompile]
      obtain ⟨compiles, h1, h2, h3⟩ := ih
        { outputByproducts := some descriptor.m_byProducts
          functionsByStage := state.functionsByStage
            ++ [(jobEnv.ToRHIShaderStage (jobEnv.ToAssetBuilderShaderType entryPoint.2),
                creationContext.m_shaderPlatformInterface.CreateShaderStageFunction
                  { descriptor with
                    m_byProducts :=
                      { descriptor.m_byProducts with m_intermediatePaths := [] } })]
          effects := state.effects
            ++ [Effect.CompilePlatformInternal sourcePath entryPoint.1] }
      refine ⟨Effect.CompilePlatformInternal sourcePath entryPoint.1 :: compiles, ?_, ?_, ?_⟩
      · rw [h1]; simp
      · intro effect heffect
        rcases List.mem_cons.1 heffect with rfl | heffect
        · exact ⟨entryPoint.1, rfl⟩
        · exact h2 effect heffect
      · intro h
        rw [h3 h]
        rfl

theorem compileAndPackage_effects (jobEnv : JobEnv) (shaderVariantInfo : VariantInfo)
    (creationContext : ShaderVariantCreationContext2) (outputByproducts : Option ByProducts)
    (optionGroup : ShaderOptionGroup) (sourcePath : String) (effects : List Effect) :
    ∃ compiles : List Effect,
      (compileAndPackage jobEnv shaderVariantInfo creationContext outputByproducts
          optionGroup sourcePath effects).effects = effects ++ compiles
      ∧ (∀ effect ∈ compiles, ∃ entryName,
          effect = Effect.CompilePlatformInternal sourcePath entryName)
      ∧ (∀ shaderVariantAsset,
          (compileAndPackage jobEnv shaderVariantInfo creationContext outputByproducts
              optionGroup sourcePath effects).outcome = .ok shaderVariantAsset →
          compiles = creationContext.m_shaderEntryPoints.map (fun entryPoint =>
            Effect.CompilePlatformInternal sourcePath entryPoint.1)) := by
  obtain ⟨compiles, h1, h2, h3⟩ := compileEntryPoints_effects jobEnv creationContext
    sourcePath creationContext.m_shaderEntryPoints
    { outputByproducts := outputByproducts, functionsByStage := [], effects := effects }
  refine ⟨compiles, ?_, h2, ?_⟩
  · unfold compileAndPackage
    simp only []
    split <;> exact h1
  · intro shaderVariantAsset hok
    apply h3
    unfold compileAndPackage at hok
    simp only [] at hok
    cases hresult : (compileEntryPoints jobEnv creationContext sourcePath
        creationContext.m_shaderEntryPoints
        { outputByproducts := outputByproducts, functionsByStage := [],
          effects := effects }).1 with
    | error message => simp [hresult] at hok
    | ok done => rfl

theorem compileAndPackage_ids (jobEnv : JobEnv) (shaderVariantInfo : VariantInfo)
    (creationContext : ShaderVariantCreationContext2) (outputByproducts : Option ByProducts)
    (optionGroup : ShaderOptionGroup) (sourcePath : String) (effects : List Effect)
    (shaderVariantAsset : ShaderVariantAsset2)
    (hok : (compileAndPackage jobEnv shaderVariantInfo creationContext outputByproducts
      optionGroup sourcePath effects).outcome = .ok (some shaderVariantAsset)) :
    shaderVariantAsset.m_shaderVariantId = optionGroup.m_id
      ∧ shaderVariantAsset.m_stableId = shaderVariantInfo.m_stableId := by
  unfold compileAndPackage at hok
  simp only [] at hok
  cases hresult : (compileEntryPoints jobEnv creationContext sourcePath
      creationContext.m_shaderEntryPoints
      { outputByproducts := outputByproducts, functionsByStage := [],
        effects := effects }).1 with
  | error message => simp [hresult] at hok
  | ok done =>
    simp only [hresult, Except.ok.injEq] at hok
    split_ifs at hok
    · rw [← Option.some.inj hok]
      exact ⟨rfl, rfl⟩

theorem CreateShaderVariantAsset_of_valid (env : BuilderEnv) (jobEnv : JobEnv)
    (shaderVariantInfo : VariantInfo) (creationContext : ShaderVariantCreationContext2)
    (outputByproducts : Option ByProducts)
    (hvalid : ∀ shaderOption ∈ shaderVariantInfo.m_options,
      (optionCacheOf creationContext.m_shaderOptionGroupLayout shaderOption).isSome) :
    CreateShaderVariantAsset env jobEnv shaderVariantInfo creationContext outputByproducts =
      if shaderVariantInfo.m_options = [] then
        compileAndPackage jobEnv shaderVariantInfo creationContext outputByproducts {}
          creationContext.m_hlslSourcePath []
      else if jobEnv.WriteFile
          (String.join (shaderVariantInfo.m_options.map (fun shaderOption =>
              optionDefine shaderOption.1 shaderOption.2))
            ++ creationContext.m_hlslSourceContent)
          (env.Join creationContext.m_tempDirPath
            (variantSourceFileName creationContext.m_shaderStemNamePrefix
              creationContext.m_shaderPlatformInterface.GetAPIName
              shaderVariantInfo.m_stableId) true true) = false then
        { outcome := .error ("Failed to create file "
            ++ env.Join creationContext.m_tempDirPath
              (variantSourceFileName creationContext.m_shaderStemNamePrefix
                creationContext.m_shaderPlatformInterface.GetAPIName
                shaderVariantInfo.m_stableId) true true)
          outputByproducts := outputByproducts
          effects :=
            (shaderVariantInfo.m_options.filterMap
                (optionCacheOf creationContext.m_shaderOptionGroupLayout)).map
              (fun optionCache =>
                Effect.SetOption optionCache.m_optionIndex optionCache.m_value)
            ++ [Effect.WriteFile
                (String.join (shaderVariantInfo.m_options.map (fun shaderOption =>
                    optionDefine shaderOption.1 shaderOption.2))
                  ++ creationContext.m_hlslSourceContent)
                (env.Join creationContext.m_tempDirPath
                  (variantSourceFileName creationContext.m_shaderStemNamePrefix
                    creationContext.m_shaderPlatformInterface.GetAPIName
                    shaderVariantInfo.m_stableId) true true)] }
      else
        compileAndPackage jobEnv shaderVariantInfo creationContext outputByproducts
          ((shaderVariantInfo.m_options.filterMap
              (optionCacheOf creationContext.m_shaderOptionGroupLayout)).foldl
            (fun group optionCache =>
              creationContext.m_shaderOptionGroupLayout.Set optionCache.m_optionIndex group
                optionCache.m_value) {})
          (env.Join creationContext.m_tempDirPath
            (variantSourceFileName creationContext.m_shaderStemNamePrefix
              creationContext.m_shaderPlatformInterface.GetAPIName
              shaderVariantInfo.m_stableId) true true)
          ((shaderVariantInfo.m_options.filterMap
                (optionCacheOf creationContext.m_shaderOptionGroupLayout)).map
              (fun optionCache =>
                Effect.SetOption optionCache.m_optionIndex optionCache.m_value)
            ++ [Effect.WriteFile
                (String.join (shaderVariantInfo.m_options.map (fun shaderOption =>
                    optionDefine shaderOption.1 shaderOption.2))
                  ++ creationContext.m_hlslSourceContent)
                (env.Join creationContext.m_tempDirPath
                  (variantSourceFileName creationContext.m_shaderStemNamePrefix
                    creationContext.m_shaderPlatformInterface.GetAPIName
                    shaderVariantInfo.m_stableId) true true)]) := by
  have hresolve := resolveOptionList_of_all_valid
    creationContext.m_shaderOptionGroupLayout shaderVariantInfo.m_options [] hvalid
  have hdefines := filterMap_optionCacheOf_defines
    creationContext.m_shaderOptionGroupLayout shaderVariantInfo.m_options hvalid
  have hempty := join_optionDefine_eq_empty_iff shaderVariantInfo.m_options
  unfold CreateShaderVariantAsset
  simp only [hresolve, List.nil_append, applyOptionList_eq, hdefines, String.empty_append]
  by_cases hnil : shaderVariantInfo.m_options = []
  · simp [hnil, String.join]
  · have hne : String.join (shaderVariantInfo.m_options.map (fun shaderOption =>
        optionDefine shaderOption.1 shaderOption.2)) ≠ "" := fun h => hnil (hempty.1 h)
    simp only [hnil, if_false]
    rw [if_pos hne]

/-! ## Claims on option resolution -/

/-- C12, counterexample: the variant has the pair `("Foo", "x")` whose option name is not in
the sample schema, but an earlier pair gives the known option `o_quality` an unknown value;
the call fails with the message of that earlier pair, which does not contain `Foo`. -/
theorem C12_message_is_not_about_every_invalid_pair :
    sampleContext.m_shaderOptionGroupLayout.FindShaderOptionIndex "Foo" = none
      ∧ (CreateShaderVariantAsset (sampleEnv twoVariantList true false)
            (sampleJobEnv sampleVariant [] [] [])
            { m_stableId := 1, m_options := [("o_quality", "Bogus"), ("Foo", "x")] }
            sampleContext none).outcome
          = .error "Invalid value (Bogus) for shader option: o_quality"
      ∧ ¬ ("Foo".data <:+: "Invalid value (Bogus) for shader option: o_quality".data) := by
  refine ⟨rfl, rfl, by decide⟩

/-- C12, amended: `CreateShaderVariantAsset` fails whenever the `VariantInfo` contains an
invalid pair, with the message of the first invalid pair in declaration order: when that
pair's option name is not in the schema the message is `Invalid shader option: <name>` and
contains the option name; when it names a known option with a value outside the allowed set
the message is `Invalid value (<value>) for shader option: <name>` and contains both
names. -/
theorem C12_first_invalid_pair_is_reported (env : BuilderEnv) (jobEnv : JobEnv)
    (shaderVariantInfo : VariantInfo) (creationContext : ShaderVariantCreationContext2)
    (outputByproducts : Option ByProducts) (before after : List (String × String))
    (optionName valueName : String)
    (hoptions : shaderVariantInfo.m_options = before ++ (optionName, valueName) :: after)
    (hbefore : ∀ shaderOption ∈ before,
      (optionCacheOf creationContext.m_shaderOptionGroupLayout shaderOption).isSome) :
    (creationContext.m_shaderOptionGroupLayout.FindShaderOptionIndex optionName = none →
        (CreateShaderVariantAsset env jobEnv shaderVariantInfo creationContext
            outputByproducts).outcome
          = .error ("Invalid shader option: " ++ optionName)
        ∧ optionName.data <:+: ("Invalid shader option: " ++ optionName).data)
      ∧ (∀ optionIndex : Nat,
          creationContext.m_shaderOptionGroupLayout.FindShaderOptionIndex optionName
            = some optionIndex →
          creationContext.m_shaderOptionGroupLayout.FindValue optionIndex valueName = none →
          (CreateShaderVariantAsset env jobEnv shaderVariantInfo creationContext
              outputByproducts).outcome
            = .error ("Invalid value (" ++ valueName ++ ") for shader option: " ++ optionName)
          ∧ optionName.data
              <:+: ("Invalid value (" ++ valueName ++ ") for shader option: "
                ++ optionName).data
          ∧ valueName.data
              <:+: ("Invalid value (" ++ valueName ++ ") for shader option: "
                ++ optionName).data)
      ∧ ∀ shaderOption ∈ shaderVariantInfo.m_options,
          optionCacheOf creationContext.m_shaderOptionGroupLayout shaderOption = none →
          ∃ message,
            (CreateShaderVariantAsset env jobEnv shaderVariantInfo creationContext
                outputByproducts).outcome = .error message := by
  refine ⟨?_, ?_, ?_⟩
  · intro hname
    have hresolve : resolveOptionList creationContext.m_shaderOptionGroupLayout
        shaderVariantInfo.m_options []
        = .error ("Invalid shader option: " ++ optionName) := by
      rw [hoptions, resolveOptionList_append_valid _ _ _ _ hbefore]
      unfold resolveOptionList
      simp [hname]
    rw [CreateShaderVariantAsset_of_resolve_error env jobEnv _ _ _ _ hresolve]
    exact ⟨rfl, ⟨"Invalid shader option: ".data, [], by simp⟩⟩
  · intro optionIndex hname hvalue
    have hresolve : resolveOptionList creationContext.m_shaderOptionGroupLayout
        shaderVariantInfo.m_options []
        = .error ("Invalid value (" ++ valueName ++ ") for shader option: " ++ optionName) := by
      rw [hoptions, resolveOptionList_append_valid _ _ _ _ hbefore]
      unfold resolveOptionList
      simp [hname, hvalue]
    rw [CreateShaderVariantAsset_of_resolve_error env jobEnv _ _ _ _ hresolve]
    refine ⟨rfl, ⟨("Invalid value (" ++ valueName ++ ") for shader option: ").data, [],
      by simp⟩, ⟨"Invalid value (".data, (") for shader option: " ++ optionName).data,
      by simp⟩⟩
  · intro shaderOption hmem hinvalid
    obtain ⟨message, hmessage⟩ := resolveOptionList_error_of_invalid
      creationContext.m_shaderOptionGroupLayout shaderVariantInfo.m_options []
      shaderOption hmem hinvalid
    exact ⟨message, by
      rw [CreateShaderVariantAsset_of_resolve_error env jobEnv _ _ _ _ hmessage]⟩

/-- Witness of C12 (amended): the unknown option `Foo` after a valid pair. -/
theorem C12_first_invalid_pair_is_reported_witness :
    (CreateShaderVariantAsset (sampleEnv twoVariantList true false)
        (sampleJobEnv sampleVariant [] [] [])
        { m_stableId := 1, m_options := [("o_quality", "High"), ("Foo", "x")] }
        sampleContext none).outcome
      = .error ("Invalid shader option: " ++ "Foo") :=
  ((C12_first_invalid_pair_is_reported (sampleEnv twoVariantList true false)
    (sampleJobEnv sampleVariant [] [] [])
    { m_stableId := 1, m_options := [("o_quality", "High"), ("Foo", "x")] }
    sampleContext none [("o_quality", "High")] [] "Foo" "x" rfl (by decide)).1 rfl).1

/-- C13: when every pair of the `VariantInfo` resolves against the schema, the first loop
caches all pairs and the prefix built by the second loop is exactly the concatenation, in
declaration order of the pairs, of one line `#define <optionName>_OPTION_DEF <valueName>`
(with its line end) per pair; when there is at least one pair, the file that
`CreateShaderVariantAsset` writes is that prefix followed by the original source text. -/
theorem C13_prefix_is_one_define_per_pair_in_order (env : BuilderEnv) (jobEnv : JobEnv)
    (shaderVariantInfo : VariantInfo) (creationContext : ShaderVariantCreationContext2)
    (outputByproducts : Option ByProducts)
    (hvalid : ∀ shaderOption ∈ shaderVariantInfo.m_options,
      (optionCacheOf creationContext.m_shaderOptionGroupLayout shaderOption).isSome) :
    ∃ optionList : List OptionCache,
      resolveOptionList creationContext.m_shaderOptionGroupLayout
          shaderVariantInfo.m_options [] = .ok optionList
      ∧ optionList.length = shaderVariantInfo.m_options.length
      ∧ (applyOptionList creationContext.m_shaderOptionGroupLayout optionList {} "" []).2.1
          = String.join (shaderVariantInfo.m_options.map (fun shaderOption =>
              "#define " ++ shaderOption.1 ++ "_OPTION_DEF " ++ shaderOption.2 ++ "\n"))
      ∧ (shaderVariantInfo.m_options ≠ [] →
          Effect.WriteFile
              (String.join (shaderVariantInfo.m_options.map (fun shaderOption =>
                  "#define " ++ shaderOption.1 ++ "_OPTION_DEF " ++ shaderOption.2 ++ "\n"))
                ++ creationContext.m_hlslSourceContent)
              (env.Join creationContext.m_tempDirPath
                (variantSourceFileName creationContext.m_shaderStemNamePrefix
                  creationContext.m_shaderPlatformInterface.GetAPIName
                  shaderVariantInfo.m_stableId) true true)
            ∈ (CreateShaderVariantAsset env jobEnv shaderVariantInfo creationContext
                outputByproducts).effects) := by
  have hdefines := filterMap_optionCacheOf_defines
    creationContext.m_shaderOptionGroupLayout shaderVariantInfo.m_options hvalid
  refine ⟨shaderVariantInfo.m_options.filterMap
    (optionCacheOf creationContext.m_shaderOptionGroupLayout), ?_, ?_, ?_, ?_⟩
  · simpa using resolveOptionList_of_all_valid
      creationContext.m_shaderOptionGroupLayout shaderVariantInfo.m_options [] hvalid
  · have := congrArg List.length hdefines
    simpa using this
  · rw [applyOptionList_eq, hdefines]
    simp [optionDefine]
  · intro hne
    rw [CreateShaderVariantAsset_of_valid env jobEnv _ _ _ hvalid, if_neg hne]
    split_ifs
    · simp [optionDefine]
    · obtain ⟨compiles, h1, -, -⟩ := compileAndPackage_effects jobEnv shaderVariantInfo
        creationContext outputByproducts
        ((shaderVariantInfo.m_options.filterMap
            (optionCacheOf creationContext.m_shaderOptionGroupLayout)).foldl
          (fun group optionCache =>
            creationContext.m_shaderOptionGroupLayout.Set optionCache.m_optionIndex group
              optionCache.m_value) {})
        (env.Join creationContext.m_tempDirPath
          (variantSourceFileName creationContext.m_shaderStemNamePrefix
            creationContext.m_shaderPlatformInterface.GetAPIName
            shaderVariantInfo.m_stableId) true true)
        ((shaderVariantInfo.m_options.filterMap
              (optionCacheOf creationContext.m_shaderOptionGroupLayout)).map
            (fun optionCache =>
              Effect.SetOption optionCache.m_optionIndex optionCache.m_value)
          ++ [Effect.WriteFile
              (String.join (shaderVariantInfo.m_options.map (fun shaderOption =>
                  optionDefine shaderOption.1 shaderOption.2))
                ++ creationContext.m_hlslSourceContent)
              (env.Join creationContext.m_tempDirPath
                (variantSourceFileName creationContext.m_shaderStemNamePrefix
                  creationContext.m_shaderPlatformInterface.GetAPIName
                  shaderVariantInfo.m_stableId) true true)])
      rw [h1]
      simp [optionDefine]

/-- Witness of C13: the sample variant with two options. -/
theorem C13_prefix_is_one_define_per_pair_in_order_witness :
    ∃ optionList : List OptionCache,
      resolveOptionList sampleContext.m_shaderOptionGroupLayout sampleVariant.m_options []
        = .ok optionList
      ∧ (applyOptionList sampleContext.m_shaderOptionGroupLayout optionList {} "" []).2.1
          = "#define o_quality_OPTION_DEF High\n#define o_fog_OPTION_DEF On\n" := by
  obtain ⟨optionList, h1, _, h3, _⟩ :=
    C13_prefix_is_one_define_per_pair_in_order (sampleEnv twoVariantList true false)
      (sampleJobEnv sampleVariant [] [] []) sampleVariant sampleContext none (by decide)
  exact ⟨optionList, h1, h3.trans (by decide)⟩

/-- C14, counterexample: the original generated source of this creation context already
lies in the temp directory under the name of the synthesized file of `sampleVariant`, so
the file written for the variant, which has two options, is at the original source path. -/
theorem C14_synthesized_path_can_be_the_original_path :
    sampleVariant.m_options ≠ []
      ∧ Effect.WriteFile
          "#define o_quality_OPTION_DEF High\n#define o_fog_OPTION_DEF On\nfloat4 MainPS();"
          "/tmp/a_dx12_5.hlsl"
        ∈ (CreateShaderVariantAsset (sampleEnv twoVariantList true false)
            (sampleJobEnv sampleVariant [] [] []) sampleVariant
            { sampleContext with m_hlslSourcePath := "/tmp/a_dx12_5.hlsl" } none).effects
      ∧ ({ sampleContext with m_hlslSourcePath := "/tmp/a_dx12_5.hlsl" }
          : ShaderVariantCreationContext2).m_hlslSourcePath = "/tmp/a_dx12_5.hlsl" := by
  refine ⟨by decide, by decide, rfl⟩

/-- C14, amended: with an empty option list `CreateShaderVariantAsset` sets no option and
writes no file, and every backend compilation it starts reads the original generated
source path; with at least one option, all valid, it sets the options, writes one file
whose content is the prefix followed by the original source text at the path
`Join(tempDir, <stem>_<apiName>_<stableId>.hlsl)`, and every backend compilation it then
starts reads that synthesized path. When the call succeeds, every entry point is compiled.
The synthesized path is computed from the temp directory, the stem, the API name and the
stable id only; nothing compares it with the original source path. -/
theorem C14_root_reuses_source_and_variant_writes_file (env : BuilderEnv) (jobEnv : JobEnv)
    (shaderVariantInfo : VariantInfo) (creationContext : ShaderVariantCreationContext2)
    (outputByproducts : Option ByProducts)
    (hvalid : ∀ shaderOption ∈ shaderVariantInfo.m_options,
      (optionCacheOf creationContext.m_shaderOptionGroupLayout shaderOption).isSome) :
    (shaderVariantInfo.m_options = [] →
        (∀ effect ∈ (CreateShaderVariantAsset env jobEnv shaderVariantInfo creationContext
              outputByproducts).effects,
            ∃ entryName,
              effect = Effect.CompilePlatformInternal creationContext.m_hlslSourcePath
                entryName)
        ∧ ∀ shaderVariantAsset,
            (CreateShaderVariantAsset env jobEnv shaderVariantInfo creationContext
                outputByproducts).outcome = .ok shaderVariantAsset →
            (CreateShaderVariantAsset env jobEnv shaderVariantInfo creationContext
                outputByproducts).effects
              = creationContext.m_shaderEntryPoints.map (fun entryPoint =>
                  Effect.CompilePlatformInternal creationContext.m_hlslSourcePath
                    entryPoint.1))
      ∧ (shaderVariantInfo.m_options ≠ [] →
          ∃ sets compiles : List Effect,
            (CreateShaderVariantAsset env jobEnv shaderVariantInfo creationContext
                outputByproducts).effects
              = sets
                ++ [Effect.WriteFile
                    (String.join (shaderVariantInfo.m_options.map (fun shaderOption =>
                        "#define " ++ shaderOption.1 ++ "_OPTION_DEF " ++ shaderOption.2
                          ++ "\n"))
                      ++ creationContext.m_hlslSourceContent)
                    (env.Join creationContext.m_tempDirPath
                      (creationContext.m_shaderStemNamePrefix ++ "_"
                        ++ creationContext.m_shaderPlatformInterface.GetAPIName ++ "_"
                        ++ toString shaderVariantInfo.m_stableId ++ ".hlsl") true true)]
                ++ compiles
            ∧ (∀ effect ∈ sets, ∃ optionIndex value,
                effect = Effect.SetOption optionIndex value)
            ∧ (∀ effect ∈ compiles, ∃ entryName,
                effect = Effect.CompilePlatformInternal
                  (env.Join creationContext.m_tempDirPath
                    (creationContext.m_shaderStemNamePrefix ++ "_"
                      ++ creationContext.m_shaderPlatformInterface.GetAPIName ++ "_"
                      ++ toString shaderVariantInfo.m_stableId ++ ".hlsl") true true)
                  entryName)
            ∧ ∀ shaderVariantAsset,
                (CreateShaderVariantAsset env jobEnv shaderVariantInfo creationContext
                    outputByproducts).outcome = .ok shaderVariantAsset →
                compiles = creationContext.m_shaderEntryPoints.map (fun entryPoint =>
                  Effect.CompilePlatformInternal
                    (env.Join creationContext.m_tempDirPath
                      (creationContext.m_shaderStemNamePrefix ++ "_"
                        ++ creationContext.m_shaderPlatformInterface.GetAPIName ++ "_"
                        ++ toString shaderVariantInfo.m_stableId ++ ".hlsl") true true)
                    entryPoint.1)) := by
  have hcreate := CreateShaderVariantAsset_of_valid env jobEnv shaderVariantInfo
    creationContext outputByproducts hvalid
  constructor
  · intro hnil
    rw [hcreate, if_pos hnil]
    obtain ⟨compiles, h1, h2, h3⟩ := compileAndPackage_effects jobEnv shaderVariantInfo
      creationContext outputByproducts {} creationContext.m_hlslSourcePath []
    rw [h1]
    exact ⟨by simpa using h2, fun asset hok => by simpa using h3 asset hok⟩
  · intro hne
    rw [hcreate, if_neg hne]
    by_cases hwrite : jobEnv.WriteFile
        (String.join (shaderVariantInfo.m_options.map (fun shaderOption =>
            optionDefine shaderOption.1 shaderOption.2))
          ++ creationContext.m_hlslSourceContent)
        (env.Join creationContext.m_tempDirPath
          (variantSourceFileName creationContext.m_shaderStemNamePrefix
            creationContext.m_shaderPlatformInterface.GetAPIName
            shaderVariantInfo.m_stableId) true true) = false
    · rw [if_pos hwrite]
      refine ⟨_, [], by simp [optionDefine, variantSourceFileName]; rfl, ?_, by simp,
        by simp⟩
      intro effect heffect
      obtain ⟨optionCache, -, rfl⟩ := List.mem_map.1 heffect
      exact ⟨_, _, rfl⟩
    · rw [if_neg hwrite]
      obtain ⟨compiles, h1, h2, h3⟩ := compileAndPackage_effects jobEnv shaderVariantInfo
        creationContext outputByproducts
        ((shaderVariantInfo.m_options.filterMap
            (optionCacheOf creationContext.m_shaderOptionGroupLayout)).foldl
          (fun group optionCache =>
            creationContext.m_shaderOptionGroupLayout.Set optionCache.m_optionIndex group
              optionCache.m_value) {})
        (env.Join creationContext.m_tempDirPath
          (variantSourceFileName creationContext.m_shaderStemNamePrefix
            creationContext.m_shaderPlatformInterface.GetAPIName
            shaderVariantInfo.m_stableId) true true)
        ((shaderVariantInfo.m_options.filterMap
              (optionCacheOf creationContext.m_shaderOptionGroupLayout)).map
            (fun optionCache =>
              Effect.SetOption optionCache.m_optionIndex optionCache.m_value)
          ++ [Effect.WriteFile
              (String.join (shaderVariantInfo.m_options.map (fun shaderOption =>
                  optionDefine shaderOption.1 shaderOption.2))
                ++ creationContext.m_hlslSourceContent)
              (env.Join creationContext.m_tempDirPath
                (variantSourceFileName creationContext.m_shaderStemNamePrefix
                  creationContext.m_shaderPlatformInterface.GetAPIName
                  shaderVariantInfo.m_stableId) true true)])
      refine ⟨_, compiles, h1, ?_, h2, h3⟩
      intro effect heffect
      obtain ⟨optionCache, -, rfl⟩ := List.mem_map.1 heffect
      exact ⟨_, _, rfl⟩

/-- Witness of C14 (amended): the root variant compiles both entry points from the original
source path and does nothing else. -/
theorem C14_root_reuses_source_and_variant_writes_file_witness :
    (CreateShaderVariantAsset (sampleEnv twoVariantList true false)
        (sampleJobEnv sampleVariant [] [] []) rootVariant sampleContext none).effects
      = sampleContext.m_shaderEntryPoints.map (fun entryPoint =>
          Effect.CompilePlatformInternal sampleContext.m_hlslSourcePath entryPoint.1) :=
  ((C14_root_reuses_source_and_variant_writes_file (sampleEnv twoVariantList true false)
    (sampleJobEnv sampleVariant [] [] []) rootVariant sampleContext none (by decide)).1
    rfl).2 _ rfl

/-! ## Auxiliary facts about the variant job -/

theorem CreateShaderVariantAsset_valid_of_ok (env : BuilderEnv) (jobEnv : JobEnv)
    (shaderVariantInfo : VariantInfo) (creationContext : ShaderVariantCreationContext2)
    (outputByproducts : Option ByProducts) (shaderVariantAsset : Option ShaderVariantAsset2)
    (hok : (CreateShaderVariantAsset env jobEnv shaderVariantInfo creationContext
      outputByproducts).outcome = .ok shaderVariantAsset) :
    ∀ shaderOption ∈ shaderVariantInfo.m_options,
      (optionCacheOf creationContext.m_shaderOptionGroupLayout shaderOption).isSome := by
  cases hresolve : resolveOptionList creationContext.m_shaderOptionGroupLayout
      shaderVariantInfo.m_options [] with
  | error message =>
    rw [CreateShaderVariantAsset_of_resolve_error env jobEnv _ _ _ _ hresolve] at hok
    simp at hok
  | ok optionList =>
    exact resolveOptionList_valid_of_ok _ _ _ _ hresolve

theorem CreateShaderVariantAsset_ids_of_ok (env : BuilderEnv) (jobEnv : JobEnv)
    (shaderVariantInfo : VariantInfo) (creationContext : ShaderVariantCreationContext2)
    (outputByproducts : Option ByProducts) (shaderVariantAsset : ShaderVariantAsset2)
    (hok : (CreateShaderVariantAsset env jobEnv shaderVariantInfo creationContext
      outputByproducts).outcome = .ok (some shaderVariantAsset)) :
    shaderVariantAsset.m_stableId = shaderVariantInfo.m_stableId
      ∧ shaderVariantAsset.m_shaderVariantId
          = ((shaderVariantInfo.m_options.filterMap
                (optionCacheOf creationContext.m_shaderOptionGroupLayout)).foldl
              (fun group optionCache =>
                creationContext.m_shaderOptionGroupLayout.Set optionCache.m_optionIndex group
                  optionCache.m_value) {}).m_id := by
  have hvalid := CreateShaderVariantAsset_valid_of_ok env jobEnv _ _ _ _ hok
  rw [CreateShaderVariantAsset_of_valid env jobEnv _ _ _ hvalid] at hok
  by_cases hnil : shaderVariantInfo.m_options = []
  · rw [if_pos hnil] at hok
    have h := compileAndPackage_ids _ _ _ _ _ _ _ _ hok
    rw [hnil]
    exact ⟨h.2, h.1⟩
  · rw [if_neg hnil] at hok
    split_ifs at hok
    have h := compileAndPackage_ids _ _ _ _ _ _ _ _ hok
    exact ⟨h.2, h.1⟩

theorem pushByproducts_eq (jobEnv : JobEnv) (apiUniqueIndex supervariantIndex stableId : Nat)
    (paths : List String) (subProductType : Nat) (response : ProcessJobResponse) :
    pushByproducts jobEnv apiUniqueIndex supervariantIndex stableId paths subProductType
        response
      = { response with
          m_outputProducts := response.m_outputProducts
            ++ byproductProducts jobEnv apiUniqueIndex supervariantIndex stableId paths
                subProductType } := by
  induction paths generalizing subProductType response with
  | nil => simp [pushByproducts, byproductProducts]
  | cons byproduct rest ih =>
    unfold pushByproducts byproductProducts
    simp only [ih]
    simp [ProcessJobResponse.push_back]

theorem SerializeOutShaderVariantAsset_name (env : BuilderEnv) (jobEnv : JobEnv)
    (shaderVariantAsset : ShaderVariantAsset2) (shaderStemNamePrefix tempDirPath : String)
    (shaderPlatformInterface : ShaderPlatformInterface) (productSubID : Nat)
    (assetProduct written : JobProduct)
    (h : SerializeOutShaderVariantAsset env jobEnv shaderVariantAsset shaderStemNamePrefix
      tempDirPath shaderPlatformInterface productSubID assetProduct = (true, written)) :
    written
      = { m_productFileName := env.ConstructFull tempDirPath
            (variantAssetFileName jobEnv shaderStemNamePrefix
              shaderPlatformInterface.GetAPIName shaderVariantAsset.m_stableId) true
          m_productSubID := productSubID
          m_productAssetType := jobEnv.ShaderVariantAsset2TypeId
          m_dependenciesHandled := true } := by
  unfold SerializeOutShaderVariantAsset at h
  simp only [] at h
  split_ifs at h
  · simp at h
  · simp at h
    rw [← h]

/-- The products that a completed iteration pushes after the primary artifact. -/
theorem variantIteration_next (env : BuilderEnv) (jobEnv : JobEnv) (IsCancelled : Nat → Bool)
    (request : ProcessJobRequest) (inputs : VariantJobInputs)
    (shaderPlatformInterface : ShaderPlatformInterface) (supervariantIndex : Nat)
    (supervariantInfo : SupervariantInfo) (state state' : VariantJobState)
    (hnext : variantIteration env jobEnv IsCancelled request inputs shaderPlatformInterface
      supervariantIndex supervariantInfo state = .next state') :
    IsCancelled state.cancelPolls = false
      ∧ state'.cancelPolls = state.cancelPolls + 1
      ∧ ∃ (layout : ShaderOptionGroupLayout) (byproducts : List JobProduct),
          state'.shaderOptionGroupLayout = some layout
          ∧ state'.response
              = { m_resultCode := state.response.m_resultCode
                  m_outputProducts := state.response.m_outputProducts
                    ++ { m_productFileName := env.ConstructFull request.m_tempDirPath
                           (variantAssetFileName jobEnv
                             (stemNamePrefix inputs.shaderFileName supervariantIndex
                               supervariantInfo.m_name)
                             shaderPlatformInterface.GetAPIName
                             inputs.variantInfo.m_stableId) true
                         m_productSubID := jobEnv.MakeAssetProductSubId
                           shaderPlatformInterface.GetAPIUniqueIndex supervariantIndex
                           inputs.variantInfo.m_stableId none
                         m_productAssetType := jobEnv.ShaderVariantAsset2TypeId
                         m_dependenciesHandled := true } :: byproducts } := by
  unfold variantIteration at hnext
  simp only [] at hnext
  cases hcancel : IsCancelled state.cancelPolls with
  | true => simp [hcancel] at hnext
  | false =>
    simp only [hcancel, Bool.false_eq_true, if_false] at hnext
    cases hlayout : iterationLayout jobEnv request inputs shaderPlatformInterface
        supervariantIndex state with
    | none => simp [hlayout] at hnext
    | some layout =>
      simp only [hlayout] at hnext
      split_ifs at hnext with hfunctions hhlsl
      cases hcreate : (CreateShaderVariantAsset env jobEnv inputs.variantInfo
          (iterationContext jobEnv request inputs shaderPlatformInterface supervariantIndex
            supervariantInfo layout
            (LoadShaderFunctionsFromShaderAssetBuilder2 jobEnv shaderPlatformInterface
              request.m_platformInfo inputs.azslc inputs.shaderSourceFileFullPath
              supervariantIndex [])
            (LoadHlslFileFromShaderAssetBuilder2 jobEnv shaderPlatformInterface
              request.m_platformInfo inputs.shaderSourceFileFullPath supervariantIndex "").1
            (LoadHlslFileFromShaderAssetBuilder2 jobEnv shaderPlatformInterface
              request.m_platformInfo inputs.shaderSourceFileFullPath supervariantIndex "").2)
          none).outcome with
      | error message => simp [hcreate] at hnext
      | ok handle =>
        cases handle with
        | none => simp [hcreate] at hnext
        | some shaderVariantAsset =>
          have hids := CreateShaderVariantAsset_ids_of_ok env jobEnv _ _ _ _ hcreate
          simp only [hcreate] at hnext
          cases hserialize : SerializeOutShaderVariantAsset env jobEnv shaderVariantAsset
              (stemNamePrefix inputs.shaderFileName supervariantIndex supervariantInfo.m_name)
              request.m_tempDirPath shaderPlatformInterface
              (jobEnv.MakeAssetProductSubId shaderPlatformInterface.GetAPIUniqueIndex
                supervariantIndex shaderVariantAsset.m_stableId none)
              JobProduct.default with
          | mk flag assetProduct =>
            cases flag with
            | false => simp [hserialize] at hnext
            | true =>
              have hproduct := SerializeOutShaderVariantAsset_name env jobEnv _ _ _ _ _ _ _
                hserialize
              simp only [hserialize, LoopStep.next.injEq] at hnext
              subst hnext
              refine ⟨rfl, rfl, layout, ?_, rfl, ?_⟩
              · exact
                  match (CreateShaderVariantAsset env jobEnv inputs.variantInfo
                    (iterationContext jobEnv request inputs shaderPlatformInterface
                      supervariantIndex supervariantInfo layout
                      (LoadShaderFunctionsFromShaderAssetBuilder2 jobEnv shaderPlatformInterface
                        request.m_platformInfo inputs.azslc inputs.shaderSourceFileFullPath
                        supervariantIndex [])
                      (LoadHlslFileFromShaderAssetBuilder2 jobEnv shaderPlatformInterface
                        request.m_platformInfo inputs.shaderSourceFileFullPath
                        supervariantIndex "").1
                      (LoadHlslFileFromShaderAssetBuilder2 jobEnv shaderPlatformInterface
                        request.m_platformInfo inputs.shaderSourceFileFullPath
                        supervariantIndex "").2)
                    none).outputByproducts with
                  | some byproducts =>
                    byproductProducts jobEnv shaderPlatformInterface.GetAPIUniqueIndex
                      supervariantIndex shaderVariantAsset.m_stableId
                      byproducts.m_intermediatePaths jobEnv.ShaderVariantAsset2SubProductType
                  | none => []
              · rw [hproduct, hids.1]
                simp only []
                split <;> simp [pushByproducts_eq, ProcessJobResponse.push_back]

/-! ## Claims on artifact names -/

/-- C16: the file name of the compiled-variant artifact is a function of the temp
directory, the shader file name, the supervariant index and name, the backend API name and
the stable id. `SerializeOutShaderVariantAsset`, when it succeeds, names the product
`ConstructFull(tempDir, <stem>_<apiName>_<stableId>.<extension>)`; in a completed iteration
of the variant job the first product pushed has that name, with the stable id of the job's
`VariantInfo` and with the stem equal to the shader file name for supervariant index 0 and
to the shader file name followed by the supervariant's name for every index above 0. -/
theorem C16_artifact_file_name (env : BuilderEnv) (jobEnv : JobEnv) :
    (∀ (shaderVariantAsset : ShaderVariantAsset2) (shaderStemNamePrefix tempDirPath : String)
        (shaderPlatformInterface : ShaderPlatformInterface) (productSubID : Nat)
        (assetProduct : JobProduct),
        (SerializeOutShaderVariantAsset env jobEnv shaderVariantAsset shaderStemNamePrefix
            tempDirPath shaderPlatformInterface productSubID assetProduct).1 = true →
        (SerializeOutShaderVariantAsset env jobEnv shaderVariantAsset shaderStemNamePrefix
            tempDirPath shaderPlatformInterface productSubID assetProduct).2.m_productFileName
          = env.ConstructFull tempDirPath
              (shaderStemNamePrefix ++ "_" ++ shaderPlatformInterface.GetAPIName ++ "_"
                ++ toString shaderVariantAsset.m_stableId ++ "."
                ++ jobEnv.ShaderVariantAsset2Extension) true)
      ∧ ∀ (IsCancelled : Nat → Bool) (request : ProcessJobRequest)
          (inputs : VariantJobInputs) (shaderPlatformInterface : ShaderPlatformInterface)
          (supervariantIndex : Nat) (supervariantInfo : SupervariantInfo)
          (state state' : VariantJobState),
          variantIteration env jobEnv IsCancelled request inputs shaderPlatformInterface
              supervariantIndex supervariantInfo state = .next state' →
          ∃ (product : JobProduct) (byproducts : List JobProduct),
            state'.response.m_outputProducts
              = state.response.m_outputProducts ++ product :: byproducts
            ∧ product.m_productFileName
                = env.ConstructFull request.m_tempDirPath
                    ((if supervariantIndex = 0 then inputs.shaderFileName
                      else inputs.shaderFileName ++ supervariantInfo.m_name)
                      ++ "_" ++ shaderPlatformInterface.GetAPIName ++ "_"
                      ++ toString inputs.variantInfo.m_stableId ++ "."
                      ++ jobEnv.ShaderVariantAsset2Extension) true := by
  constructor
  · intro shaderVariantAsset shaderStemNamePrefix tempDirPath shaderPlatformInterface
      productSubID assetProduct hflag
    have hpair : SerializeOutShaderVariantAsset env jobEnv shaderVariantAsset
        shaderStemNamePrefix tempDirPath shaderPlatformInterface productSubID assetProduct
        = (true, (SerializeOutShaderVariantAsset env jobEnv shaderVariantAsset
            shaderStemNamePrefix tempDirPath shaderPlatformInterface productSubID
            assetProduct).2) := by
      rw [← hflag]
    rw [SerializeOutShaderVariantAsset_name env jobEnv _ _ _ _ _ _ _ hpair]
    rfl
  · intro IsCancelled request inputs shaderPlatformInterface supervariantIndex
      supervariantInfo state state' hnext
    obtain ⟨-, -, layout, byproducts, -, hresponse⟩ :=
      variantIteration_next env jobEnv IsCancelled request inputs shaderPlatformInterface
        supervariantIndex supervariantInfo state state' hnext
    refine ⟨_, byproducts, by rw [hresponse], ?_⟩
    simp only [variantAssetFileName, stemNamePrefix]
    by_cases hzero : supervariantIndex = 0
    · simp [hzero]
    · have hpos : supervariantIndex > 0 := Nat.pos_of_ne_zero hzero
      simp [hzero, hpos]

/-- Witness of C16: the first iteration of the sample variant job, backend `dx12` and
supervariant 0. -/
theorem C16_artifact_file_name_witness :
    ∃ (state' : VariantJobState) (product : JobProduct) (byproducts : List JobProduct),
      variantIteration (sampleEnv twoVariantList true false)
          (sampleJobEnv sampleVariant [sampleBackend "dx12" 0] [{ m_name := "" }] [])
          (fun _ => false) sampleJobRequest
          (variantJobInputs
            (sampleJobEnv sampleVariant [sampleBackend "dx12" 0] [{ m_name := "" }] [])
            "/s/a.shader" "StableId 5" { m_azslSourceFullPath := "/s/a.azsl" }
            { m_source := "a.azsl", m_programSettings := { m_entryPoints := [] }
              m_compiler := "" })
          (sampleBackend "dx12" 0) 0 { m_name := "" }
          { response := emptyJobResponse, shaderOptionGroupLayout := none, cancelPolls := 0 }
        = .next state'
      ∧ state'.response.m_outputProducts = [] ++ product :: byproducts
      ∧ product.m_productFileName = "/tmp/a_dx12_5.azshadervariant2" := by
  have hnext : variantIteration (sampleEnv twoVariantList true false)
      (sampleJobEnv sampleVariant [sampleBackend "dx12" 0] [{ m_name := "" }] [])
      (fun _ => false) sampleJobRequest
      (variantJobInputs
        (sampleJobEnv sampleVariant [sampleBackend "dx12" 0] [{ m_name := "" }] [])
        "/s/a.shader" "StableId 5" { m_azslSourceFullPath := "/s/a.azsl" }
        { m_source := "a.azsl", m_programSettings := { m_entryPoints := [] }
          m_compiler := "" })
      (sampleBackend "dx12" 0) 0 { m_name := "" }
      { response := emptyJobResponse, shaderOptionGroupLayout := none, cancelPolls := 0 }
      = .next _ := rfl
  obtain ⟨product, byproducts, h1, h2⟩ :=
    (C16_artifact_file_name (sampleEnv twoVariantList true false)
      (sampleJobEnv sampleVariant [sampleBackend "dx12" 0] [{ m_name := "" }] [])).2
      _ _ _ _ _ _ _ _ hnext
  exact ⟨_, product, byproducts, hnext, h1, h2.trans (by decide)⟩

theorem digitChar_ne_underscore (k : Nat) (hk : k < 10) : Nat.digitChar k ≠ '_' := by
  interval_cases k <;> decide

theorem digitChar_toNat (k : Nat) (hk : k < 10) : (Nat.digitChar k).toNat - 48 = k := by
  interval_cases k <;> rfl

theorem toDigitsCore_no_underscore (fuel n : Nat) (digits : List Char)
    (hdigits : '_' ∉ digits) : '_' ∉ Nat.toDigitsCore 10 fuel n digits := by
  induction fuel generalizing n digits with
  | zero => simpa [Nat.toDigitsCore] using hdigits
  | succ fuel ih =>
    have hcons : '_' ∉ Nat.digitChar (n % 10) :: digits := by
      intro h
      rcases List.mem_cons.1 h with h | h
      · exact digitChar_ne_underscore (n % 10) (Nat.mod_lt _ (by decide)) h.symm
      · exact hdigits h
    unfold Nat.toDigitsCore
    simp only []
    split_ifs
    · exact hcons
    · exact ih _ _ hcons

theorem toDigitsCore_value (fuel n : Nat) (digits : List Char) (hfuel : n < fuel) :
    (Nat.toDigitsCore 10 fuel n digits).foldl
        (fun value digit => 10 * value + (digit.toNat - 48)) 0
      = digits.foldl (fun value digit => 10 * value + (digit.toNat - 48)) n := by
  induction fuel generalizing n digits with
  | zero => omega
  | succ fuel ih =>
    unfold Nat.toDigitsCore
    simp only []
    split_ifs with hsmall
    · have hn : n % 10 = n := by omega
      rw [List.foldl_cons, digitChar_toNat (n % 10) (Nat.mod_lt _ (by decide)), hn]
      simp
    · rw [ih (n / 10) _ (by omega), List.foldl_cons,
        digitChar_toNat (n % 10) (Nat.mod_lt _ (by decide))]
      congr 1
      omega

theorem toString_nat_data (n : Nat) : (toString n).data = Nat.toDigits 10 n := rfl

theorem toString_nat_no_underscore (n : Nat) : '_' ∉ (toString n).data := by
  rw [toString_nat_data]
  exact toDigitsCore_no_underscore _ _ _ (by simp)

theorem toString_nat_injective (a b : Nat) (h : toString a = toString b) : a = b := by
  have hdata : Nat.toDigits 10 a = Nat.toDigits 10 b := by
    rw [← toString_nat_data, ← toString_nat_data, h]
  have ha := toDigitsCore_value (a + 1) a [] (by omega)
  have hb := toDigitsCore_value (b + 1) b [] (by omega)
  unfold Nat.toDigits at hdata
  rw [hdata, hb] at ha
  simpa using ha.symm

theorem split_at_first {α : Type} (c : α) (p1 q1 p2 q2 : List α) (h1 : c ∉ p1)
    (h2 : c ∉ p2) (h : p1 ++ c :: q1 = p2 ++ c :: q2) : p1 = p2 ∧ q1 = q2 := by
  induction p1 generalizing p2 with
  | nil =>
    cases p2 with
    | nil => simpa using h
    | cons y p2 =>
      simp at h
      exact absurd (List.mem_cons.2 (Or.inl h.1)) h2
  | cons x p1 ih =>
    cases p2 with
    | nil =>
      simp at h
      exact absurd (List.mem_cons.2 (Or.inl h.1.symm)) h1
    | cons y p2 =>
      simp at h
      obtain ⟨hxy, hrest⟩ := h
      obtain ⟨hp, hq⟩ := ih p2 (fun hmem => h1 (List.mem_cons_of_mem _ hmem))
        (fun hmem => h2 (List.mem_cons_of_mem _ hmem)) hrest
      exact ⟨by rw [hxy, hp], hq⟩

theorem split_at_last {α : Type} (c : α) (u1 v1 u2 v2 : List α) (h1 : c ∉ v1)
    (h2 : c ∉ v2) (h : u1 ++ c :: v1 = u2 ++ c :: v2) : u1 = u2 ∧ v1 = v2 := by
  have hrev := congrArg List.reverse h
  simp only [List.reverse_append, List.reverse_cons, List.append_assoc,
    List.singleton_append] at hrev
  obtain ⟨hv, hu⟩ := split_at_first c v1.reverse u1.reverse v2.reverse u2.reverse
    (by simpa using h1) (by simpa using h2) hrev
  exact ⟨List.reverse_injective hu, List.reverse_injective hv⟩

theorem variantAssetFileName_injective (jobEnv : JobEnv) (stem1 stem2 api1 api2 : String)
    (id1 id2 : Nat) (h1 : '_' ∉ api1.data) (h2 : '_' ∉ api2.data)
    (h : variantAssetFileName jobEnv stem1 api1 id1
      = variantAssetFileName jobEnv stem2 api2 id2) :
    stem1 = stem2 ∧ api1 = api2 ∧ id1 = id2 := by
  have hdata := congrArg String.data h
  simp only [variantAssetFileName, String.data_append] at hdata
  have hcancel := List.append_cancel_right (List.append_cancel_right hdata)
  have hshape : ∀ (stem api : String) (id : Nat),
      stem.data ++ "_".data ++ api.data ++ "_".data ++ (toString id).data
        = (stem.data ++ '_' :: api.data) ++ '_' :: (toString id).data := by
    intro stem api id
    simp [List.append_assoc]
  rw [hshape, hshape] at hcancel
  obtain ⟨hfront, hid⟩ := split_at_last '_' _ _ _ _ (toString_nat_no_underscore id1)
    (toString_nat_no_underscore id2) hcancel
  obtain ⟨hstem, hapi⟩ := split_at_last '_' _ _ _ _ h1 h2 hfront
  exact ⟨String.ext hstem, String.ext hapi, toString_nat_injective _ _ (String.ext hid)⟩

theorem stemNamePrefix_eq_append (shaderFileName : String) (supervariantIndex : Nat)
    (supervariantName : String) :
    stemNamePrefix shaderFileName supervariantIndex supervariantName
      = shaderFileName ++ (if supervariantIndex > 0 then supervariantName else "") := by
  unfold stemNamePrefix
  split_ifs <;> simp

/-- C17, counterexample: for the shader file name `a` and the stable id 5, the tuple
(API `x_vk`, supervariant 0 without a name) and the tuple (API `vk`, supervariant 1 named
`_x`) differ, the API names differ and the supervariant names differ, and yet both give
the file name `a_x_vk_5.<ext>`; the variant job run with these two backends and two
supervariants pushes two primary artifacts with the same file name. -/
theorem C17_names_with_underscores_collide :
    ("x_vk" : String) ≠ "vk" ∧ ("" : String) ≠ "_x"
      ∧ variantAssetFileName (sampleJobEnv sampleVariant [] [] [])
          (stemNamePrefix "a" 0 "") "x_vk" 5
        = variantAssetFileName (sampleJobEnv sampleVariant [] [] [])
            (stemNamePrefix "a" 1 "_x") "vk" 5
      ∧ ∃ products : List JobProduct,
          ProcessShaderVariantJob sampleConstants (sampleEnv twoVariantList true false)
              (sampleJobEnv sampleVariant [sampleBackend "x_vk" 0, sampleBackend "vk" 1]
                [{ m_name := "" }, { m_name := "_x" }] [])
              (fun _ => false) sampleJobRequest emptyJobResponse
            = .ok { m_resultCode := ProcessJobResultCode.Success
                    m_outputProducts := products }
          ∧ products.map (fun product => product.m_productFileName)
              = ["/tmp/a_x_vk_5.azshadervariant2", "/tmp/a_x_vk_5.hlsl.MainPS.pdb",
                 "/tmp/a_x_x_vk_5.azshadervariant2", "/tmp/a_x_x_vk_5.hlsl.MainPS.pdb",
                 "/tmp/a_vk_5.azshadervariant2", "/tmp/a_vk_5.hlsl.MainPS.pdb",
                 "/tmp/a_x_vk_5.azshadervariant2", "/tmp/a_x_vk_5.hlsl.MainPS.pdb"] := by
  refine ⟨by decide, by decide, by decide, _, rfl, by decide⟩

/-- C17, amended: for a fixed shader file name, when the backend API names contain no
underscore, two tuples (API name, supervariant index with its name, stable id) that give
the same artifact file name have the same API name, the same stable id and the same stem
suffix (the supervariant's name for an index above 0, nothing for index 0); and in a
supervariant list with pairwise distinct names whose entry 0 has no name, they also have
the same supervariant index. -/
theorem C17_equal_names_come_from_equal_tuples (jobEnv : JobEnv)
    (shaderFileName api1 api2 name1 name2 : String) (index1 index2 id1 id2 : Nat)
    (hapi1 : '_' ∉ api1.data) (hapi2 : '_' ∉ api2.data)
    (hnames : variantAssetFileName jobEnv (stemNamePrefix shaderFileName index1 name1)
        api1 id1
      = variantAssetFileName jobEnv (stemNamePrefix shaderFileName index2 name2)
          api2 id2) :
    api1 = api2 ∧ id1 = id2
      ∧ (if index1 > 0 then name1 else "") = (if index2 > 0 then name2 else "")
      ∧ ∀ supervariantList : List SupervariantInfo,
          (supervariantList.map (fun supervariantInfo => supervariantInfo.m_name)).Nodup →
          supervariantList[0]? = some { m_name := "" } →
          supervariantList[index1]? = some { m_name := name1 } →
          supervariantList[index2]? = some { m_name := name2 } →
          index1 = index2 := by
  obtain ⟨hstem, hapi, hid⟩ :=
    variantAssetFileName_injective jobEnv _ _ _ _ _ _ hapi1 hapi2 hnames
  rw [stemNamePrefix_eq_append, stemNamePrefix_eq_append] at hstem
  have hsuffix : (if index1 > 0 then name1 else "") = (if index2 > 0 then name2 else "") := by
    have hdata := congrArg String.data hstem
    simp only [String.data_append] at hdata
    exact String.ext (List.append_cancel_left hdata)
  refine ⟨hapi, hid, hsuffix, ?_⟩
  intro supervariantList hnodup hzero hfirst hsecond
  have hinj : ∀ (i j : Nat) (name : String),
      supervariantList[i]? = some { m_name := name } →
      supervariantList[j]? = some { m_name := name } → i = j := by
    intro i j name hi hj
    have hi' : (supervariantList.map (fun s => s.m_name))[i]? = some name := by
      simp [List.getElem?_map, hi]
    have hj' : (supervariantList.map (fun s => s.m_name))[j]? = some name := by
      simp [List.getElem?_map, hj]
    rcases Nat.lt_trichotomy i j with hlt | heq | hgt
    · have hjlt : j < (supervariantList.map (fun s => s.m_name)).length := by
        rcases Nat.lt_or_ge j (supervariantList.map (fun s => s.m_name)).length with h | h
        · exact h
        · rw [List.getElem?_eq_none h] at hj'; cases hj'
      exact absurd (hi'.trans hj'.symm)
        (List.nodup_iff_getElem?_ne_getElem?.1 hnodup i j hlt hjlt)
    · exact heq
    · have hilt : i < (supervariantList.map (fun s => s.m_name)).length := by
        rcases Nat.lt_or_ge i (supervariantList.map (fun s => s.m_name)).length with h | h
        · exact h
        · rw [List.getElem?_eq_none h] at hi'; cases hi'
      exact absurd (hj'.trans hi'.symm)
        (List.nodup_iff_getElem?_ne_getElem?.1 hnodup j i hgt hilt)
  by_cases h1 : index1 > 0
  · by_cases h2 : index2 > 0
    · simp only [h1, h2, if_true] at hsuffix
      subst hsuffix
      exact hinj _ _ _ hfirst hsecond
    · simp only [h1, h2, if_true, if_false] at hsuffix
      subst hsuffix
      have := hinj _ _ _ hfirst hzero
      omega
  · by_cases h2 : index2 > 0
    · simp only [h1, h2, if_true, if_false] at hsuffix
      subst hsuffix
      have := hinj _ _ _ hsecond hzero
      omega
    · omega

/-- Witness of C17 (amended): the backend `dx12` and the supervariant 1 named `NoMSAA` of
the list with the nameless supervariant 0. -/
theorem C17_equal_names_come_from_equal_tuples_witness :
    '_' ∉ ("dx12" : String).data
      ∧ variantAssetFileName (sampleJobEnv sampleVariant [] [] [])
          (stemNamePrefix "a" 1 "NoMSAA") "dx12" 5 = "aNoMSAA_dx12_5.azshadervariant2"
      ∧ (1 : Nat) = 1 :=
  ⟨by decide, by decide,
    (C17_equal_names_come_from_equal_tuples (sampleJobEnv sampleVariant [] [] [])
      "a" "dx12" "dx12" "NoMSAA" "NoMSAA" 1 1 5 5 (by decide) (by decide) rfl).2.2.2
      [{ m_name := "" }, { m_name := "NoMSAA" }] (by decide) rfl rfl rfl⟩

/-! ## Auxiliary facts about the loops of the variant job -/

theorem runIterations_cons (env : BuilderEnv) (jobEnv : JobEnv) (IsCancelled : Nat → Bool)
    (request : ProcessJobRequest) (inputs : VariantJobInputs)
    (iteration : ShaderPlatformInterface × Nat × SupervariantInfo)
    (rest : List (ShaderPlatformInterface × Nat × SupervariantInfo))
    (state : VariantJobState) :
    runIterations env jobEnv IsCancelled request inputs (iteration :: rest) state
      = match variantIteration env jobEnv IsCancelled request inputs iteration.1
          iteration.2.1 iteration.2.2 state with
        | .done response => .done response
        | .fault fault => .fault fault
        | .next state' => runIterations env jobEnv IsCancelled request inputs rest state' :=
  rfl

theorem runIterations_append (env : BuilderEnv) (jobEnv : JobEnv) (IsCancelled : Nat → Bool)
    (request : ProcessJobRequest) (inputs : VariantJobInputs)
    (first second : List (ShaderPlatformInterface × Nat × SupervariantInfo))
    (state : VariantJobState) :
    runIterations env jobEnv IsCancelled request inputs (first ++ second) state
      = match runIterations env jobEnv IsCancelled request inputs first state with
        | .done response => .done response
        | .fault fault => .fault fault
        | .next state' => runIterations env jobEnv IsCancelled request inputs second state' := by
  induction first generalizing state with
  | nil => simp [runIterations]
  | cons iteration rest ih =>
    rw [List.cons_append, runIterations_cons, runIterations_cons]
    cases variantIteration env jobEnv IsCancelled request inputs iteration.1 iteration.2.1
        iteration.2.2 state with
    | done response => rfl
    | fault fault => rfl
    | next state' => exact ih state'

theorem supervariantLoop_eq_runIterations (env : BuilderEnv) (jobEnv : JobEnv)
    (IsCancelled : Nat → Bool) (request : ProcessJobRequest) (inputs : VariantJobInputs)
    (shaderPlatformInterface : ShaderPlatformInterface)
    (supervariantList : List SupervariantInfo) (start : Nat) (state : VariantJobState) :
    supervariantLoop env jobEnv IsCancelled request inputs shaderPlatformInterface
        supervariantList (start % uint32Modulus) state
      = runIterations env jobEnv IsCancelled request inputs
          ((supervariantList.enumFrom start).map (fun entry =>
            (shaderPlatformInterface, entry.1 % uint32Modulus, entry.2))) state := by
  induction supervariantList generalizing start state with
  | nil => simp [supervariantLoop, runIterations]
  | cons supervariantInfo rest ih =>
    have hnext : (start % uint32Modulus + 1) % uint32Modulus
        = (start + 1) % uint32Modulus := by
      unfold uint32Modulus
      omega
    unfold supervariantLoop
    simp only [List.enumFrom_cons, List.map_cons]
    rw [runIterations_cons]
    simp only []
    cases variantIteration env jobEnv IsCancelled request inputs shaderPlatformInterface
        (start % uint32Modulus) supervariantInfo state with
    | done response => rfl
    | fault fault => rfl
    | next state' =>
      simp only [hnext]
      exact ih (start + 1) state'

theorem backendLoop_eq_runIterations (env : BuilderEnv) (jobEnv : JobEnv)
    (IsCancelled : Nat → Bool) (request : ProcessJobRequest) (inputs : VariantJobInputs)
    (supervariantList : List SupervariantInfo)
    (platformInterfaces : List ShaderPlatformInterface) (state : VariantJobState) :
    backendLoop env jobEnv IsCancelled request inputs supervariantList platformInterfaces
        state
      = runIterations env jobEnv IsCancelled request inputs
          (jobIterations platformInterfaces supervariantList) state := by
  induction platformInterfaces generalizing state with
  | nil => simp [backendLoop, jobIterations, runIterations]
  | cons shaderPlatformInterface rest ih =>
    have hloop := supervariantLoop_eq_runIterations env jobEnv IsCancelled request inputs
      shaderPlatformInterface supervariantList 0 state
    have hzero : 0 % uint32Modulus = 0 := by decide
    rw [hzero] at hloop
    unfold backendLoop
    unfold jobIterations
    rw [List.flatMap_cons, runIterations_append, hloop]
    unfold List.enum
    cases runIterations env jobEnv IsCancelled request inputs
        ((supervariantList.enumFrom 0).map (fun entry =>
          (shaderPlatformInterface, entry.1 % uint32Modulus, entry.2))) state with
    | done response => rfl
    | fault fault => rfl
    | next state' =>
      simp only []
      rw [ih state']
      rfl

theorem runIterations_next (env : BuilderEnv) (jobEnv : JobEnv) (IsCancelled : Nat → Bool)
    (request : ProcessJobRequest) (inputs : VariantJobInputs)
    (iterations : List (ShaderPlatformInterface × Nat × SupervariantInfo))
    (state state' : VariantJobState)
    (hnext : runIterations env jobEnv IsCancelled request inputs iterations state
      = .next state') :
    state'.cancelPolls = state.cancelPolls + iterations.length
      ∧ (∀ i, i < iterations.length → IsCancelled (state.cancelPolls + i) = false)
      ∧ ∃ added : List JobProduct,
          state'.response
            = { m_resultCode := state.response.m_resultCode
                m_outputProducts := state.response.m_outputProducts ++ added } := by
  induction iterations generalizing state with
  | nil =>
    simp only [runIterations, LoopStep.next.injEq] at hnext
    subst hnext
    exact ⟨rfl, by simp, [], by simp⟩
  | cons iteration rest ih =>
    rw [runIterations_cons] at hnext
    cases hstep : variantIteration env jobEnv IsCancelled request inputs iteration.1
        iteration.2.1 iteration.2.2 state with
    | done response => simp [hstep] at hnext
    | fault fault => simp [hstep] at hnext
    | next middle =>
      simp only [hstep] at hnext
      obtain ⟨hcancel, hpolls, layout, byproducts, -, hresponse⟩ :=
        variantIteration_next env jobEnv IsCancelled request inputs _ _ _ _ _ hstep
      obtain ⟨h1, h2, added, h3⟩ := ih middle hnext
      refine ⟨by rw [h1, hpolls, List.length_cons]; omega, ?_, ?_⟩
      · intro i hi
        cases i with
        | zero => simpa using hcancel
        | succ i =>
          have := h2 i (by simpa using hi)
          rw [hpolls] at this
          rw [← this]
          congr 1
          omega
      · rw [h3, hresponse]
        exact ⟨_, by simp only [List.append_assoc]; rfl⟩

theorem variantIteration_of_cancelled (env : BuilderEnv) (jobEnv : JobEnv)
    (IsCancelled : Nat → Bool) (request : ProcessJobRequest) (inputs : VariantJobInputs)
    (shaderPlatformInterface : ShaderPlatformInterface) (supervariantIndex : Nat)
    (supervariantInfo : SupervariantInfo) (state : VariantJobState)
    (hcancel : IsCancelled state.cancelPolls = true) :
    variantIteration env jobEnv IsCancelled request inputs shaderPlatformInterface
        supervariantIndex supervariantInfo state
      = .done { m_resultCode := ProcessJobResultCode.Cancelled
                m_outputProducts := state.response.m_outputProducts } := by
  unfold variantIteration
  simp [hcancel]

theorem variantIteration_next_not_fails (env : BuilderEnv) (jobEnv : JobEnv)
    (IsCancelled : Nat → Bool) (request : ProcessJobRequest) (inputs : VariantJobInputs)
    (shaderPlatformInterface : ShaderPlatformInterface) (supervariantIndex : Nat)
    (supervariantInfo : SupervariantInfo) (state state' : VariantJobState)
    (hnext : variantIteration env jobEnv IsCancelled request inputs shaderPlatformInterface
      supervariantIndex supervariantInfo state = .next state') :
    ¬ iterationFails env jobEnv request inputs shaderPlatformInterface supervariantIndex
        supervariantInfo state := by
  intro hfails
  unfold iterationFails at hfails
  simp only [] at hfails
  unfold variantIteration at hnext
  simp only [] at hnext
  cases hcancel : IsCancelled state.cancelPolls with
  | true => simp [hcancel] at hnext
  | false =>
    simp only [hcancel, Bool.false_eq_true, if_false] at hnext
    cases hlayout : iterationLayout jobEnv request inputs shaderPlatformInterface
        supervariantIndex state with
    | none => simp [hlayout] at hnext
    | some layout =>
      simp only [hlayout] at hnext
      split_ifs at hnext with hfunctions hhlsl
      rcases hfails with h | h | h | ⟨layout', message, hl, hcreate⟩ | ⟨layout', hl, hcreate⟩
          | ⟨layout', asset, hl, hcreate, hserialize⟩
      · rw [hlayout] at h; cases h
      · exact absurd h hfunctions
      · exact absurd h hhlsl
      · rw [hlayout] at hl
        cases hl
        simp [hcreate] at hnext
      · rw [hlayout] at hl
        cases hl
        simp [hcreate] at hnext
      · rw [hlayout] at hl
        cases hl
        simp only [hcreate] at hnext
        split at hnext
        · cases hnext
        · rename_i heq
          rw [heq] at hserialize
          simp at hserialize

theorem ProcessShaderVariantJob_eq (c : BuilderConstants) (env : BuilderEnv) (jobEnv : JobEnv)
    (IsCancelled : Nat → Bool) (request : ProcessJobRequest) (response : ProcessJobResponse)
    (shaderSourceFileFullPath variantJsonString : String) (sources : ShaderFiles)
    (shaderSourceDescriptor : ShaderSourceData)
    (hpath : JobParameterMap.find request.m_jobDescription.m_jobParameters
      c.ShaderSourceFilePathJobParam = some shaderSourceFileFullPath)
    (hvariant : JobParameterMap.find request.m_jobDescription.m_jobParameters
      c.ShaderVariantJobVariantParam = some variantJsonString)
    (hsources : jobEnv.PrepareSourceInput ShaderVariantAssetBuilder2Name
      shaderSourceFileFullPath = (some sources, shaderSourceDescriptor))
    (hbackends : jobEnv.DiscoverEnabledShaderPlatformInterfaces request.m_platformInfo
      shaderSourceDescriptor ≠ []) :
    ProcessShaderVariantJob c env jobEnv IsCancelled request response
      = match runIterations env jobEnv IsCancelled request
          (variantJobInputs jobEnv shaderSourceFileFullPath variantJsonString sources
            shaderSourceDescriptor)
          (jobIterations
            (jobEnv.DiscoverEnabledShaderPlatformInterfaces request.m_platformInfo
              shaderSourceDescriptor)
            (jobEnv.GetSupervariantListFromShaderSourceData shaderSourceDescriptor))
          { response := response, shaderOptionGroupLayout := none, cancelPolls := 0 } with
        | .done result => .ok result
        | .fault fault => .error fault
        | .next state =>
          .ok { m_resultCode := ProcessJobResultCode.Success
                m_outputProducts := state.response.m_outputProducts } := by
  have hempty : (jobEnv.DiscoverEnabledShaderPlatformInterfaces request.m_platformInfo
      shaderSourceDescriptor).isEmpty = false := by
    cases h : jobEnv.DiscoverEnabledShaderPlatformInterfaces request.m_platformInfo
        shaderSourceDescriptor with
    | nil => exact absurd h hbackends
    | cons _ _ => rfl
  unfold ProcessShaderVariantJob
  simp only [JobParameterMap.atKey, hpath, hvariant, hsources, hempty,
    backendLoop_eq_runIterations]
  rfl

/-! ## Claims on cancellation and failure in the variant job -/

/-- C18: in `ProcessShaderVariantJob`, let the (backend, supervariant) iterations of the job
be `pre ++ iteration :: post`, let the iterations of `pre` (iterations 1..k-1, with
k = pre.length + 1) all complete and leave the loop state `state`, and let the cancellation
poll at the start of the k-th iteration answer true. Then the job returns the result code
Cancelled with exactly the products of `state`, that is the products the response held
before the job followed by those pushed by iterations 1..k-1, and no product of iteration k
or later. No hypothesis is made on the steps of iteration k: the result is Cancelled also
when one of them would have failed. The polls of the earlier iterations all answered false,
so the signal is first observed at iteration k. -/
theorem C18_cancellation_keeps_earlier_products (c : BuilderConstants) (env : BuilderEnv)
    (jobEnv : JobEnv) (IsCancelled : Nat → Bool) (request : ProcessJobRequest)
    (response : ProcessJobResponse) (shaderSourceFileFullPath variantJsonString : String)
    (sources : ShaderFiles) (shaderSourceDescriptor : ShaderSourceData)
    (pre post : List (ShaderPlatformInterface × Nat × SupervariantInfo))
    (iteration : ShaderPlatformInterface × Nat × SupervariantInfo)
    (state : VariantJobState)
    (hpath : JobParameterMap.find request.m_jobDescription.m_jobParameters
      c.ShaderSourceFilePathJobParam = some shaderSourceFileFullPath)
    (hvariant : JobParameterMap.find request.m_jobDescription.m_jobParameters
      c.ShaderVariantJobVariantParam = some variantJsonString)
    (hsources : jobEnv.PrepareSourceInput ShaderVariantAssetBuilder2Name
      shaderSourceFileFullPath = (some sources, shaderSourceDescriptor))
    (hiterations : jobIterations
      (jobEnv.DiscoverEnabledShaderPlatformInterfaces request.m_platformInfo
        shaderSourceDescriptor)
      (jobEnv.GetSupervariantListFromShaderSourceData shaderSourceDescriptor)
      = pre ++ iteration :: post)
    (hearlier : runIterations env jobEnv IsCancelled request
      (variantJobInputs jobEnv shaderSourceFileFullPath variantJsonString sources
        shaderSourceDescriptor)
      pre { response := response, shaderOptionGroupLayout := none, cancelPolls := 0 }
      = .next state)
    (hcancel : IsCancelled pre.length = true) :
    ProcessShaderVariantJob c env jobEnv IsCancelled request response
        = .ok { m_resultCode := ProcessJobResultCode.Cancelled
                m_outputProducts := state.response.m_outputProducts }
      ∧ (∀ i, i < pre.length → IsCancelled i = false)
      ∧ ∃ added : List JobProduct,
          state.response.m_outputProducts = response.m_outputProducts ++ added := by
  obtain ⟨hpolls, hfalse, added, hresponse⟩ :=
    runIterations_next env jobEnv IsCancelled request _ pre _ state hearlier
  simp only [Nat.zero_add] at hpolls hfalse
  have hbackends : jobEnv.DiscoverEnabledShaderPlatformInterfaces request.m_platformInfo
      shaderSourceDescriptor ≠ [] := by
    intro hnil
    rw [hnil] at hiterations
    simp [jobIterations] at hiterations
  refine ⟨?_, hfalse, added, by rw [hresponse]⟩
  rw [ProcessShaderVariantJob_eq c env jobEnv IsCancelled request response
    shaderSourceFileFullPath variantJsonString sources shaderSourceDescriptor hpath hvariant
    hsources hbackends, hiterations, runIterations_append, hearlier]
  simp only []
  rw [runIterations_cons, variantIteration_of_cancelled env jobEnv IsCancelled request _ _ _
    _ state (by rw [hpolls]; exact hcancel)]

/-- Witness of C18: a job over the backends `dx12` and `vulkan` with one supervariant, where
cancellation is signalled before the second iteration and the generated source of the
second iteration cannot be read. The job is Cancelled and keeps the two products of the
first iteration. -/
theorem C18_cancellation_keeps_earlier_products_witness :
    ((ProcessShaderVariantJob sampleConstants (sampleEnv twoVariantList true false)
        (sampleJobEnv sampleVariant [sampleBackend "dx12" 0, sampleBackend "vulkan" 1]
          [{ m_name := "" }] ["/cache/a_1_0.hlsl"])
        (fun poll => poll == 1) sampleJobRequest emptyJobResponse).toOption.map
      (fun result => (result.m_resultCode,
        result.m_outputProducts.map (fun product => product.m_productFileName))))
      = some (ProcessJobResultCode.Cancelled,
          ["/tmp/a_dx12_5.azshadervariant2", "/tmp/a_dx12_5.hlsl.MainPS.pdb"]) := by
  have hearlier : runIterations (sampleEnv twoVariantList true false)
      (sampleJobEnv sampleVariant [sampleBackend "dx12" 0, sampleBackend "vulkan" 1]
        [{ m_name := "" }] ["/cache/a_1_0.hlsl"])
      (fun poll => poll == 1) sampleJobRequest
      (variantJobInputs
        (sampleJobEnv sampleVariant [sampleBackend "dx12" 0, sampleBackend "vulkan" 1]
          [{ m_name := "" }] ["/cache/a_1_0.hlsl"])
        "/s/a.shader" "StableId 5" { m_azslSourceFullPath := "/s/a.azsl" }
        { m_source := "a.azsl"
          m_programSettings :=
            { m_entryPoints := [{ m_name := "MainVS", m_type := 0 },
                                { m_name := "MainPS", m_type := 1 }] }
          m_compiler := "" })
      [(sampleBackend "dx12" 0, 0, { m_name := "" })]
      { response := emptyJobResponse, shaderOptionGroupLayout := none, cancelPolls := 0 }
      = .next _ := rfl
  rw [(C18_cancellation_keeps_earlier_products sampleConstants
    (sampleEnv twoVariantList true false)
    (sampleJobEnv sampleVariant [sampleBackend "dx12" 0, sampleBackend "vulkan" 1]
      [{ m_name := "" }] ["/cache/a_1_0.hlsl"])
    (fun poll => poll == 1) sampleJobRequest emptyJobResponse "/s/a.shader" "StableId 5"
    { m_azslSourceFullPath := "/s/a.azsl" } _
    [(sampleBackend "dx12" 0, 0, { m_name := "" })] []
    (sampleBackend "vulkan" 1, 0, { m_name := "" }) _ rfl rfl rfl rfl hearlier rfl).1]
  rfl

theorem variantIteration_of_reported_failure (env : BuilderEnv) (jobEnv : JobEnv)
    (IsCancelled : Nat → Bool) (request : ProcessJobRequest) (inputs : VariantJobInputs)
    (shaderPlatformInterface : ShaderPlatformInterface) (supervariantIndex : Nat)
    (supervariantInfo : SupervariantInfo) (state : VariantJobState)
    (hcancel : IsCancelled state.cancelPolls = false)
    (hfails : iterationFails env jobEnv request inputs shaderPlatformInterface
      supervariantIndex supervariantInfo state)
    (hhandle : ∀ layout,
      iterationLayout jobEnv request inputs shaderPlatformInterface supervariantIndex state
        = some layout →
      (CreateShaderVariantAsset env jobEnv inputs.variantInfo
          (iterationContext jobEnv request inputs shaderPlatformInterface supervariantIndex
            supervariantInfo layout
            (LoadShaderFunctionsFromShaderAssetBuilder2 jobEnv shaderPlatformInterface
              request.m_platformInfo inputs.azslc inputs.shaderSourceFileFullPath
              supervariantIndex [])
            (LoadHlslFileFromShaderAssetBuilder2 jobEnv shaderPlatformInterface
              request.m_platformInfo inputs.shaderSourceFileFullPath supervariantIndex "").1
            (LoadHlslFileFromShaderAssetBuilder2 jobEnv shaderPlatformInterface
              request.m_platformInfo inputs.shaderSourceFileFullPath supervariantIndex "").2)
          none).outcome ≠ .ok none) :
    variantIteration env jobEnv IsCancelled request inputs shaderPlatformInterface
        supervariantIndex supervariantInfo state
      = .done { m_resultCode := ProcessJobResultCode.Failed
                m_outputProducts := state.response.m_outputProducts } := by
  unfold iterationFails at hfails
  simp only [] at hfails
  unfold variantIteration
  simp only [hcancel, Bool.false_eq_true, if_false]
  cases hlayout : iterationLayout jobEnv request inputs shaderPlatformInterface
      supervariantIndex state with
  | none => rfl
  | some layout =>
    simp only []
    split_ifs with hfunctions hhlsl
    · rfl
    · rfl
    · rcases hfails with h | h | h | ⟨layout', message, hl, hcreate⟩ | ⟨layout', hl, hcreate⟩
          | ⟨layout', asset, hl, hcreate, hserialize⟩
      · rw [hlayout] at h; cases h
      · exact absurd h hfunctions
      · exact absurd h hhlsl
      · rw [hlayout] at hl
        cases hl
        simp only [hcreate]
      · exact absurd hcreate (hhandle layout' hl)
      · rw [hlayout] at hl
        cases hl
        simp only [hcreate]
        split
        · rfl
        · rename_i heq
          rw [heq] at hserialize
          simp at hserialize

/-- In `ProcessShaderVariantJob`, let the iterations of `pre` all complete and leave the
loop state `state`, and let the next iteration run and one of its steps fail, where the
variant creation does not return a null asset handle. Then the job returns the result code
Failed with exactly the products of `state`: those the response held before the job
followed by those pushed by the iterations of `pre`. -/
theorem ProcessShaderVariantJob_of_reported_failure (c : BuilderConstants) (env : BuilderEnv)
    (jobEnv : JobEnv) (IsCancelled : Nat → Bool) (request : ProcessJobRequest)
    (response : ProcessJobResponse) (shaderSourceFileFullPath variantJsonString : String)
    (sources : ShaderFiles) (shaderSourceDescriptor : ShaderSourceData)
    (pre post : List (ShaderPlatformInterface × Nat × SupervariantInfo))
    (iteration : ShaderPlatformInterface × Nat × SupervariantInfo)
    (state : VariantJobState)
    (hpath : JobParameterMap.find request.m_jobDescription.m_jobParameters
      c.ShaderSourceFilePathJobParam = some shaderSourceFileFullPath)
    (hvariant : JobParameterMap.find request.m_jobDescription.m_jobParameters
      c.ShaderVariantJobVariantParam = some variantJsonString)
    (hsources : jobEnv.PrepareSourceInput ShaderVariantAssetBuilder2Name
      shaderSourceFileFullPath = (some sources, shaderSourceDescriptor))
    (hiterations : jobIterations
      (jobEnv.DiscoverEnabledShaderPlatformInterfaces request.m_platformInfo
        shaderSourceDescriptor)
      (jobEnv.GetSupervariantListFromShaderSourceData shaderSourceDescriptor)
      = pre ++ iteration :: post)
    (hearlier : runIterations env jobEnv IsCancelled request
      (variantJobInputs jobEnv shaderSourceFileFullPath variantJsonString sources
        shaderSourceDescriptor)
      pre { response := response, shaderOptionGroupLayout := none, cancelPolls := 0 }
      = .next state)
    (hruns : IsCancelled pre.length = false)
    (hfails : iterationFails env jobEnv request
      (variantJobInputs jobEnv shaderSourceFileFullPath variantJsonString sources
        shaderSourceDescriptor)
      iteration.1 iteration.2.1 iteration.2.2 state)
    (hhandle : ∀ layout,
      iterationLayout jobEnv request
          (variantJobInputs jobEnv shaderSourceFileFullPath variantJsonString sources
            shaderSourceDescriptor)
          iteration.1 iteration.2.1 state
        = some layout →
      (iterationCreated env jobEnv request
          (variantJobInputs jobEnv shaderSourceFileFullPath variantJsonString sources
            shaderSourceDescriptor)
          iteration.1 iteration.2.1 iteration.2.2 layout).outcome ≠ .ok none) :
    ProcessShaderVariantJob c env jobEnv IsCancelled request response
        = .ok { m_resultCode := ProcessJobResultCode.Failed
                m_outputProducts := state.response.m_outputProducts }
      ∧ ∃ added : List JobProduct,
          state.response.m_outputProducts = response.m_outputProducts ++ added := by
  obtain ⟨hpolls, -, added, hresponse⟩ :=
    runIterations_next env jobEnv IsCancelled request _ pre _ state hearlier
  simp only [Nat.zero_add] at hpolls
  have hbackends : jobEnv.DiscoverEnabledShaderPlatformInterfaces request.m_platformInfo
      shaderSourceDescriptor ≠ [] := by
    intro hnil
    rw [hnil] at hiterations
    simp [jobIterations] at hiterations
  refine ⟨?_, added, by rw [hresponse]⟩
  rw [ProcessShaderVariantJob_eq c env jobEnv IsCancelled request response
    shaderSourceFileFullPath variantJsonString sources shaderSourceDescriptor hpath hvariant
    hsources hbackends, hiterations, runIterations_append, hearlier]
  simp only []
  rw [runIterations_cons, variantIteration_of_reported_failure env jobEnv IsCancelled request
    _ _ _ _ state (by rw [hpolls]; exact hruns) hfails hhandle]

/-- C19: the variant creation step of the first iteration of this job fails: every entry
point compiles, but `ShaderVariantAssetCreator2::End` builds no asset. The result of `End`
is dropped at line 973, `CreateShaderVariantAsset` returns a success that holds a null
asset handle, and the job, which tests only the outcome, dereferences the handle at line
768: it ends in a null dereference and not with the result code Failed. -/
theorem C19_unbuilt_asset_is_dereferenced_not_reported :
    (∃ layout : ShaderOptionGroupLayout,
        iterationLayout (endFailsJobEnv [sampleBackend "dx12" 0]) sampleJobRequest
            (variantJobInputs (endFailsJobEnv [sampleBackend "dx12" 0]) "/s/a.shader"
              "StableId 5" { m_azslSourceFullPath := "/s/a.azsl" }
              { m_source := "a.azsl"
                m_programSettings :=
                  { m_entryPoints := [{ m_name := "MainVS", m_type := 0 },
                                      { m_name := "MainPS", m_type := 1 }] }
                m_compiler := "" })
            (sampleBackend "dx12" 0) 0
            { response := emptyJobResponse, shaderOptionGroupLayout := none
              cancelPolls := 0 }
          = some layout
        ∧ (iterationCreated (sampleEnv twoVariantList true false)
            (endFailsJobEnv [sampleBackend "dx12" 0]) sampleJobRequest
            (variantJobInputs (endFailsJobEnv [sampleBackend "dx12" 0]) "/s/a.shader"
              "StableId 5" { m_azslSourceFullPath := "/s/a.azsl" }
              { m_source := "a.azsl"
                m_programSettings :=
                  { m_entryPoints := [{ m_name := "MainVS", m_type := 0 },
                                      { m_name := "MainPS", m_type := 1 }] }
                m_compiler := "" })
            (sampleBackend "dx12" 0) 0 { m_name := "" } layout).outcome = .ok none)
      ∧ iterationFails (sampleEnv twoVariantList true false)
          (endFailsJobEnv [sampleBackend "dx12" 0]) sampleJobRequest
          (variantJobInputs (endFailsJobEnv [sampleBackend "dx12" 0]) "/s/a.shader"
            "StableId 5" { m_azslSourceFullPath := "/s/a.azsl" }
            { m_source := "a.azsl"
              m_programSettings :=
                { m_entryPoints := [{ m_name := "MainVS", m_type := 0 },
                                    { m_name := "MainPS", m_type := 1 }] }
              m_compiler := "" })
          (sampleBackend "dx12" 0) 0 { m_name := "" }
          { response := emptyJobResponse, shaderOptionGroupLayout := none, cancelPolls := 0 }
      ∧ ProcessShaderVariantJob sampleConstants (sampleEnv twoVariantList true false)
          (endFailsJobEnv [sampleBackend "dx12" 0]) (fun _ => false) sampleJobRequest
          emptyJobResponse
        = .error Fault.nullDereference := by
  refine ⟨⟨_, rfl, rfl⟩, ?_, rfl⟩
  exact Or.inr (Or.inr (Or.inr (Or.inr (Or.inl ⟨_, rfl, rfl⟩))))

/-! ## Auxiliary facts about the packed option layout -/

theorem ShaderOptionDescriptor.Set_comm (first second : ShaderOptionDescriptor)
    (hdisjoint : first.bitMask &&& second.bitMask = 0) (optionGroup : ShaderOptionGroup)
    (firstValue secondValue : Nat) :
    second.Set (first.Set optionGroup firstValue) secondValue
      = first.Set (second.Set optionGroup secondValue) firstValue := by
  have hbits : ∀ i, (first.bitMask.testBit i && second.bitMask.testBit i) = false := by
    intro i
    rw [← Nat.testBit_and, hdisjoint, Nat.zero_testBit]
  unfold ShaderOptionDescriptor.Set
  simp only [ShaderOptionGroup.mk.injEq, ShaderVariantId.mk.injEq]
  constructor
  · apply Nat.eq_of_testBit_eq
    intro i
    have hi := hbits i
    simp only [Nat.testBit_or, Nat.testBit_and, Nat.testBit_xor]
    generalize first.bitMask.testBit i = a at hi ⊢
    generalize second.bitMask.testBit i = b at hi ⊢
    generalize optionGroup.m_id.m_key.testBit i = k
    generalize (firstValue <<< first.m_bitOffset).testBit i = v
    generalize (secondValue <<< second.m_bitOffset).testBit i = w
    cases a <;> cases b <;> cases k <;> cases v <;> cases w <;> simp_all
  · apply Nat.eq_of_testBit_eq
    intro i
    simp only [Nat.testBit_or]
    cases optionGroup.m_id.m_mask.testBit i <;> cases first.bitMask.testBit i
      <;> cases second.bitMask.testBit i <;> rfl

theorem disjointPacking_getElem? (options : List ShaderOptionDescriptor)
    (hpacking : disjointPacking options) (i j : Nat) (first second : ShaderOptionDescriptor)
    (hi : options[i]? = some first) (hj : options[j]? = some second) (hne : i ≠ j) :
    first.bitMask &&& second.bitMask = 0 := by
  unfold disjointPacking at hpacking
  rw [List.pairwise_iff_getElem] at hpacking
  obtain ⟨hil, hie⟩ := List.getElem?_eq_some.mp hi
  obtain ⟨hjl, hje⟩ := List.getElem?_eq_some.mp hj
  rcases Nat.lt_or_gt_of_ne hne with hlt | hgt
  · have := hpacking i j hil hjl hlt
    rw [hie, hje] at this
    exact this
  · have := hpacking j i hjl hil hgt
    rw [hie, hje, Nat.and_comm] at this
    exact this

theorem packedLayout_Set_comm (options : List ShaderOptionDescriptor) (hashValue : Nat)
    (hpacking : disjointPacking options) (i j : Nat) (hne : i ≠ j)
    (optionGroup : ShaderOptionGroup) (firstValue secondValue : Nat) :
    (packedLayout options hashValue).Set j
        ((packedLayout options hashValue).Set i optionGroup firstValue) secondValue
      = (packedLayout options hashValue).Set i
          ((packedLayout options hashValue).Set j optionGroup secondValue) firstValue := by
  simp only [packedLayout]
  cases hi : options[i]? with
  | none => rfl
  | some first =>
    cases hj : options[j]? with
    | none => rfl
    | some second =>
      exact ShaderOptionDescriptor.Set_comm first second
        (disjointPacking_getElem? options hpacking i j first second hi hj hne) _ _ _

theorem optionCacheOf_packedLayout (options : List ShaderOptionDescriptor) (hashValue : Nat)
    (shaderOption : String × String) (optionCache : OptionCache)
    (hcache : optionCacheOf (packedLayout options hashValue) shaderOption
      = some optionCache) :
    (∃ option, options[optionCache.m_optionIndex]? = some option
        ∧ option.m_name = shaderOption.1
        ∧ option.m_values.indexOf? shaderOption.2 = some optionCache.m_value)
      ∧ optionCache.m_optionName = shaderOption.1
      ∧ optionCache.m_valueName = shaderOption.2 := by
  unfold optionCacheOf at hcache
  cases hindex : (packedLayout options hashValue).FindShaderOptionIndex shaderOption.1 with
  | none => simp [hindex] at hcache
  | some optionIndex =>
    simp only [hindex] at hcache
    cases hvalue : (packedLayout options hashValue).FindValue optionIndex shaderOption.2 with
    | none => simp [hvalue] at hcache
    | some value =>
      simp only [hvalue, Option.some.injEq] at hcache
      subst hcache
      simp only [packedLayout] at hindex hvalue
      have hfound := List.findIdx?_of_eq_some hindex
      cases hoption : options[optionIndex]? with
      | none => simp [hoption] at hvalue
      | some option =>
        simp only [hoption] at hvalue hfound
        exact ⟨⟨option, rfl, by simpa using hfound, hvalue⟩, rfl, rfl⟩

/-- Two cached options of one option list, in which no option name has two values, are
applied to the packed id in either order with the same result. -/
theorem packedLayout_Set_comm_of_caches (options : List ShaderOptionDescriptor)
    (hashValue : Nat) (hpacking : disjointPacking options)
    (optionPairs : List (String × String))
    (hmapping : ∀ p ∈ optionPairs, ∀ q ∈ optionPairs, p.1 = q.1 → p.2 = q.2)
    (first : OptionCache)
    (hfirst : first ∈ optionPairs.filterMap (optionCacheOf (packedLayout options hashValue)))
    (second : OptionCache)
    (hsecond : second ∈ optionPairs.filterMap
      (optionCacheOf (packedLayout options hashValue)))
    (optionGroup : ShaderOptionGroup) :
    (packedLayout options hashValue).Set second.m_optionIndex
        ((packedLayout options hashValue).Set first.m_optionIndex optionGroup first.m_value)
        second.m_value
      = (packedLayout options hashValue).Set first.m_optionIndex
          ((packedLayout options hashValue).Set second.m_optionIndex optionGroup
            second.m_value) first.m_value := by
  obtain ⟨p, hp, hpc⟩ := List.mem_filterMap.mp hfirst
  obtain ⟨q, hq, hqc⟩ := List.mem_filterMap.mp hsecond
  obtain ⟨⟨a, ha, han, hav⟩, -, -⟩ := optionCacheOf_packedLayout options hashValue p first hpc
  obtain ⟨⟨b, hb, hbn, hbv⟩, -, -⟩ := optionCacheOf_packedLayout options hashValue q second hqc
  by_cases hindex : first.m_optionIndex = second.m_optionIndex
  · have hab : a = b := by
      rw [hindex, hb] at ha
      exact (Option.some.inj ha).symm
    have hname : p.1 = q.1 := by rw [← han, ← hbn, hab]
    have hvalue := hmapping p hp q hq hname
    have hpq : p = q := Prod.ext hname hvalue
    rw [hpq, hqc] at hpc
    rw [Option.some.inj hpc]
  · exact packedLayout_Set_comm options hashValue hpacking _ _ hindex _ _ _

/-! ## Claim on the order of the options -/

/-- C15: let the schema be a packed layout whose options occupy disjoint bits, and let two
`VariantInfo` hold the same (option-name, value-name) pairs in different declaration
orders, the pairs being a mapping (no option name with two values) and all valid. Then the
first loop of `CreateShaderVariantAsset` resolves both lists, the successive `Set` calls of
the second loop on a fresh option group give the same `ShaderVariantId` for both, the
prefix generated for each is the concatenation of its define lines in its own declaration
order, the two lists of define lines being permutations of each other, and whenever
`CreateShaderVariantAsset` returns an asset for both, the two assets carry the same
`ShaderVariantId`. -/
theorem C15_variant_id_is_order_independent (env : BuilderEnv) (jobEnv : JobEnv)
    (options : List ShaderOptionDescriptor) (hashValue : Nat)
    (creationContext : ShaderVariantCreationContext2) (first second : VariantInfo)
    (hlayout : creationContext.m_shaderOptionGroupLayout = packedLayout options hashValue)
    (hpacking : disjointPacking options)
    (hmapping : ∀ p ∈ first.m_options, ∀ q ∈ first.m_options, p.1 = q.1 → p.2 = q.2)
    (hperm : first.m_options.Perm second.m_options)
    (hvalid : ∀ shaderOption ∈ first.m_options,
      (optionCacheOf creationContext.m_shaderOptionGroupLayout shaderOption).isSome) :
    ∃ firstList secondList : List OptionCache,
      resolveOptionList creationContext.m_shaderOptionGroupLayout first.m_options []
        = .ok firstList
      ∧ resolveOptionList creationContext.m_shaderOptionGroupLayout second.m_options []
        = .ok secondList
      ∧ (applyOptionList creationContext.m_shaderOptionGroupLayout firstList {} ""
            []).1.GetShaderVariantId
          = (applyOptionList creationContext.m_shaderOptionGroupLayout secondList {} ""
              []).1.GetShaderVariantId
      ∧ (applyOptionList creationContext.m_shaderOptionGroupLayout firstList {} "" []).2.1
          = String.join (first.m_options.map (fun shaderOption =>
              "#define " ++ shaderOption.1 ++ "_OPTION_DEF " ++ shaderOption.2 ++ "\n"))
      ∧ (applyOptionList creationContext.m_shaderOptionGroupLayout secondList {} "" []).2.1
          = String.join (second.m_options.map (fun shaderOption =>
              "#define " ++ shaderOption.1 ++ "_OPTION_DEF " ++ shaderOption.2 ++ "\n"))
      ∧ (first.m_options.map (fun shaderOption =>
            "#define " ++ shaderOption.1 ++ "_OPTION_DEF " ++ shaderOption.2 ++ "\n")).Perm
          (second.m_options.map (fun shaderOption =>
            "#define " ++ shaderOption.1 ++ "_OPTION_DEF " ++ shaderOption.2 ++ "\n"))
      ∧ ∀ (firstByproducts secondByproducts : Option ByProducts)
          (firstAsset secondAsset : ShaderVariantAsset2),
          (CreateShaderVariantAsset env jobEnv first creationContext
            firstByproducts).outcome = .ok (some firstAsset) →
          (CreateShaderVariantAsset env jobEnv second creationContext
            secondByproducts).outcome = .ok (some secondAsset) →
          firstAsset.m_shaderVariantId = secondAsset.m_shaderVariantId := by
  have hvalid2 : ∀ shaderOption ∈ second.m_options,
      (optionCacheOf creationContext.m_shaderOptionGroupLayout shaderOption).isSome :=
    fun p hp => hvalid p (hperm.mem_iff.mpr hp)
  have hcaches := hperm.filterMap (optionCacheOf creationContext.m_shaderOptionGroupLayout)
  have hfold : ∀ optionGroup : ShaderOptionGroup,
      (first.m_options.filterMap
          (optionCacheOf creationContext.m_shaderOptionGroupLayout)).foldl
        (fun group optionCache =>
          creationContext.m_shaderOptionGroupLayout.Set optionCache.m_optionIndex group
            optionCache.m_value) optionGroup
      = (second.m_options.filterMap
          (optionCacheOf creationContext.m_shaderOptionGroupLayout)).foldl
        (fun group optionCache =>
          creationContext.m_shaderOptionGroupLayout.Set optionCache.m_optionIndex group
            optionCache.m_value) optionGroup := by
    intro optionGroup
    apply List.Perm.foldl_eq' hcaches
    intro x hx y hy z
    rw [hlayout] at hx hy ⊢
    exact packedLayout_Set_comm_of_caches options hashValue hpacking first.m_options
      hmapping x hx y hy z
  refine ⟨first.m_options.filterMap
      (optionCacheOf creationContext.m_shaderOptionGroupLayout),
    second.m_options.filterMap
      (optionCacheOf creationContext.m_shaderOptionGroupLayout), ?_, ?_, ?_, ?_, ?_, ?_, ?_⟩
  · simpa using resolveOptionList_of_all_valid
      creationContext.m_shaderOptionGroupLayout first.m_options [] hvalid
  · simpa using resolveOptionList_of_all_valid
      creationContext.m_shaderOptionGroupLayout second.m_options [] hvalid2
  · rw [applyOptionList_eq, applyOptionList_eq]
    exact congrArg ShaderOptionGroup.GetShaderVariantId (hfold {})
  · rw [applyOptionList_eq, filterMap_optionCacheOf_defines _ _ hvalid]
    simp [optionDefine]
  · rw [applyOptionList_eq, filterMap_optionCacheOf_defines _ _ hvalid2]
    simp [optionDefine]
  · exact hperm.map _
  · intro firstByproducts secondByproducts firstAsset secondAsset hfirst hsecond
    rw [(CreateShaderVariantAsset_ids_of_ok env jobEnv _ _ _ _ hfirst).2,
      (CreateShaderVariantAsset_ids_of_ok env jobEnv _ _ _ _ hsecond).2, hfold]

/-- Witness of C15: the sample variant and the same variant with its two options swapped,
on the sample schema. Both assets are created with the id of key 3 and mask 3, and the two
prefixes list the defines in the two different orders. -/
theorem C15_variant_id_is_order_independent_witness :
    ∃ firstAsset secondAsset : ShaderVariantAsset2,
      (CreateShaderVariantAsset (sampleEnv twoVariantList true false)
          (sampleJobEnv sampleVariant [] [] []) sampleVariant sampleContext none).outcome
        = .ok (some firstAsset)
      ∧ (CreateShaderVariantAsset (sampleEnv twoVariantList true false)
          (sampleJobEnv sampleVariant [] [] []) sampleVariantSwapped sampleContext
          none).outcome = .ok (some secondAsset)
      ∧ firstAsset.m_shaderVariantId = secondAsset.m_shaderVariantId
      ∧ firstAsset.m_shaderVariantId = { m_key := 3, m_mask := 3 }
      ∧ (["#define o_quality_OPTION_DEF High\n", "#define o_fog_OPTION_DEF On\n"]).Perm
          ["#define o_fog_OPTION_DEF On\n", "#define o_quality_OPTION_DEF High\n"] := by
  have hfirst : (CreateShaderVariantAsset (sampleEnv twoVariantList true false)
      (sampleJobEnv sampleVariant [] [] []) sampleVariant sampleContext none).outcome
      = .ok (some _) := rfl
  have hsecond : (CreateShaderVariantAsset (sampleEnv twoVariantList true false)
      (sampleJobEnv sampleVariant [] [] []) sampleVariantSwapped sampleContext none).outcome
      = .ok (some _) := rfl
  obtain ⟨_, _, _, _, _, _, _, hdefines, hids⟩ :=
    C15_variant_id_is_order_independent (sampleEnv twoVariantList true false)
      (sampleJobEnv sampleVariant [] [] []) sampleOptions 7 sampleContext sampleVariant
      sampleVariantSwapped rfl (by unfold disjointPacking; decide) (by decide)
      (List.Perm.swap _ _ _) (by decide)
  exact ⟨_, _, hfirst, hsecond, hids none none _ _ hfirst hsecond, rfl, hdefines⟩

/-! ## Claims on the tree job -/

/-- C21: when no backend is enabled for the shader and the platform, both jobs end at the
check of the backend list with the result code Success and without adding a product, so
with zero products for a response that held none. For the tree job the steps before the
check are the load of the variant list, the lookup of the shader path parameter and the
load of the shader data; for the variant job, the lookups of the two parameters and the
preparation of the source input. -/
theorem C21_no_enabled_backend_is_success_without_products (c : BuilderConstants)
    (env : BuilderEnv) (jobEnv : JobEnv) (treeEnv : TreeJobEnv) (IsCancelled : Nat → Bool)
    (request : ProcessJobRequest) (response : ProcessJobResponse) :
    (∀ (shaderVariantListDescriptor : ShaderVariantListSourceData)
        (shaderSourceFileFullPath : String) (shaderSourceDescriptor : ShaderSourceData),
        env.LoadObjectFromFile
            (env.ConstructFull request.m_watchFolder request.m_sourceFile true)
          = some shaderVariantListDescriptor →
        JobParameterMap.find request.m_jobDescription.m_jobParameters
            c.ShaderSourceFilePathJobParam = some shaderSourceFileFullPath →
        treeEnv.LoadShaderDataJson shaderSourceFileFullPath = .ok shaderSourceDescriptor →
        jobEnv.DiscoverEnabledShaderPlatformInterfaces request.m_platformInfo
            shaderSourceDescriptor = [] →
        ProcessShaderVariantTreeJob c env jobEnv treeEnv request response
            = .ok { m_resultCode := ProcessJobResultCode.Success
                    m_outputProducts := response.m_outputProducts })
      ∧ (∀ (shaderSourceFileFullPath variantJsonString : String) (sources : ShaderFiles)
          (shaderSourceDescriptor : ShaderSourceData),
          JobParameterMap.find request.m_jobDescription.m_jobParameters
              c.ShaderSourceFilePathJobParam = some shaderSourceFileFullPath →
          JobParameterMap.find request.m_jobDescription.m_jobParameters
              c.ShaderVariantJobVariantParam = some variantJsonString →
          jobEnv.PrepareSourceInput ShaderVariantAssetBuilder2Name shaderSourceFileFullPath
            = (some sources, shaderSourceDescriptor) →
          jobEnv.DiscoverEnabledShaderPlatformInterfaces request.m_platformInfo
              shaderSourceDescriptor = [] →
          ProcessShaderVariantJob c env jobEnv IsCancelled request response
              = .ok { m_resultCode := ProcessJobResultCode.Success
                      m_outputProducts := response.m_outputProducts }) := by
  constructor
  · intro list path descriptor hlist hpath hdata hnone
    unfold ProcessShaderVariantTreeJob
    simp [hlist, JobParameterMap.atKey, hpath, hdata, hnone]
  · intro path json sources descriptor hpath hvariant hsources hnone
    unfold ProcessShaderVariantJob
    simp [JobParameterMap.atKey, hpath, hvariant, hsources, hnone]

/-- Witness of C21: the sample tree job and the sample variant job for a shader without an
enabled backend; both end with Success and no product. -/
theorem C21_no_enabled_backend_is_success_without_products_witness :
    ProcessShaderVariantTreeJob sampleConstants (sampleEnv twoVariantList true false)
        (sampleJobEnv sampleVariant [] [{ m_name := "" }] []) sampleTreeJobEnv
        sampleTreeJobRequest emptyJobResponse
      = .ok { m_resultCode := ProcessJobResultCode.Success, m_outputProducts := [] }
    ∧ ProcessShaderVariantJob sampleConstants (sampleEnv twoVariantList true false)
        (sampleJobEnv sampleVariant [] [{ m_name := "" }] []) (fun _ => false)
        sampleJobRequest emptyJobResponse
      = .ok { m_resultCode := ProcessJobResultCode.Success, m_outputProducts := [] } :=
  ⟨(C21_no_enabled_backend_is_success_without_products sampleConstants
      (sampleEnv twoVariantList true false)
      (sampleJobEnv sampleVariant [] [{ m_name := "" }] []) sampleTreeJobEnv (fun _ => false)
      sampleTreeJobRequest emptyJobResponse).1 _ _ _ rfl rfl rfl rfl,
    (C21_no_enabled_backend_is_success_without_products sampleConstants
      (sampleEnv twoVariantList true false)
      (sampleJobEnv sampleVariant [] [{ m_name := "" }] []) sampleTreeJobEnv (fun _ => false)
      sampleJobRequest emptyJobResponse).2 _ _ _ _ rfl rfl rfl rfl⟩

theorem schemaAgreementLoop_from_previous (jobEnv : JobEnv) (treeEnv : TreeJobEnv)
    (request : ProcessJobRequest) (azslc : AzslCompiler) (shaderSourceFileFullPath : String)
    (backends : List ShaderPlatformInterface) (previous : ShaderOptionGroupLayout)
    (previousLoopApiName : String)
    (hloads : ∀ backend ∈ backends,
      (backendSchemaHash jobEnv treeEnv request azslc shaderSourceFileFullPath
        backend).isSome) :
    ((schemaAgreementLoop jobEnv treeEnv request azslc shaderSourceFileFullPath backends
          (some previous) previousLoopApiName).passes = true
        ↔ ∀ backend ∈ backends,
            backendSchemaHash jobEnv treeEnv request azslc shaderSourceFileFullPath backend
              = some previous.GetHash)
      ∧ schemaAgreementLoop jobEnv treeEnv request azslc shaderSourceFileFullPath backends
          (some previous) previousLoopApiName ≠ .loadFailed
      ∧ ∀ first second : String,
          schemaAgreementLoop jobEnv treeEnv request azslc shaderSourceFileFullPath backends
              (some previous) previousLoopApiName = .discrepancy first second →
          (∃ backend rest, backends = backend :: rest ∧ first = previousLoopApiName
              ∧ second = backend.GetAPIName
              ∧ backendSchemaHash jobEnv treeEnv request azslc shaderSourceFileFullPath
                  backend ≠ some previous.GetHash)
            ∨ ∃ (i : Nat) (b1 b2 : ShaderPlatformInterface),
                backends[i]? = some b1 ∧ backends[i + 1]? = some b2
                ∧ b1.GetAPIName = first ∧ b2.GetAPIName = second
                ∧ backendSchemaHash jobEnv treeEnv request azslc shaderSourceFileFullPath b1
                    ≠ backendSchemaHash jobEnv treeEnv request azslc
                        shaderSourceFileFullPath b2 := by
  induction backends generalizing previous previousLoopApiName with
  | nil =>
    refine ⟨by simp [schemaAgreementLoop, SchemaLoopResult.passes], ?_, ?_⟩
    · simp [schemaAgreementLoop]
    · intro first second h
      simp [schemaAgreementLoop] at h
  | cons backend rest ih =>
    have hhead := hloads backend (List.mem_cons_self _ _)
    have hrest : ∀ b ∈ rest,
        (backendSchemaHash jobEnv treeEnv request azslc shaderSourceFileFullPath b).isSome :=
      fun b hb => hloads b (List.mem_cons_of_mem _ hb)
    cases hlayout : LoadShaderOptionsGroupLayoutFromShaderAssetBuilder2 jobEnv backend
        request.m_platformInfo azslc shaderSourceFileFullPath
        treeEnv.DefaultSupervariantIndex with
    | none => simp [backendSchemaHash, hlayout] at hhead
    | some layout =>
      have hhash : backendSchemaHash jobEnv treeEnv request azslc shaderSourceFileFullPath
          backend = some layout.GetHash := by
        simp [backendSchemaHash, hlayout]
      by_cases hsame : previous.GetHash = layout.GetHash
      · have hloop : schemaAgreementLoop jobEnv treeEnv request azslc
            shaderSourceFileFullPath (backend :: rest) (some previous) previousLoopApiName
            = schemaAgreementLoop jobEnv treeEnv request azslc shaderSourceFileFullPath rest
                (some layout) backend.GetAPIName := by
          rw [schemaAgreementLoop]
          simp [hlayout, hsame]
        obtain ⟨h1, h2, h3⟩ := ih layout backend.GetAPIName hrest
        rw [hloop]
        refine ⟨?_, h2, ?_⟩
        · rw [h1]
          constructor
          · intro h b hb
            rcases List.mem_cons.1 hb with rfl | hb
            · rw [hhash, hsame]
            · rw [h b hb, hsame]
          · intro h b hb
            rw [h b (List.mem_cons_of_mem _ hb), hsame]
        · intro first second hd
          right
          rcases h3 first second hd with ⟨b2, rest', hr, hf, hs, hne⟩ | ⟨i, b1, b2, hi, hj, hn1, hn2, hne⟩
          · refine ⟨0, backend, b2, by simp, by simp [hr], hf.symm, hs.symm, ?_⟩
            rw [hhash]
            exact fun h => hne h.symm
          · exact ⟨i + 1, b1, b2, by simpa using hi, by simpa using hj, hn1, hn2, hne⟩
      · have hloop : schemaAgreementLoop jobEnv treeEnv request azslc
            shaderSourceFileFullPath (backend :: rest) (some previous) previousLoopApiName
            = .discrepancy previousLoopApiName backend.GetAPIName := by
          rw [schemaAgreementLoop]
          simp [hlayout, hsame]
        rw [hloop]
        refine ⟨?_, by simp, ?_⟩
        · simp only [SchemaLoopResult.passes, Bool.false_eq_true, false_iff]
          intro h
          have := h backend (List.mem_cons_self _ _)
          rw [hhash] at this
          exact hsame (Option.some.inj this).symm
        · intro first second hd
          simp only [SchemaLoopResult.discrepancy.injEq] at hd
          left
          refine ⟨backend, rest, rfl, hd.1.symm, hd.2.symm, ?_⟩
          rw [hhash]
          exact fun h => hsame (Option.some.inj h).symm

theorem schemaAgreementLoop_from_start (jobEnv : JobEnv) (treeEnv : TreeJobEnv)
    (request : ProcessJobRequest) (azslc : AzslCompiler) (shaderSourceFileFullPath : String)
    (backends : List ShaderPlatformInterface)
    (hloads : ∀ backend ∈ backends,
      (backendSchemaHash jobEnv treeEnv request azslc shaderSourceFileFullPath
        backend).isSome) :
    ((schemaAgreementLoop jobEnv treeEnv request azslc shaderSourceFileFullPath backends
          none "").passes = true
        ↔ ∀ b1 ∈ backends, ∀ b2 ∈ backends,
            backendSchemaHash jobEnv treeEnv request azslc shaderSourceFileFullPath b1
              = backendSchemaHash jobEnv treeEnv request azslc shaderSourceFileFullPath b2)
      ∧ schemaAgreementLoop jobEnv treeEnv request azslc shaderSourceFileFullPath backends
          none "" ≠ .loadFailed
      ∧ ∀ first second : String,
          schemaAgreementLoop jobEnv treeEnv request azslc shaderSourceFileFullPath backends
              none "" = .discrepancy first second →
          ∃ (i : Nat) (b1 b2 : ShaderPlatformInterface),
            backends[i]? = some b1 ∧ backends[i + 1]? = some b2
            ∧ b1.GetAPIName = first ∧ b2.GetAPIName = second
            ∧ backendSchemaHash jobEnv treeEnv request azslc shaderSourceFileFullPath b1
                ≠ backendSchemaHash jobEnv treeEnv request azslc shaderSourceFileFullPath
                    b2 := by
  cases backends with
  | nil =>
    refine ⟨by simp [schemaAgreementLoop, SchemaLoopResult.passes], ?_, ?_⟩
    · simp [schemaAgreementLoop]
    · intro first second h
      simp [schemaAgreementLoop] at h
  | cons backend rest =>
    have hhead := hloads backend (List.mem_cons_self _ _)
    have hrest : ∀ b ∈ rest,
        (backendSchemaHash jobEnv treeEnv request azslc shaderSourceFileFullPath b).isSome :=
      fun b hb => hloads b (List.mem_cons_of_mem _ hb)
    cases hlayout : LoadShaderOptionsGroupLayoutFromShaderAssetBuilder2 jobEnv backend
        request.m_platformInfo azslc shaderSourceFileFullPath
        treeEnv.DefaultSupervariantIndex with
    | none => simp [backendSchemaHash, hlayout] at hhead
    | some layout =>
      have hhash : backendSchemaHash jobEnv treeEnv request azslc shaderSourceFileFullPath
          backend = some layout.GetHash := by
        simp [backendSchemaHash, hlayout]
      have hloop : schemaAgreementLoop jobEnv treeEnv request azslc
          shaderSourceFileFullPath (backend :: rest) none ""
          = schemaAgreementLoop jobEnv treeEnv request azslc shaderSourceFileFullPath rest
              (some layout) backend.GetAPIName := by
        rw [schemaAgreementLoop]
        simp [hlayout]
      obtain ⟨h1, h2, h3⟩ := schemaAgreementLoop_from_previous jobEnv treeEnv request azslc
        shaderSourceFileFullPath rest layout backend.GetAPIName hrest
      rw [hloop]
      refine ⟨?_, h2, ?_⟩
      · rw [h1]
        constructor
        · intro h
          have hall : ∀ b ∈ backend :: rest,
              backendSchemaHash jobEnv treeEnv request azslc shaderSourceFileFullPath b
                = some layout.GetHash := by
            intro b hb
            rcases List.mem_cons.1 hb with rfl | hb
            · exact hhash
            · exact h b hb
          intro b1 hb1 b2 hb2
          rw [hall b1 hb1, hall b2 hb2]
        · intro h b hb
          rw [h b (List.mem_cons_of_mem _ hb) backend (List.mem_cons_self _ _), hhash]
      · intro first second hd
        rcases h3 first second hd with
          ⟨b2, rest', hr, hf, hs, hne⟩ | ⟨i, b1, b2, hi, hj, hn1, hn2, hne⟩
        · refine ⟨0, backend, b2, by simp, by simp [hr], hf.symm, hs.symm, ?_⟩
          rw [hhash]
          exact fun h => hne h.symm
        · exact ⟨i + 1, b1, b2, by simpa using hi, by simpa using hj, hn1, hn2, hne⟩

theorem schemaAgreementLoop_agreed_last (jobEnv : JobEnv) (treeEnv : TreeJobEnv)
    (request : ProcessJobRequest) (azslc : AzslCompiler) (shaderSourceFileFullPath : String)
    (backends : List ShaderPlatformInterface)
    (shaderOptionGroupLayout : Option ShaderOptionGroupLayout) (previousLoopApiName : String)
    (result : Option ShaderOptionGroupLayout) (name : String)
    (hnonempty : backends ≠ [])
    (hloop : schemaAgreementLoop jobEnv treeEnv request azslc shaderSourceFileFullPath
      backends shaderOptionGroupLayout previousLoopApiName = .agreed result name) :
    ∃ (earlier : List ShaderPlatformInterface) (last : ShaderPlatformInterface)
      (layout : ShaderOptionGroupLayout),
      backends = earlier ++ [last]
      ∧ LoadShaderOptionsGroupLayoutFromShaderAssetBuilder2 jobEnv last request.m_platformInfo
          azslc shaderSourceFileFullPath treeEnv.DefaultSupervariantIndex = some layout
      ∧ result = some layout ∧ name = last.GetAPIName := by
  induction backends generalizing shaderOptionGroupLayout previousLoopApiName with
  | nil => exact absurd rfl hnonempty
  | cons backend rest ih =>
    unfold schemaAgreementLoop at hloop
    simp only [] at hloop
    cases hload : LoadShaderOptionsGroupLayoutFromShaderAssetBuilder2 jobEnv backend
        request.m_platformInfo azslc shaderSourceFileFullPath
        treeEnv.DefaultSupervariantIndex with
    | none => simp [hload] at hloop
    | some layout =>
      simp only [hload] at hloop
      split_ifs at hloop with hdiffers
      cases rest with
      | nil =>
        simp only [schemaAgreementLoop, SchemaLoopResult.agreed.injEq] at hloop
        exact ⟨[], backend, layout, rfl, hload, hloop.1.symm, hloop.2.symm⟩
      | cons second rest' =>
        obtain ⟨earlier, last, layout', hlist, hlast, hresult, hname⟩ :=
          ih (some layout) backend.GetAPIName (by simp) hloop
        exact ⟨backend :: earlier, last, layout', by rw [hlist]; rfl, hlast, hresult, hname⟩

/-- C22: in the tree job, let the variant list, the shader path parameter and the shader
data load, let the list of enabled backends be non-empty and let the option schema of
every backend load. Then the backend loop passes if and only if the schema hashes of all
backends are equal, although it compares each backend only with the one before it. When
the hashes are all equal the job goes on with the schema of the last backend: it is
Failed without a new product when the tree asset is not built or not saved, and otherwise
it is Success with the tree product appended. When the hashes are not all equal the job
returns Failed without adding a product, the loop has ended on the discrepancy error, and
the two API names in that error are those of two consecutive backends of the list whose
schema hashes differ. -/
theorem C22_schema_loop_passes_iff_all_hashes_equal (c : BuilderConstants)
    (env : BuilderEnv) (jobEnv : JobEnv) (treeEnv : TreeJobEnv) (request : ProcessJobRequest)
    (response : ProcessJobResponse) (shaderVariantListDescriptor : ShaderVariantListSourceData)
    (shaderSourceFileFullPath : String) (shaderSourceDescriptor : ShaderSourceData)
    (backends : List ShaderPlatformInterface)
    (hlist : env.LoadObjectFromFile
        (env.ConstructFull request.m_watchFolder request.m_sourceFile true)
      = some shaderVariantListDescriptor)
    (hpath : JobParameterMap.find request.m_jobDescription.m_jobParameters
      c.ShaderSourceFilePathJobParam = some shaderSourceFileFullPath)
    (hdata : treeEnv.LoadShaderDataJson shaderSourceFileFullPath = .ok shaderSourceDescriptor)
    (hbackends : jobEnv.DiscoverEnabledShaderPlatformInterfaces request.m_platformInfo
      shaderSourceDescriptor = backends)
    (hnonempty : backends ≠ [])
    (hloads : ∀ backend ∈ backends,
      (backendSchemaHash jobEnv treeEnv request
        { m_inputFile := treeEnv.GetAbsolutePathToAzslFile shaderSourceFileFullPath
            shaderSourceDescriptor.m_source }
        shaderSourceFileFullPath backend).isSome) :
    ((schemaAgreementLoop jobEnv treeEnv request
          { m_inputFile := treeEnv.GetAbsolutePathToAzslFile shaderSourceFileFullPath
              shaderSourceDescriptor.m_source }
          shaderSourceFileFullPath backends none "").passes = true
        ↔ ∀ b1 ∈ backends, ∀ b2 ∈ backends,
            backendSchemaHash jobEnv treeEnv request
                { m_inputFile := treeEnv.GetAbsolutePathToAzslFile shaderSourceFileFullPath
                    shaderSourceDescriptor.m_source }
                shaderSourceFileFullPath b1
              = backendSchemaHash jobEnv treeEnv request
                  { m_inputFile := treeEnv.GetAbsolutePathToAzslFile shaderSourceFileFullPath
                      shaderSourceDescriptor.m_source }
                  shaderSourceFileFullPath b2)
      ∧ ((∀ b1 ∈ backends, ∀ b2 ∈ backends,
            backendSchemaHash jobEnv treeEnv request
                { m_inputFile := treeEnv.GetAbsolutePathToAzslFile shaderSourceFileFullPath
                    shaderSourceDescriptor.m_source }
                shaderSourceFileFullPath b1
              = backendSchemaHash jobEnv treeEnv request
                  { m_inputFile := treeEnv.GetAbsolutePathToAzslFile shaderSourceFileFullPath
                      shaderSourceDescriptor.m_source }
                  shaderSourceFileFullPath b2) →
          ∃ (earlier : List ShaderPlatformInterface) (last : ShaderPlatformInterface)
            (layout : ShaderOptionGroupLayout),
            backends = earlier ++ [last]
            ∧ LoadShaderOptionsGroupLayoutFromShaderAssetBuilder2 jobEnv last
                request.m_platformInfo
                { m_inputFile := treeEnv.GetAbsolutePathToAzslFile shaderSourceFileFullPath
                    shaderSourceDescriptor.m_source }
                shaderSourceFileFullPath treeEnv.DefaultSupervariantIndex = some layout
            ∧ ProcessShaderVariantTreeJob c env jobEnv treeEnv request response
              = if treeEnv.CreatorEnd
                    { m_shaderOptionGroupLayout := layout
                      m_variantInfos := shaderVariantListDescriptor.m_shaderVariants }
                  = false then
                  .ok { m_resultCode := ProcessJobResultCode.Failed
                        m_outputProducts := response.m_outputProducts }
                else if treeEnv.SaveObjectToFile
                    (env.ConstructFull request.m_tempDirPath
                      (jobEnv.GetFileName shaderSourceFileFullPath ++ "."
                        ++ treeEnv.ShaderVariantTreeAssetExtension) true)
                    { m_shaderOptionGroupLayout := layout
                      m_variantInfos := shaderVariantListDescriptor.m_shaderVariants }
                  = false then
                  .ok { m_resultCode := ProcessJobResultCode.Failed
                        m_outputProducts := response.m_outputProducts }
                else
                  .ok { m_resultCode := ProcessJobResultCode.Success
                        m_outputProducts := response.m_outputProducts ++
                          [{ m_productSubID := treeEnv.ShaderVariantTreeAssetProductSubID
                             m_productFileName := env.ConstructFull request.m_tempDirPath
                               (jobEnv.GetFileName shaderSourceFileFullPath ++ "."
                                 ++ treeEnv.ShaderVariantTreeAssetExtension) true
                             m_productAssetType := treeEnv.ShaderVariantTreeAssetTypeId
                             m_dependenciesHandled := true }] })
      ∧ ((¬ ∀ b1 ∈ backends, ∀ b2 ∈ backends,
            backendSchemaHash jobEnv treeEnv request
                { m_inputFile := treeEnv.GetAbsolutePathToAzslFile shaderSourceFileFullPath
                    shaderSourceDescriptor.m_source }
                shaderSourceFileFullPath b1
              = backendSchemaHash jobEnv treeEnv request
                  { m_inputFile := treeEnv.GetAbsolutePathToAzslFile shaderSourceFileFullPath
                      shaderSourceDescriptor.m_source }
                  shaderSourceFileFullPath b2) →
          ProcessShaderVariantTreeJob c env jobEnv treeEnv request response
              = .ok { m_resultCode := ProcessJobResultCode.Failed
                      m_outputProducts := response.m_outputProducts }
            ∧ ∃ (i : Nat) (b1 b2 : ShaderPlatformInterface),
                schemaAgreementLoop jobEnv treeEnv request
                    { m_inputFile := treeEnv.GetAbsolutePathToAzslFile
                        shaderSourceFileFullPath shaderSourceDescriptor.m_source }
                    shaderSourceFileFullPath backends none ""
                  = .discrepancy b1.GetAPIName b2.GetAPIName
                ∧ backends[i]? = some b1 ∧ backends[i + 1]? = some b2
                ∧ backendSchemaHash jobEnv treeEnv request
                      { m_inputFile := treeEnv.GetAbsolutePathToAzslFile
                          shaderSourceFileFullPath shaderSourceDescriptor.m_source }
                      shaderSourceFileFullPath b1
                    ≠ backendSchemaHash jobEnv treeEnv request
                        { m_inputFile := treeEnv.GetAbsolutePathToAzslFile
                            shaderSourceFileFullPath shaderSourceDescriptor.m_source }
                        shaderSourceFileFullPath b2) := by
  obtain ⟨h1, h2, h3⟩ := schemaAgreementLoop_from_start jobEnv treeEnv request
    { m_inputFile := treeEnv.GetAbsolutePathToAzslFile shaderSourceFileFullPath
        shaderSourceDescriptor.m_source }
    shaderSourceFileFullPath backends hloads
  have hempty : backends.isEmpty = false := by
    cases backends with
    | nil => exact absurd rfl hnonempty
    | cons _ _ => rfl
  refine ⟨h1, ?_, ?_⟩
  · intro hall
    have hpasses := h1.mpr hall
    cases hloop : schemaAgreementLoop jobEnv treeEnv request
        { m_inputFile := treeEnv.GetAbsolutePathToAzslFile shaderSourceFileFullPath
            shaderSourceDescriptor.m_source }
        shaderSourceFileFullPath backends none "" with
    | loadFailed => exact absurd hloop h2
    | discrepancy first second => simp [hloop, SchemaLoopResult.passes] at hpasses
    | agreed result name =>
      obtain ⟨earlier, last, layout, hsplit, hlast, hresult, _⟩ :=
        schemaAgreementLoop_agreed_last jobEnv treeEnv request _ shaderSourceFileFullPath
          backends none "" result name hnonempty hloop
      subst hresult
      refine ⟨earlier, last, layout, hsplit, hlast, ?_⟩
      unfold ProcessShaderVariantTreeJob
      simp only [hlist, JobParameterMap.atKey, hpath, hdata, hbackends, hempty, hloop]
      cases hend : treeEnv.CreatorEnd
          { m_shaderOptionGroupLayout := layout
            m_variantInfos := shaderVariantListDescriptor.m_shaderVariants } with
      | false => simp
      | true =>
        cases hsave : treeEnv.SaveObjectToFile
            (env.ConstructFull request.m_tempDirPath
              (jobEnv.GetFileName shaderSourceFileFullPath ++ "."
                ++ treeEnv.ShaderVariantTreeAssetExtension) true)
            { m_shaderOptionGroupLayout := layout
              m_variantInfos := shaderVariantListDescriptor.m_shaderVariants } with
        | false => simp [hsave]
        | true => simp [hsave, ProcessJobResponse.push_back]
  · intro hnotall
    have hfails : (schemaAgreementLoop jobEnv treeEnv request
        { m_inputFile := treeEnv.GetAbsolutePathToAzslFile shaderSourceFileFullPath
            shaderSourceDescriptor.m_source }
        shaderSourceFileFullPath backends none "").passes = false := by
      cases hpasses : (schemaAgreementLoop jobEnv treeEnv request
          { m_inputFile := treeEnv.GetAbsolutePathToAzslFile shaderSourceFileFullPath
              shaderSourceDescriptor.m_source }
          shaderSourceFileFullPath backends none "").passes with
      | false => rfl
      | true => exact absurd (h1.mp hpasses) hnotall
    cases hloop : schemaAgreementLoop jobEnv treeEnv request
        { m_inputFile := treeEnv.GetAbsolutePathToAzslFile shaderSourceFileFullPath
            shaderSourceDescriptor.m_source }
        shaderSourceFileFullPath backends none "" with
    | loadFailed => exact absurd hloop h2
    | agreed layout name => simp [hloop, SchemaLoopResult.passes] at hfails
    | discrepancy first second =>
      obtain ⟨i, b1, b2, hi, hj, hn1, hn2, hne⟩ := h3 first second hloop
      constructor
      · unfold ProcessShaderVariantTreeJob
        simp [hlist, JobParameterMap.atKey, hpath, hdata, hbackends, hempty, hloop]
      · exact ⟨i, b1, b2, by rw [hn1, hn2], hi, hj, hne⟩

/-- Witness of C22: the tree job over the backends `dx12` and `vulkan`. When both schemas
have the hash 7 the job is Success with the tree product `/tmp/a.azshadervarianttree`.
When the schema of `vulkan` has the hash 8 the loop ends on the discrepancy between
`dx12` and `vulkan` and the job is Failed without a product. -/
theorem C22_schema_loop_passes_iff_all_hashes_equal_witness :
    ProcessShaderVariantTreeJob sampleConstants (sampleEnv twoVariantList true false)
        (sampleJobEnv sampleVariant [sampleBackend "dx12" 0, sampleBackend "vulkan" 1]
          [{ m_name := "" }] [])
        sampleTreeJobEnv sampleTreeJobRequest emptyJobResponse
      = .ok { m_resultCode := ProcessJobResultCode.Success
              m_outputProducts :=
                [{ m_productSubID := 0
                   m_productFileName := "/tmp/a.azshadervarianttree"
                   m_productAssetType := "ShaderVariantTreeAsset"
                   m_dependenciesHandled := true }] }
    ∧ ProcessShaderVariantTreeJob sampleConstants (sampleEnv twoVariantList true false)
        (mismatchJobEnv [sampleBackend "dx12" 0, sampleBackend "vulkan" 1]) sampleTreeJobEnv
        sampleTreeJobRequest emptyJobResponse
      = .ok { m_resultCode := ProcessJobResultCode.Failed, m_outputProducts := [] }
    ∧ schemaAgreementLoop (mismatchJobEnv [sampleBackend "dx12" 0, sampleBackend "vulkan" 1])
        sampleTreeJobEnv sampleTreeJobRequest { m_inputFile := "/s/a.azsl" } "/s/a.shader"
        [sampleBackend "dx12" 0, sampleBackend "vulkan" 1] none ""
      = .discrepancy "dx12" "vulkan" := by
  refine ⟨?_, ?_, rfl⟩
  · obtain ⟨_, _, layout, _, _, hjob⟩ :=
      (C22_schema_loop_passes_iff_all_hashes_equal sampleConstants
        (sampleEnv twoVariantList true false)
        (sampleJobEnv sampleVariant [sampleBackend "dx12" 0, sampleBackend "vulkan" 1]
          [{ m_name := "" }] [])
        sampleTreeJobEnv sampleTreeJobRequest emptyJobResponse twoVariantList "/s/a.shader" _
        [sampleBackend "dx12" 0, sampleBackend "vulkan" 1] rfl rfl rfl rfl (by simp)
        (by
          intro backend hbackend
          simp only [List.mem_cons, List.mem_singleton, List.not_mem_nil, or_false]
            at hbackend
          rcases hbackend with rfl | rfl <;> rfl)).2.1
        (by
          intro b1 h1 b2 h2
          simp only [List.mem_cons, List.mem_singleton, List.not_mem_nil, or_false]
            at h1 h2
          rcases h1 with rfl | rfl <;> rcases h2 with rfl | rfl <;> rfl)
    rw [hjob]
    rfl
  · exact ((C22_schema_loop_passes_iff_all_hashes_equal sampleConstants
      (sampleEnv twoVariantList true false)
      (mismatchJobEnv [sampleBackend "dx12" 0, sampleBackend "vulkan" 1]) sampleTreeJobEnv
      sampleTreeJobRequest emptyJobResponse twoVariantList "/s/a.shader" _
      [sampleBackend "dx12" 0, sampleBackend "vulkan" 1] rfl rfl rfl rfl (by simp)
      (by
        intro backend hbackend
        simp only [List.mem_cons, List.mem_singleton, List.not_mem_nil, or_false] at hbackend
        rcases hbackend with rfl | rfl <;> rfl)).2.2
      (by
        intro hall
        have h := hall (sampleBackend "dx12" 0) (by simp) (sampleBackend "vulkan" 1) (by simp)
        revert h
        decide)).1

/-! ## Claim on the byproducts of variant creation -/

theorem compileEntryPoints_byproducts (jobEnv : JobEnv)
    (creationContext : ShaderVariantCreationContext2) (variantShaderSourcePath : String)
    (entryPoints : List (String × Nat)) (state state' : CompileState)
    (hok : compileEntryPoints jobEnv creationContext variantShaderSourcePath entryPoints state
      = (.ok (), state')) :
    (entryPoints = [] → state'.outputByproducts = state.outputByproducts)
      ∧ ∀ (earlier : List (String × Nat)) (last : String × Nat),
          entryPoints = earlier ++ [last] →
          ∃ descriptor : StageDescriptor,
            creationContext.m_shaderPlatformInterface.CompilePlatformInternal
                creationContext.m_platformInfo variantShaderSourcePath last.1
                (jobEnv.ToAssetBuilderShaderType last.2) creationContext.m_tempDirPath
                creationContext.m_shaderCompilerArguments = some descriptor
            ∧ state'.outputByproducts = some descriptor.m_byProducts := by
  induction entryPoints generalizing state with
  | nil =>
    simp only [compileEntryPoints, Prod.mk.injEq, true_and] at hok
    subst hok
    exact ⟨fun _ => rfl, fun earlier last h => by simp at h⟩
  | cons entryPoint rest ih =>
    unfold compileEntryPoints at hok
    simp only [] at hok
    cases hcompile : creationContext.m_shaderPlatformInterface.CompilePlatformInternal
        creationContext.m_platformInfo variantShaderSourcePath entryPoint.1
        (jobEnv.ToAssetBuilderShaderType entryPoint.2) creationContext.m_tempDirPath
        creationContext.m_shaderCompilerArguments with
    | none => simp [hcompile] at hok
    | some descriptor =>
      simp only [hcompile] at hok
      obtain ⟨hnil, hlast⟩ := ih _ hok
      refine ⟨fun h => by simp at h, ?_⟩
      intro earlier last hentries
      cases earlier with
      | nil =>
        simp only [List.nil_append, List.cons.injEq] at hentries
        obtain ⟨rfl, rfl⟩ := hentries
        exact ⟨descriptor, hcompile, hnil rfl⟩
      | cons first earlier' =>
        simp only [List.cons_append, List.cons.injEq] at hentries
        exact hlast earlier' last hentries.2

theorem compileAndPackage_byproducts (jobEnv : JobEnv) (shaderVariantInfo : VariantInfo)
    (creationContext : ShaderVariantCreationContext2) (outputByproducts : Option ByProducts)
    (optionGroup : ShaderOptionGroup) (sourcePath : String) (effects : List Effect)
    (shaderVariantAsset : Option ShaderVariantAsset2)
    (hok : (compileAndPackage jobEnv shaderVariantInfo creationContext outputByproducts
      optionGroup sourcePath effects).outcome = .ok shaderVariantAsset) :
    (creationContext.m_shaderEntryPoints = [] →
        (compileAndPackage jobEnv shaderVariantInfo creationContext outputByproducts
          optionGroup sourcePath effects).outputByproducts = outputByproducts)
      ∧ ∀ (earlier : List (String × Nat)) (last : String × Nat),
          creationContext.m_shaderEntryPoints = earlier ++ [last] →
          ∃ descriptor : StageDescriptor,
            creationContext.m_shaderPlatformInterface.CompilePlatformInternal
                creationContext.m_platformInfo sourcePath last.1
                (jobEnv.ToAssetBuilderShaderType last.2) creationContext.m_tempDirPath
                creationContext.m_shaderCompilerArguments = some descriptor
            ∧ (compileAndPackage jobEnv shaderVariantInfo creationContext outputByproducts
                optionGroup sourcePath effects).outputByproducts
              = some descriptor.m_byProducts := by
  unfold compileAndPackage at hok ⊢
  simp only [] at hok ⊢
  cases hcompiled : compileEntryPoints jobEnv creationContext sourcePath
      creationContext.m_shaderEntryPoints
      { outputByproducts := outputByproducts, functionsByStage := [], effects := effects } with
  | mk result state' =>
    simp only [hcompiled] at hok ⊢
    cases result with
    | error message => simp at hok
    | ok done =>
      simp only []
      exact compileEntryPoints_byproducts jobEnv creationContext sourcePath _ _ _ hcompiled

/-- C23: after a successful `CreateShaderVariantAsset` whose entry-point map lists at least
one entry point, the byproducts output is set to exactly the byproducts that the backend
compiler returned for the last entry point in the iteration order of the map (each compiled
entry point overwrites the output, so nothing of an earlier entry point is kept); the
source path of that compilation is the original path for an empty option list and the
synthesized path otherwise. With no entry point the byproducts output is left as it was
passed in, unset when it was unset. -/
theorem C23_byproducts_are_those_of_the_last_entry_point (env : BuilderEnv) (jobEnv : JobEnv)
    (shaderVariantInfo : VariantInfo) (creationContext : ShaderVariantCreationContext2)
    (outputByproducts : Option ByProducts) (shaderVariantAsset : Option ShaderVariantAsset2)
    (hok : (CreateShaderVariantAsset env jobEnv shaderVariantInfo creationContext
      outputByproducts).outcome = .ok shaderVariantAsset) :
    (∀ (earlier : List (String × Nat)) (last : String × Nat),
        creationContext.m_shaderEntryPoints = earlier ++ [last] →
        ∃ descriptor : StageDescriptor,
          creationContext.m_shaderPlatformInterface.CompilePlatformInternal
              creationContext.m_platformInfo
              (if shaderVariantInfo.m_options = [] then creationContext.m_hlslSourcePath
               else env.Join creationContext.m_tempDirPath
                 (variantSourceFileName creationContext.m_shaderStemNamePrefix
                   creationContext.m_shaderPlatformInterface.GetAPIName
                   shaderVariantInfo.m_stableId) true true)
              last.1 (jobEnv.ToAssetBuilderShaderType last.2) creationContext.m_tempDirPath
              creationContext.m_shaderCompilerArguments = some descriptor
          ∧ (CreateShaderVariantAsset env jobEnv shaderVariantInfo creationContext
              outputByproducts).outputByproducts = some descriptor.m_byProducts)
      ∧ (creationContext.m_shaderEntryPoints = [] →
          (CreateShaderVariantAsset env jobEnv shaderVariantInfo creationContext
            outputByproducts).outputByproducts = outputByproducts) := by
  have hvalid := CreateShaderVariantAsset_valid_of_ok env jobEnv _ _ _ _ hok
  have hcreate := CreateShaderVariantAsset_of_valid env jobEnv shaderVariantInfo
    creationContext outputByproducts hvalid
  rw [hcreate] at hok ⊢
  by_cases hnil : shaderVariantInfo.m_options = []
  · simp only [if_pos hnil] at hok ⊢
    obtain ⟨h1, h2⟩ := compileAndPackage_byproducts _ _ _ _ _ _ _ _ hok
    exact ⟨h2, h1⟩
  · simp only [if_neg hnil] at hok ⊢
    split_ifs at hok ⊢
    obtain ⟨h1, h2⟩ := compileAndPackage_byproducts _ _ _ _ _ _ _ _ hok
    exact ⟨h2, h1⟩

/-- Witness of C23: the sample variant on the sample context, whose entry points are
`MainVS` then `MainPS`: the byproducts returned are those of `MainPS` only. -/
theorem C23_byproducts_are_those_of_the_last_entry_point_witness :
    (CreateShaderVariantAsset (sampleEnv twoVariantList true false)
        (sampleJobEnv sampleVariant [] [] []) sampleVariant sampleContext
        none).outputByproducts
      = some { m_intermediatePaths := ["/tmp/a_dx12_5.hlsl.MainPS.pdb"]
               m_dynamicBranchCount := 0 } := by
  have hok : (CreateShaderVariantAsset (sampleEnv twoVariantList true false)
      (sampleJobEnv sampleVariant [] [] []) sampleVariant sampleContext none).outcome
      = .ok _ := rfl
  obtain ⟨descriptor, hcompile, hbyproducts⟩ :=
    (C23_byproducts_are_those_of_the_last_entry_point (sampleEnv twoVariantList true false)
      (sampleJobEnv sampleVariant [] [] []) sampleVariant sampleContext none _ hok).1
      [("MainVS", 0)] ("MainPS", 1) rfl
  rw [hbyproducts]
  have hdescriptor : some descriptor
      = some { m_byProducts :=
                 { m_intermediatePaths := ["/tmp/a_dx12_5.hlsl.MainPS.pdb"]
                   m_dynamicBranchCount := 0 }
               m_compiled := "MainPS" } := by
    rw [← hcompile]
    rfl
  rw [Option.some.inj hdescriptor]

/-! ## Claims on the products of the variant job -/

theorem variantIteration_next_products (env : BuilderEnv) (jobEnv : JobEnv)
    (IsCancelled : Nat → Bool) (request : ProcessJobRequest) (inputs : VariantJobInputs)
    (shaderPlatformInterface : ShaderPlatformInterface) (supervariantIndex : Nat)
    (supervariantInfo : SupervariantInfo) (state state' : VariantJobState)
    (hnext : variantIteration env jobEnv IsCancelled request inputs shaderPlatformInterface
      supervariantIndex supervariantInfo state = .next state') :
    ∃ layout : ShaderOptionGroupLayout,
      iterationLayout jobEnv request inputs shaderPlatformInterface supervariantIndex state
        = some layout
      ∧ state'.response.m_outputProducts
          = state.response.m_outputProducts
            ++ primaryProduct env jobEnv request inputs shaderPlatformInterface
                supervariantIndex supervariantInfo
              :: byproductProducts jobEnv shaderPlatformInterface.GetAPIUniqueIndex
                  supervariantIndex inputs.variantInfo.m_stableId
                  (retainedByproductPaths (iterationCreated env jobEnv request inputs
                    shaderPlatformInterface supervariantIndex supervariantInfo layout))
                  jobEnv.ShaderVariantAsset2SubProductType := by
  unfold variantIteration at hnext
  simp only [] at hnext
  cases hcancel : IsCancelled state.cancelPolls with
  | true => simp [hcancel] at hnext
  | false =>
    simp only [hcancel, Bool.false_eq_true, if_false] at hnext
    cases hlayout : iterationLayout jobEnv request inputs shaderPlatformInterface
        supervariantIndex state with
    | none => simp [hlayout] at hnext
    | some layout =>
      simp only [hlayout] at hnext
      split_ifs at hnext with hfunctions hhlsl
      cases hcreate : (iterationCreated env jobEnv request inputs shaderPlatformInterface
          supervariantIndex supervariantInfo layout).outcome with
      | error message =>
        unfold iterationCreated at hcreate
        simp [hcreate] at hnext
      | ok handle =>
        cases handle with
        | none =>
          unfold iterationCreated at hcreate
          simp [hcreate] at hnext
        | some shaderVariantAsset =>
          have hcreate' := hcreate
          unfold iterationCreated at hcreate
          have hids := CreateShaderVariantAsset_ids_of_ok env jobEnv _ _ _ _ hcreate
          simp only [hcreate] at hnext
          cases hserialize : SerializeOutShaderVariantAsset env jobEnv shaderVariantAsset
              (stemNamePrefix inputs.shaderFileName supervariantIndex supervariantInfo.m_name)
              request.m_tempDirPath shaderPlatformInterface
              (jobEnv.MakeAssetProductSubId shaderPlatformInterface.GetAPIUniqueIndex
                supervariantIndex shaderVariantAsset.m_stableId none)
              JobProduct.default with
          | mk flag assetProduct =>
            cases flag with
            | false => simp [hserialize] at hnext
            | true =>
              have hproduct := SerializeOutShaderVariantAsset_name env jobEnv _ _ _ _ _ _ _
                hserialize
              simp only [hserialize, LoopStep.next.injEq] at hnext
              subst hnext
              refine ⟨layout, rfl, ?_⟩
              rw [hproduct, hids.1]
              unfold retainedByproductPaths iterationCreated primaryProduct
              simp only []
              split <;> simp [pushByproducts_eq, ProcessJobResponse.push_back, byproductProducts]

theorem byproductProducts_length (jobEnv : JobEnv)
    (apiUniqueIndex supervariantIndex stableId : Nat) (paths : List String)
    (subProductType : Nat) :
    (byproductProducts jobEnv apiUniqueIndex supervariantIndex stableId paths
      subProductType).length = paths.length := by
  induction paths generalizing subProductType with
  | nil => rfl
  | cons path rest ih => simp [byproductProducts, ih]

theorem byproductProducts_getElem? (jobEnv : JobEnv)
    (apiUniqueIndex supervariantIndex stableId : Nat) (paths : List String)
    (subProductType : Nat) (hstart : subProductType < uint32Modulus) (i : Nat)
    (path : String) (hpath : paths[i]? = some path) :
    (byproductProducts jobEnv apiUniqueIndex supervariantIndex stableId paths
        subProductType)[i]?
      = some { m_productFileName := path
               m_productSubID := jobEnv.MakeAssetProductSubId apiUniqueIndex
                 supervariantIndex stableId (some ((subProductType + i) % uint32Modulus))
               m_productAssetType := jobEnv.CreateName "DebugInfoByProduct-PdbOrDxilTxt"
               m_dependenciesHandled := false } := by
  induction paths generalizing subProductType i with
  | nil => simp at hpath
  | cons first rest ih =>
    unfold byproductProducts
    cases i with
    | zero =>
      simp only [List.getElem?_cons_zero, Option.some.injEq] at hpath
      subst hpath
      simp [JobProduct.default, Nat.mod_eq_of_lt hstart]
    | succ i =>
      simp only [List.getElem?_cons_succ] at hpath ⊢
      rw [ih ((subProductType + 1) % uint32Modulus) (Nat.mod_lt _ (by decide)) i hpath]
      have hcounter : ((subProductType + 1) % uint32Modulus + i) % uint32Modulus
          = (subProductType + (i + 1)) % uint32Modulus := by
        unfold uint32Modulus
        omega
      rw [hcounter]

/-- C24: a completed (backend, supervariant) iteration of the variant job, whose call of
`CreateShaderVariantAsset` retains m byproduct paths, appends exactly 1 + m products to
the response, in order: the primary artifact with the sub-id
`MakeAssetProductSubId(apiIndex, supervariantIndex, stableId)`, then for i = 0..m-1 the
product of the i-th byproduct path with the sub-id
`MakeAssetProductSubId(apiIndex, supervariantIndex, stableId, counter i)`. The counter is a
`uint32_t` that starts at `ShaderVariantAsset2SubProductType` and is incremented per
byproduct: counter i is base + i reduced modulo 2^32, which is base + i as long as
base + m does not exceed 2^32, and the counters are pairwise distinct for up to 2^32
byproducts. -/
theorem C24_iteration_pushes_primary_then_byproducts (env : BuilderEnv) (jobEnv : JobEnv)
    (IsCancelled : Nat → Bool) (request : ProcessJobRequest) (inputs : VariantJobInputs)
    (shaderPlatformInterface : ShaderPlatformInterface) (supervariantIndex : Nat)
    (supervariantInfo : SupervariantInfo) (state state' : VariantJobState)
    (hbase : jobEnv.ShaderVariantAsset2SubProductType < uint32Modulus)
    (hnext : variantIteration env jobEnv IsCancelled request inputs shaderPlatformInterface
      supervariantIndex supervariantInfo state = .next state') :
    ∃ (layout : ShaderOptionGroupLayout) (paths : List String) (added : List JobProduct),
      iterationLayout jobEnv request inputs shaderPlatformInterface supervariantIndex state
        = some layout
      ∧ paths = retainedByproductPaths (iterationCreated env jobEnv request inputs
          shaderPlatformInterface supervariantIndex supervariantInfo layout)
      ∧ state'.response.m_outputProducts = state.response.m_outputProducts ++ added
      ∧ added.length = 1 + paths.length
      ∧ (∃ primary : JobProduct, added[0]? = some primary
          ∧ primary.m_productSubID
              = jobEnv.MakeAssetProductSubId shaderPlatformInterface.GetAPIUniqueIndex
                  supervariantIndex inputs.variantInfo.m_stableId none)
      ∧ (∀ (i : Nat) (path : String), paths[i]? = some path →
          ∃ product : JobProduct, added[1 + i]? = some product
            ∧ product.m_productFileName = path
            ∧ product.m_productSubID
                = jobEnv.MakeAssetProductSubId shaderPlatformInterface.GetAPIUniqueIndex
                    supervariantIndex inputs.variantInfo.m_stableId
                    (some ((jobEnv.ShaderVariantAsset2SubProductType + i) % uint32Modulus)))
      ∧ (jobEnv.ShaderVariantAsset2SubProductType + paths.length ≤ uint32Modulus →
          ∀ i, i < paths.length →
            (jobEnv.ShaderVariantAsset2SubProductType + i) % uint32Modulus
              = jobEnv.ShaderVariantAsset2SubProductType + i)
      ∧ (paths.length ≤ uint32Modulus →
          ∀ i j, i < j → j < paths.length →
            (jobEnv.ShaderVariantAsset2SubProductType + i) % uint32Modulus
              ≠ (jobEnv.ShaderVariantAsset2SubProductType + j) % uint32Modulus) := by
  obtain ⟨layout, hlayout, hproducts⟩ := variantIteration_next_products env jobEnv
    IsCancelled request inputs shaderPlatformInterface supervariantIndex supervariantInfo
    state state' hnext
  refine ⟨layout, _, _, hlayout, rfl, hproducts, ?_, ?_, ?_, ?_, ?_⟩
  · rw [List.length_cons, byproductProducts_length]
    omega
  · exact ⟨primaryProduct env jobEnv request inputs shaderPlatformInterface supervariantIndex
      supervariantInfo, by simp, rfl⟩
  · intro i path hpath
    refine ⟨{ m_productFileName := path
              m_productSubID := jobEnv.MakeAssetProductSubId
                shaderPlatformInterface.GetAPIUniqueIndex supervariantIndex
                inputs.variantInfo.m_stableId
                (some ((jobEnv.ShaderVariantAsset2SubProductType + i) % uint32Modulus))
              m_productAssetType := jobEnv.CreateName "DebugInfoByProduct-PdbOrDxilTxt"
              m_dependenciesHandled := false }, ?_, rfl, rfl⟩
    rw [Nat.add_comm 1 i, List.getElem?_cons_succ]
    exact byproductProducts_getElem? jobEnv _ _ _ _ _ hbase i path hpath
  · intro hfits i hi
    apply Nat.mod_eq_of_lt
    omega
  · intro hfits i j hij hj
    unfold uint32Modulus at hfits hbase ⊢
    omega

/-- Witness of C24: the first iteration of the sample variant job pushes the artifact with
the sub-id 40 and then its one byproduct with the sub-id 41. -/
theorem C24_iteration_pushes_primary_then_byproducts_witness :
    ∃ state' : VariantJobState,
      variantIteration (sampleEnv twoVariantList true false)
          (sampleJobEnv sampleVariant [sampleBackend "dx12" 0] [{ m_name := "" }] [])
          (fun _ => false) sampleJobRequest
          (variantJobInputs
            (sampleJobEnv sampleVariant [sampleBackend "dx12" 0] [{ m_name := "" }] [])
            "/s/a.shader" "StableId 5" { m_azslSourceFullPath := "/s/a.azsl" }
            { m_source := "a.azsl", m_programSettings := { m_entryPoints := [] }
              m_compiler := "" })
          (sampleBackend "dx12" 0) 0 { m_name := "" }
          { response := emptyJobResponse, shaderOptionGroupLayout := none, cancelPolls := 0 }
        = .next state'
      ∧ state'.response.m_outputProducts.map
          (fun product => (product.m_productFileName, product.m_productSubID))
        = [("/tmp/a_dx12_5.azshadervariant2", 40), ("/tmp/a_dx12_5.hlsl.MainPS.pdb", 41)] := by
  have hnext : variantIteration (sampleEnv twoVariantList true false)
      (sampleJobEnv sampleVariant [sampleBackend "dx12" 0] [{ m_name := "" }] [])
      (fun _ => false) sampleJobRequest
      (variantJobInputs
        (sampleJobEnv sampleVariant [sampleBackend "dx12" 0] [{ m_name := "" }] [])
        "/s/a.shader" "StableId 5" { m_azslSourceFullPath := "/s/a.azsl" }
        { m_source := "a.azsl", m_programSettings := { m_entryPoints := [] }
          m_compiler := "" })
      (sampleBackend "dx12" 0) 0 { m_name := "" }
      { response := emptyJobResponse, shaderOptionGroupLayout := none, cancelPolls := 0 }
      = .next _ := rfl
  obtain ⟨_, _, added, _, _, hproducts, _⟩ :=
    C24_iteration_pushes_primary_then_byproducts (sampleEnv twoVariantList true false)
      (sampleJobEnv sampleVariant [sampleBackend "dx12" 0] [{ m_name := "" }] [])
      (fun _ => false) sampleJobRequest _ (sampleBackend "dx12" 0) 0 { m_name := "" } _ _
      (by decide) hnext
  exact ⟨_, hnext, by decide⟩

/-! ## Claims on the path split and on validation before application -/

/-- C25: the shader `/sx/a.shader` lies outside the scan folder `/s`, but `/s` is a prefix
of its path as a string; the split returns true with the scan folder `/s` and the relative
path `/a.shader`, which is the input without the character `x` that followed the prefix,
so the outputs joined by a path separator are not the input. For the path `/s` itself, the
scan folder, the substring offset 3 lies beyond the size 2 of the path. -/
theorem C25_split_skips_a_character_that_is_no_separator :
    SplitSourceAssetPathIntoScanFolderFullPathAndRelativeFilePath2
        (sampleEnv twoVariantList true false) "/sx/a.shader" "" ""
      = .ok (true, "/s", "/a.shader")
    ∧ ("/s" ++ "/" ++ "/a.shader" : String) ≠ "/sx/a.shader"
    ∧ ("/s" ++ "\\" ++ "/a.shader" : String) ≠ "/sx/a.shader"
    ∧ SplitSourceAssetPathIntoScanFolderFullPathAndRelativeFilePath2
        (sampleEnv twoVariantList true false) "/s" "" ""
      = .error (Fault.invalidOffset 3 2) := by
  refine ⟨by rfl, by decide, by decide, by rfl⟩

/-- C26: `CreateShaderVariantAsset` validates every pair before it applies any. When the
`VariantInfo` has an invalid pair, the call fails with the error of the first invalid pair
in declaration order, the byproducts output is untouched, and it has made no call with an
outside effect: no option was set on the option group, no source file was written and no
backend compilation was started. Whenever the call makes any such call, every pair of the
`VariantInfo` is valid. -/
theorem C26_all_pairs_are_validated_before_any_is_applied (env : BuilderEnv)
    (jobEnv : JobEnv) (shaderVariantInfo : VariantInfo)
    (creationContext : ShaderVariantCreationContext2)
    (outputByproducts : Option ByProducts) :
    (∀ (before after : List (String × String)) (shaderOption : String × String),
        shaderVariantInfo.m_options = before ++ shaderOption :: after →
        (∀ earlier ∈ before,
          (optionCacheOf creationContext.m_shaderOptionGroupLayout earlier).isSome) →
        optionCacheOf creationContext.m_shaderOptionGroupLayout shaderOption = none →
        CreateShaderVariantAsset env jobEnv shaderVariantInfo creationContext outputByproducts
          = { outcome := .error
                (invalidOptionMessage creationContext.m_shaderOptionGroupLayout shaderOption)
              outputByproducts := outputByproducts
              effects := [] })
      ∧ ((CreateShaderVariantAsset env jobEnv shaderVariantInfo creationContext
            outputByproducts).effects ≠ [] →
          ∀ shaderOption ∈ shaderVariantInfo.m_options,
            (optionCacheOf creationContext.m_shaderOptionGroupLayout shaderOption).isSome) := by
  constructor
  · intro before after shaderOption hoptions hbefore hinvalid
    apply CreateShaderVariantAsset_of_resolve_error
    rw [hoptions, resolveOptionList_append_valid _ _ _ _ hbefore]
    unfold resolveOptionList invalidOptionMessage
    unfold optionCacheOf at hinvalid
    cases hindex : creationContext.m_shaderOptionGroupLayout.FindShaderOptionIndex
        shaderOption.1 with
    | none => simp only [hindex]
    | some optionIndex =>
      simp only [hindex] at hinvalid ⊢
      cases hvalue : creationContext.m_shaderOptionGroupLayout.FindValue optionIndex
          shaderOption.2 with
      | none => simp only [hvalue]
      | some value => simp [hvalue] at hinvalid
  · intro heffects
    cases hresolve : resolveOptionList creationContext.m_shaderOptionGroupLayout
        shaderVariantInfo.m_options [] with
    | error message =>
      rw [CreateShaderVariantAsset_of_resolve_error env jobEnv _ _ _ _ hresolve] at heffects
      exact absurd rfl heffects
    | ok optionList =>
      exact resolveOptionList_valid_of_ok _ _ _ _ hresolve

/-- Witness of C26: the second pair of this variant names an unknown option after a valid
first pair; the call fails on it without any effect. -/
theorem C26_all_pairs_are_validated_before_any_is_applied_witness :
    CreateShaderVariantAsset (sampleEnv twoVariantList true false)
        (sampleJobEnv sampleVariant [] [] [])
        { m_stableId := 1, m_options := [("o_quality", "High"), ("Foo", "x")] }
        sampleContext none
      = { outcome := .error "Invalid shader option: Foo", outputByproducts := none
          effects := [] } :=
  (C26_all_pairs_are_validated_before_any_is_applied (sampleEnv twoVariantList true false)
    (sampleJobEnv sampleVariant [] [] [])
    { m_stableId := 1, m_options := [("o_quality", "High"), ("Foo", "x")] }
    sampleContext none).1 [("o_quality", "High")] [] ("Foo", "x") rfl (by decide) rfl

/-! ## Auxiliary facts about a variant job that runs to its end -/

theorem variantIteration_of_runs (env : BuilderEnv) (jobEnv : JobEnv)
    (IsCancelled : Nat → Bool) (request : ProcessJobRequest) (inputs : VariantJobInputs)
    (shaderPlatformInterface : ShaderPlatformInterface) (supervariantIndex : Nat)
    (supervariantInfo : SupervariantInfo) (state : VariantJobState)
    (hcancel : IsCancelled state.cancelPolls = false)
    (hruns : ¬ iterationFails env jobEnv request inputs shaderPlatformInterface
      supervariantIndex supervariantInfo state) :
    ∃ state' : VariantJobState,
      variantIteration env jobEnv IsCancelled request inputs shaderPlatformInterface
        supervariantIndex supervariantInfo state = .next state' := by
  unfold iterationFails at hruns
  simp only [] at hruns
  have h1 := fun h => hruns (Or.inl h)
  have h2 := fun h => hruns (Or.inr (Or.inl h))
  have h3 := fun h => hruns (Or.inr (Or.inr (Or.inl h)))
  have h4 := fun h => hruns (Or.inr (Or.inr (Or.inr (Or.inl h))))
  have h5 := fun h => hruns (Or.inr (Or.inr (Or.inr (Or.inr (Or.inl h)))))
  have h6 := fun h => hruns (Or.inr (Or.inr (Or.inr (Or.inr (Or.inr h)))))
  cases hlayout : iterationLayout jobEnv request inputs shaderPlatformInterface
      supervariantIndex state with
  | none => exact absurd hlayout h1
  | some layout =>
    cases hcreate : (CreateShaderVariantAsset env jobEnv inputs.variantInfo
        (iterationContext jobEnv request inputs shaderPlatformInterface
          supervariantIndex supervariantInfo layout
          (LoadShaderFunctionsFromShaderAssetBuilder2 jobEnv shaderPlatformInterface
            request.m_platformInfo inputs.azslc inputs.shaderSourceFileFullPath
            supervariantIndex [])
          (LoadHlslFileFromShaderAssetBuilder2 jobEnv shaderPlatformInterface
            request.m_platformInfo inputs.shaderSourceFileFullPath
            supervariantIndex "").1
          (LoadHlslFileFromShaderAssetBuilder2 jobEnv shaderPlatformInterface
            request.m_platformInfo inputs.shaderSourceFileFullPath
            supervariantIndex "").2)
        none).outcome with
    | error message => exact absurd ⟨layout, message, hlayout, hcreate⟩ h4
    | ok handle =>
      cases handle with
      | none => exact absurd ⟨layout, hlayout, hcreate⟩ h5
      | some shaderVariantAsset =>
        cases hserialize : SerializeOutShaderVariantAsset env jobEnv shaderVariantAsset
            (stemNamePrefix inputs.shaderFileName supervariantIndex
              supervariantInfo.m_name)
            request.m_tempDirPath shaderPlatformInterface
            (jobEnv.MakeAssetProductSubId shaderPlatformInterface.GetAPIUniqueIndex
              supervariantIndex shaderVariantAsset.m_stableId none)
            JobProduct.default with
        | mk flag assetProduct =>
          cases flag with
          | false =>
            exact absurd ⟨layout, shaderVariantAsset, hlayout, hcreate, by rw [hserialize]⟩ h6
          | true =>
            unfold variantIteration
            simp only [hcancel, Bool.false_eq_true, if_false, hlayout, if_neg h2, if_neg h3,
              hcreate, hserialize]
            exact ⟨_, rfl⟩

theorem runIterations_of_all_run (env : BuilderEnv) (jobEnv : JobEnv)
    (IsCancelled : Nat → Bool) (request : ProcessJobRequest) (inputs : VariantJobInputs)
    (iterations : List (ShaderPlatformInterface × Nat × SupervariantInfo))
    (state : VariantJobState)
    (hpolls : ∀ k, k < iterations.length → IsCancelled (state.cancelPolls + k) = false)
    (hsteps : ∀ (pre post : List (ShaderPlatformInterface × Nat × SupervariantInfo))
      (iteration : ShaderPlatformInterface × Nat × SupervariantInfo)
      (reached : VariantJobState),
      iterations = pre ++ iteration :: post →
      runIterations env jobEnv IsCancelled request inputs pre state = .next reached →
      ¬ iterationFails env jobEnv request inputs iteration.1 iteration.2.1 iteration.2.2
          reached) :
    ∃ state' : VariantJobState,
      runIterations env jobEnv IsCancelled request inputs iterations state
        = .next state' := by
  induction iterations generalizing state with
  | nil => exact ⟨state, rfl⟩
  | cons iteration rest ih =>
    obtain ⟨middle, hmiddle⟩ := variantIteration_of_runs env jobEnv IsCancelled request
      inputs iteration.1 iteration.2.1 iteration.2.2 state
      (by simpa using hpolls 0 (by simp))
      (hsteps [] rest iteration state rfl rfl)
    obtain ⟨-, hcount, -⟩ := variantIteration_next env jobEnv IsCancelled request inputs
      _ _ _ _ _ hmiddle
    rw [runIterations_cons, hmiddle]
    apply ih middle
    · intro k hk
      have := hpolls (k + 1) (by simpa using hk)
      rw [hcount]
      rw [← this]
      congr 1
      omega
    · intro pre post it reached hsplit hreached
      apply hsteps (iteration :: pre) post it reached (by rw [hsplit]; rfl)
      rw [runIterations_cons, hmiddle]
      exact hreached

theorem runIterations_products (env : BuilderEnv) (jobEnv : JobEnv)
    (IsCancelled : Nat → Bool) (request : ProcessJobRequest) (inputs : VariantJobInputs)
    (iterations : List (ShaderPlatformInterface × Nat × SupervariantInfo))
    (state state' : VariantJobState)
    (hnext : runIterations env jobEnv IsCancelled request inputs iterations state
      = .next state') :
    ∃ byproducts : List (List JobProduct),
      byproducts.length = iterations.length
      ∧ state'.response.m_outputProducts
          = state.response.m_outputProducts
            ++ (List.zipWith
                (fun iteration pushed =>
                  primaryProduct env jobEnv request inputs iteration.1 iteration.2.1
                    iteration.2.2 :: pushed)
                iterations byproducts).flatten := by
  induction iterations generalizing state with
  | nil =>
    simp only [runIterations, LoopStep.next.injEq] at hnext
    subst hnext
    exact ⟨[], rfl, by simp⟩
  | cons iteration rest ih =>
    rw [runIterations_cons] at hnext
    cases hstep : variantIteration env jobEnv IsCancelled request inputs iteration.1
        iteration.2.1 iteration.2.2 state with
    | done response => simp [hstep] at hnext
    | fault fault => simp [hstep] at hnext
    | next middle =>
      simp only [hstep] at hnext
      obtain ⟨layout, -, hproducts⟩ := variantIteration_next_products env jobEnv
        IsCancelled request inputs _ _ _ _ _ hstep
      obtain ⟨byproducts, hlength, hrest⟩ := ih middle hnext
      refine ⟨byproductProducts jobEnv iteration.1.GetAPIUniqueIndex iteration.2.1
          inputs.variantInfo.m_stableId
          (retainedByproductPaths (iterationCreated env jobEnv request inputs iteration.1
            iteration.2.1 iteration.2.2 layout))
          jobEnv.ShaderVariantAsset2SubProductType :: byproducts, by simp [hlength], ?_⟩
      rw [hrest, hproducts]
      simp [List.append_assoc]

theorem runIterations_next_steps_run (env : BuilderEnv) (jobEnv : JobEnv)
    (IsCancelled : Nat → Bool) (request : ProcessJobRequest) (inputs : VariantJobInputs)
    (iterations : List (ShaderPlatformInterface × Nat × SupervariantInfo))
    (state state' : VariantJobState)
    (hnext : runIterations env jobEnv IsCancelled request inputs iterations state
      = .next state')
    (pre post : List (ShaderPlatformInterface × Nat × SupervariantInfo))
    (iteration : ShaderPlatformInterface × Nat × SupervariantInfo)
    (reached : VariantJobState)
    (hsplit : iterations = pre ++ iteration :: post)
    (hreached : runIterations env jobEnv IsCancelled request inputs pre state
      = .next reached) :
    ¬ iterationFails env jobEnv request inputs iteration.1 iteration.2.1 iteration.2.2
        reached := by
  intro hfails
  rw [hsplit, runIterations_append, hreached] at hnext
  simp only [] at hnext
  rw [runIterations_cons] at hnext
  cases hstep : variantIteration env jobEnv IsCancelled request inputs iteration.1
      iteration.2.1 iteration.2.2 reached with
  | done response => simp [hstep] at hnext
  | fault fault => simp [hstep] at hnext
  | next middle =>
    exact variantIteration_next_not_fails env jobEnv IsCancelled request inputs _ _ _ _ _
      hstep hfails

theorem jobIterations_length (platformInterfaces : List ShaderPlatformInterface)
    (supervariantList : List SupervariantInfo) :
    (jobIterations platformInterfaces supervariantList).length
      = platformInterfaces.length * supervariantList.length := by
  unfold jobIterations
  exact length_flatMap_blocks _ _ (fun backend => by simp [List.enum]) platformInterfaces

theorem jobIterations_getElem? (platformInterfaces : List ShaderPlatformInterface)
    (supervariantList : List SupervariantInfo) (b j : Nat)
    (shaderPlatformInterface : ShaderPlatformInterface) (supervariantInfo : SupervariantInfo)
    (hb : platformInterfaces[b]? = some shaderPlatformInterface)
    (hj : supervariantList[j]? = some supervariantInfo) :
    (jobIterations platformInterfaces supervariantList)[b * supervariantList.length + j]?
      = some (shaderPlatformInterface, j % uint32Modulus, supervariantInfo) := by
  have hlt : j < supervariantList.length := by
    rcases Nat.lt_or_ge j supervariantList.length with h | h
    · exact h
    · rw [List.getElem?_eq_none h] at hj
      cases hj
  unfold jobIterations
  rw [getElem?_flatMap_blocks _ supervariantList.length (fun backend => by simp [List.enum])
    platformInterfaces b j shaderPlatformInterface hb hlt]
  simp [List.getElem?_map, List.getElem?_enum, hj]

theorem ProcessShaderVariantJob_of_loop_next (c : BuilderConstants) (env : BuilderEnv)
    (jobEnv : JobEnv) (IsCancelled : Nat → Bool) (request : ProcessJobRequest)
    (response : ProcessJobResponse) (shaderSourceFileFullPath variantJsonString : String)
    (sources : ShaderFiles) (shaderSourceDescriptor : ShaderSourceData)
    (state : VariantJobState)
    (hpath : JobParameterMap.find request.m_jobDescription.m_jobParameters
      c.ShaderSourceFilePathJobParam = some shaderSourceFileFullPath)
    (hvariant : JobParameterMap.find request.m_jobDescription.m_jobParameters
      c.ShaderVariantJobVariantParam = some variantJsonString)
    (hsources : jobEnv.PrepareSourceInput ShaderVariantAssetBuilder2Name
      shaderSourceFileFullPath = (some sources, shaderSourceDescriptor))
    (hnext : runIterations env jobEnv IsCancelled request
      (variantJobInputs jobEnv shaderSourceFileFullPath variantJsonString sources
        shaderSourceDescriptor)
      (jobIterations
        (jobEnv.DiscoverEnabledShaderPlatformInterfaces request.m_platformInfo
          shaderSourceDescriptor)
        (jobEnv.GetSupervariantListFromShaderSourceData shaderSourceDescriptor))
      { response := response, shaderOptionGroupLayout := none, cancelPolls := 0 }
      = .next state) :
    ProcessShaderVariantJob c env jobEnv IsCancelled request response
      = .ok { m_resultCode := ProcessJobResultCode.Success
              m_outputProducts := state.response.m_outputProducts } := by
  by_cases hbackends : jobEnv.DiscoverEnabledShaderPlatformInterfaces request.m_platformInfo
      shaderSourceDescriptor = []
  · rw [hbackends] at hnext
    simp only [jobIterations, List.flatMap_nil, runIterations, LoopStep.next.injEq] at hnext
    subst hnext
    unfold ProcessShaderVariantJob
    simp [JobParameterMap.atKey, hpath, hvariant, hsources, hbackends]
  · rw [ProcessShaderVariantJob_eq c env jobEnv IsCancelled request response
      shaderSourceFileFullPath variantJsonString sources shaderSourceDescriptor hpath
      hvariant hsources hbackends, hnext]

/-- C27: in a variant job in which no cancellation poll answers true and no step of any
iteration fails (the schema load, the entry-point metadata, the source load, the variant
creation, which includes that its creator builds the asset, and the serialization), the
two nested loops visit all B*S (backend, supervariant) pairs in
backend-major order: the iteration number b*S + j is the backend b with the supervariant j,
to which the loop passes the supervariant index j (the `uint32_t` counter restarts at 0
for each backend and rises by one per supervariant, so it is j modulo 2^32, which is j for
a supervariant list of at most 2^32 entries). The job ends with the result code Success,
and what it appends to the response is, for each of the B*S iterations in that order, the
primary artifact of the iteration followed by its byproducts: exactly B*S primary
artifacts. -/
theorem C27_job_without_failure_visits_every_pair_in_order (c : BuilderConstants)
    (env : BuilderEnv) (jobEnv : JobEnv) (IsCancelled : Nat → Bool)
    (request : ProcessJobRequest) (response : ProcessJobResponse)
    (shaderSourceFileFullPath variantJsonString : String) (sources : ShaderFiles)
    (shaderSourceDescriptor : ShaderSourceData)
    (backends : List ShaderPlatformInterface) (supervariants : List SupervariantInfo)
    (hpath : JobParameterMap.find request.m_jobDescription.m_jobParameters
      c.ShaderSourceFilePathJobParam = some shaderSourceFileFullPath)
    (hvariant : JobParameterMap.find request.m_jobDescription.m_jobParameters
      c.ShaderVariantJobVariantParam = some variantJsonString)
    (hsources : jobEnv.PrepareSourceInput ShaderVariantAssetBuilder2Name
      shaderSourceFileFullPath = (some sources, shaderSourceDescriptor))
    (hbackends : jobEnv.DiscoverEnabledShaderPlatformInterfaces request.m_platformInfo
      shaderSourceDescriptor = backends)
    (hsupervariants : jobEnv.GetSupervariantListFromShaderSourceData shaderSourceDescriptor
      = supervariants)
    (hpolls : ∀ k, k < backends.length * supervariants.length → IsCancelled k = false)
    (hsteps : ∀ (pre post : List (ShaderPlatformInterface × Nat × SupervariantInfo))
      (iteration : ShaderPlatformInterface × Nat × SupervariantInfo)
      (reached : VariantJobState),
      jobIterations backends supervariants = pre ++ iteration :: post →
      runIterations env jobEnv IsCancelled request
          (variantJobInputs jobEnv shaderSourceFileFullPath variantJsonString sources
            shaderSourceDescriptor)
          pre { response := response, shaderOptionGroupLayout := none, cancelPolls := 0 }
        = .next reached →
      ¬ iterationFails env jobEnv request
          (variantJobInputs jobEnv shaderSourceFileFullPath variantJsonString sources
            shaderSourceDescriptor)
          iteration.1 iteration.2.1 iteration.2.2 reached) :
    (jobIterations backends supervariants).length = backends.length * supervariants.length
      ∧ (∀ (b j : Nat) (shaderPlatformInterface : ShaderPlatformInterface)
          (supervariantInfo : SupervariantInfo),
          backends[b]? = some shaderPlatformInterface →
          supervariants[j]? = some supervariantInfo →
          (jobIterations backends supervariants)[b * supervariants.length + j]?
              = some (shaderPlatformInterface, j % uint32Modulus, supervariantInfo)
            ∧ (supervariants.length ≤ uint32Modulus → j % uint32Modulus = j))
      ∧ ∃ byproducts : List (List JobProduct),
          byproducts.length = backends.length * supervariants.length
          ∧ ProcessShaderVariantJob c env jobEnv IsCancelled request response
              = .ok { m_resultCode := ProcessJobResultCode.Success
                      m_outputProducts := response.m_outputProducts
                        ++ (List.zipWith
                            (fun iteration pushed =>
                              primaryProduct env jobEnv request
                                (variantJobInputs jobEnv shaderSourceFileFullPath
                                  variantJsonString sources shaderSourceDescriptor)
                                iteration.1 iteration.2.1 iteration.2.2 :: pushed)
                            (jobIterations backends supervariants) byproducts).flatten } := by
  refine ⟨jobIterations_length _ _, ?_, ?_⟩
  · intro b j shaderPlatformInterface supervariantInfo hb hj
    refine ⟨jobIterations_getElem? _ _ b j _ _ hb hj, ?_⟩
    intro hfits
    have hlt : j < supervariants.length := by
      rcases Nat.lt_or_ge j supervariants.length with h | h
      · exact h
      · rw [List.getElem?_eq_none h] at hj
        cases hj
    exact Nat.mod_eq_of_lt (by omega)
  · obtain ⟨state, hstate⟩ := runIterations_of_all_run env jobEnv IsCancelled request
      (variantJobInputs jobEnv shaderSourceFileFullPath variantJsonString sources
        shaderSourceDescriptor)
      (jobIterations backends supervariants)
      { response := response, shaderOptionGroupLayout := none, cancelPolls := 0 }
      (by
        intro k hk
        rw [jobIterations_length] at hk
        simpa using hpolls k hk)
      hsteps
    obtain ⟨byproducts, hlength, hproducts⟩ := runIterations_products env jobEnv
      IsCancelled request _ _ _ _ hstate
    refine ⟨byproducts, by rw [hlength, jobIterations_length], ?_⟩
    rw [← hbackends, ← hsupervariants] at hstate
    rw [ProcessShaderVariantJob_of_loop_next c env jobEnv IsCancelled request response
      shaderSourceFileFullPath variantJsonString sources shaderSourceDescriptor state hpath
      hvariant hsources hstate, hproducts]

/-- Witness of C27: the sample job over the backends `dx12` and `vulkan` and the
supervariants 0 (nameless) and 1 (`NoMSAA`): four primary artifacts in backend-major
order, each followed by its byproduct, which is that of the entry point `MainPS` because
the sample environment visits the entry points in the order of their declaration. -/
theorem C27_job_without_failure_visits_every_pair_in_order_witness :
    ((ProcessShaderVariantJob sampleConstants (sampleEnv twoVariantList true false)
        (sampleJobEnv sampleVariant [sampleBackend "dx12" 0, sampleBackend "vulkan" 1]
          [{ m_name := "" }, { m_name := "NoMSAA" }] [])
        (fun _ => false) sampleJobRequest emptyJobResponse).toOption.map
      (fun result => (result.m_resultCode,
        result.m_outputProducts.map (fun product => product.m_productFileName))))
      = some (ProcessJobResultCode.Success,
          ["/tmp/a_dx12_5.azshadervariant2", "/tmp/a_dx12_5.hlsl.MainPS.pdb",
           "/tmp/aNoMSAA_dx12_5.azshadervariant2", "/tmp/aNoMSAA_dx12_5.hlsl.MainPS.pdb",
           "/tmp/a_vulkan_5.azshadervariant2", "/tmp/a_vulkan_5.hlsl.MainPS.pdb",
           "/tmp/aNoMSAA_vulkan_5.azshadervariant2",
           "/tmp/aNoMSAA_vulkan_5.hlsl.MainPS.pdb"]) := by
  have hrun : runIterations (sampleEnv twoVariantList true false)
      (sampleJobEnv sampleVariant [sampleBackend "dx12" 0, sampleBackend "vulkan" 1]
        [{ m_name := "" }, { m_name := "NoMSAA" }] [])
      (fun _ => false) sampleJobRequest
      (variantJobInputs
        (sampleJobEnv sampleVariant [sampleBackend "dx12" 0, sampleBackend "vulkan" 1]
          [{ m_name := "" }, { m_name := "NoMSAA" }] [])
        "/s/a.shader" "StableId 5" { m_azslSourceFullPath := "/s/a.azsl" }
        { m_source := "a.azsl"
          m_programSettings :=
            { m_entryPoints := [{ m_name := "MainVS", m_type := 0 },
                                { m_name := "MainPS", m_type := 1 }] }
          m_compiler := "" })
      (jobIterations [sampleBackend "dx12" 0, sampleBackend "vulkan" 1]
        [{ m_name := "" }, { m_name := "NoMSAA" }])
      { response := emptyJobResponse, shaderOptionGroupLayout := none, cancelPolls := 0 }
      = .next _ := rfl
  obtain ⟨byproducts, -, hresult⟩ :=
    (C27_job_without_failure_visits_every_pair_in_order sampleConstants
      (sampleEnv twoVariantList true false)
      (sampleJobEnv sampleVariant [sampleBackend "dx12" 0, sampleBackend "vulkan" 1]
        [{ m_name := "" }, { m_name := "NoMSAA" }] [])
      (fun _ => false) sampleJobRequest emptyJobResponse "/s/a.shader" "StableId 5"
      { m_azslSourceFullPath := "/s/a.azsl" } _
      [sampleBackend "dx12" 0, sampleBackend "vulkan" 1]
      [{ m_name := "" }, { m_name := "NoMSAA" }] rfl rfl rfl rfl rfl (fun _ _ => rfl)
      (runIterations_next_steps_run _ _ _ _ _ _ _ _ hrun)).2.2
  rfl

/-! ## Claims on the job parameters across the two phases -/

theorem treeJobDescriptor_parameters (c : BuilderConstants) (env : BuilderEnv)
    (listPath : String) (list : ShaderVariantListSourceData) (path : String)
    (info : PlatformInfo) :
    (treeJobDescriptor c env listPath list path info).m_jobParameters
        = [(c.ShaderSourceFilePathJobParam, path)]
      ∧ (treeJobDescriptor c env listPath list path info).m_jobKey
          = c.GetShaderVariantTreeAssetJobKey := by
  unfold treeJobDescriptor
  simp [AddShaderAssetJobDependency2_eq, JobParameterMap.emplace, JobParameterMap.find,
    List.lookup]

theorem variantJobDescriptor_parameters (c : BuilderConstants) (env : BuilderEnv)
    (listPath path : String) (info : PlatformInfo) (variantInfo : VariantInfo) :
    (variantJobDescriptor c env listPath path info variantInfo).m_jobParameters
      = if c.ShaderSourceFilePathJobParam = c.ShaderVariantJobVariantParam then
          [(c.ShaderVariantJobVariantParam, (env.SaveObjectToJsonString variantInfo).2)]
        else
          [(c.ShaderVariantJobVariantParam, (env.SaveObjectToJsonString variantInfo).2),
           (c.ShaderSourceFilePathJobParam, path)] := by
  unfold variantJobDescriptor
  by_cases h : c.ShaderSourceFilePathJobParam = c.ShaderVariantJobVariantParam
  · simp [JobParameterMap.emplace, JobParameterMap.find, List.lookup, h]
  · have hbeq : (c.ShaderSourceFilePathJobParam == c.ShaderVariantJobVariantParam) = false := by
      simpa using h
    simp [JobParameterMap.emplace, JobParameterMap.find, List.lookup, h, hbeq]

theorem dependencyOnlyJobDescriptor_parameters (c : BuilderConstants) (env : BuilderEnv)
    (loadResult : LoadResult2) (exit : Bool) (listPath : String)
    (list : ShaderVariantListSourceData) (info : PlatformInfo) :
    (dependencyOnlyJobDescriptor c env loadResult exit listPath list info).m_jobParameters
      = JobParameterMap.emplace
          (if loadResult.m_code = LoadResult2.Code.DeferredError then
            [(c.ShaderVariantLoadErrorParam, loadResult.m_deferredMessage)]
           else [])
          c.ShouldExitEarlyFromProcessJobParam listPath
        ∧ exit = true
      ∨ (dependencyOnlyJobDescriptor c env loadResult exit listPath list info).m_jobParameters
          = (if loadResult.m_code = LoadResult2.Code.DeferredError then
              [(c.ShaderVariantLoadErrorParam, loadResult.m_deferredMessage)]
             else [])
        ∧ exit = false := by
  unfold dependencyOnlyJobDescriptor
  cases exit with
  | true =>
    left
    refine ⟨?_, rfl⟩
    by_cases h : loadResult.m_code = LoadResult2.Code.DeferredError
    · simp [AddShaderAssetJobDependency2_eq, h, JobParameterMap.emplace,
        JobParameterMap.find, List.lookup]
    · simp [AddShaderAssetJobDependency2_eq, h]
  | false =>
    right
    refine ⟨?_, rfl⟩
    by_cases h : loadResult.m_code = LoadResult2.Code.DeferredError
    · simp [AddShaderAssetJobDependency2_eq, h, JobParameterMap.emplace,
        JobParameterMap.find, List.lookup]
    · simp [AddShaderAssetJobDependency2_eq, h]

theorem mem_normalJobs (c : BuilderConstants) (env : BuilderEnv) (listPath : String)
    (list : ShaderVariantListSourceData) (path : String) (platforms : List PlatformInfo)
    (job : JobDescriptor) (hjob : job ∈ normalJobs c env listPath list path platforms) :
    ∃ info ∈ platforms,
      job = treeJobDescriptor c env listPath list path info
        ∨ ∃ variantInfo ∈ list.m_shaderVariants,
            job = variantJobDescriptor c env listPath path info variantInfo := by
  unfold normalJobs at hjob
  obtain ⟨info, hinfo, hmem⟩ := List.mem_flatMap.1 hjob
  refine ⟨info, hinfo, ?_⟩
  rcases List.mem_cons.1 hmem with h | h
  · exact Or.inl h
  · obtain ⟨variantInfo, hv, rfl⟩ := List.mem_map.1 h
    exact Or.inr ⟨variantInfo, hv, rfl⟩

theorem CreateJobs_ok_load (c : BuilderConstants) (env : BuilderEnv)
    (request : CreateJobsRequest) (response response' : CreateJobsResponse)
    (hcreate : CreateJobs c env request response = .ok response') :
    ∃ (loadResult : LoadResult2) (list : ShaderVariantListSourceData) (path : String)
      (exit : Bool),
      LoadShaderVariantList2 c env
        (env.ConstructFull request.m_watchFolder request.m_sourceFile true) {} "" false
        = .ok (loadResult, list, path, exit) := by
  cases hload : LoadShaderVariantList2 c env
      (env.ConstructFull request.m_watchFolder request.m_sourceFile true) {} "" false with
  | error e =>
    unfold CreateJobs at hcreate
    simp [hload] at hcreate
  | ok result =>
    obtain ⟨loadResult, list, path, exit⟩ := result
    exact ⟨loadResult, list, path, exit, rfl⟩

theorem ProcessShaderVariantTreeJob_finds_its_key (c : BuilderConstants) (env : BuilderEnv)
    (jobEnv : JobEnv) (treeEnv : TreeJobEnv) (request : ProcessJobRequest)
    (response : ProcessJobResponse) (key : String)
    (hpath : (JobParameterMap.find request.m_jobDescription.m_jobParameters
      c.ShaderSourceFilePathJobParam).isSome) :
    ProcessShaderVariantTreeJob c env jobEnv treeEnv request response
      ≠ .error (Fault.keyNotFound key) := by
  obtain ⟨path, hpath⟩ := Option.isSome_iff_exists.1 hpath
  unfold ProcessShaderVariantTreeJob
  simp only [JobParameterMap.atKey, hpath]
  split
  · simp
  · split
    · simp
    · split_ifs
      · simp
      · split <;> try simp
        split_ifs <;> simp

theorem variantIteration_fault (env : BuilderEnv) (jobEnv : JobEnv)
    (IsCancelled : Nat → Bool) (request : ProcessJobRequest) (inputs : VariantJobInputs)
    (shaderPlatformInterface : ShaderPlatformInterface) (supervariantIndex : Nat)
    (supervariantInfo : SupervariantInfo) (state : VariantJobState) (fault : Fault)
    (hfault : variantIteration env jobEnv IsCancelled request inputs shaderPlatformInterface
      supervariantIndex supervariantInfo state = .fault fault) :
    fault = Fault.nullDereference := by
  unfold variantIteration at hfault
  simp only [] at hfault
  cases hcancel : IsCancelled state.cancelPolls with
  | true => simp [hcancel] at hfault
  | false =>
    simp only [hcancel, Bool.false_eq_true, if_false] at hfault
    cases hlayout : iterationLayout jobEnv request inputs shaderPlatformInterface
        supervariantIndex state with
    | none => simp [hlayout] at hfault
    | some layout =>
      simp only [hlayout] at hfault
      split_ifs at hfault with hfunctions hhlsl
      cases hcreate : (CreateShaderVariantAsset env jobEnv inputs.variantInfo
          (iterationContext jobEnv request inputs shaderPlatformInterface supervariantIndex
            supervariantInfo layout
            (LoadShaderFunctionsFromShaderAssetBuilder2 jobEnv shaderPlatformInterface
              request.m_platformInfo inputs.azslc inputs.shaderSourceFileFullPath
              supervariantIndex [])
            (LoadHlslFileFromShaderAssetBuilder2 jobEnv shaderPlatformInterface
              request.m_platformInfo inputs.shaderSourceFileFullPath supervariantIndex "").1
            (LoadHlslFileFromShaderAssetBuilder2 jobEnv shaderPlatformInterface
              request.m_platformInfo inputs.shaderSourceFileFullPath supervariantIndex "").2)
          none).outcome with
      | error message => simp [hcreate] at hfault
      | ok handle =>
        cases handle with
        | none =>
          simp only [hcreate, LoopStep.fault.injEq] at hfault
          exact hfault.symm
        | some shaderVariantAsset =>
          simp only [hcreate] at hfault
          split at hfault <;> cases hfault

theorem runIterations_fault (env : BuilderEnv) (jobEnv : JobEnv) (IsCancelled : Nat → Bool)
    (request : ProcessJobRequest) (inputs : VariantJobInputs)
    (iterations : List (ShaderPlatformInterface × Nat × SupervariantInfo))
    (state : VariantJobState) (fault : Fault)
    (hfault : runIterations env jobEnv IsCancelled request inputs iterations state
      = .fault fault) :
    fault = Fault.nullDereference := by
  induction iterations generalizing state with
  | nil => simp [runIterations] at hfault
  | cons iteration rest ih =>
    rw [runIterations_cons] at hfault
    cases hstep : variantIteration env jobEnv IsCancelled request inputs iteration.1
        iteration.2.1 iteration.2.2 state with
    | done response => simp [hstep] at hfault
    | fault found =>
      simp only [hstep, LoopStep.fault.injEq] at hfault
      rw [← hfault]
      exact variantIteration_fault env jobEnv IsCancelled request inputs _ _ _ _ _ hstep
    | next middle =>
      simp only [hstep] at hfault
      exact ih middle hfault

theorem ProcessShaderVariantJob_finds_its_keys (c : BuilderConstants) (env : BuilderEnv)
    (jobEnv : JobEnv) (IsCancelled : Nat → Bool) (request : ProcessJobRequest)
    (response : ProcessJobResponse) (key : String)
    (hpath : (JobParameterMap.find request.m_jobDescription.m_jobParameters
      c.ShaderSourceFilePathJobParam).isSome)
    (hvariant : (JobParameterMap.find request.m_jobDescription.m_jobParameters
      c.ShaderVariantJobVariantParam).isSome) :
    ProcessShaderVariantJob c env jobEnv IsCancelled request response
      ≠ .error (Fault.keyNotFound key) := by
  obtain ⟨path, hpath⟩ := Option.isSome_iff_exists.1 hpath
  obtain ⟨json, hvariant⟩ := Option.isSome_iff_exists.1 hvariant
  unfold ProcessShaderVariantJob
  simp only [JobParameterMap.atKey, hpath, hvariant, backendLoop_eq_runIterations]
  split
  · simp
  · split_ifs
    · simp
    · split
      · simp
      · rename_i found hfound
        rw [runIterations_fault env jobEnv IsCancelled request _ _ _ _ hfound]
        simp
      · simp

theorem find_pair_self (key value : String) :
    JobParameterMap.find [(key, value)] key = some value := by
  simp [JobParameterMap.find, List.lookup]

theorem find_pair_of_ne (key other value : String) (hne : key ≠ other) :
    JobParameterMap.find [(other, value)] key = none := by
  have hbeq : (key == other) = false := by simpa using hne
  simp [JobParameterMap.find, List.lookup, hbeq]

theorem find_two_pairs (first second key v1 v2 : String) :
    JobParameterMap.find [(first, v1), (second, v2)] key
      = if key = first then some v1 else if key = second then some v2 else none := by
  by_cases h1 : key = first
  · subst h1
    simp [JobParameterMap.find, List.lookup]
  · have hbeq1 : (key == first) = false := by simpa using h1
    by_cases h2 : key = second
    · subst h2
      simp [JobParameterMap.find, List.lookup, hbeq1, h1]
    · have hbeq2 : (key == second) = false := by simpa using h2
      simp [JobParameterMap.find, List.lookup, hbeq1, hbeq2, h1, h2]

/-- C28: every job that `CreateJobs` emits and that carries neither the deferred-error nor
the early-exit parameter holds the shader-source-path parameter, and holds the serialized
`VariantInfo` parameter too when its job key is not the tree job key. So on a request made
from such a job the `at` lookup of `ProcessShaderVariantTreeJob` finds its key, and when
the job key is not the tree job key the two `at` lookups of `ProcessShaderVariantJob` find
theirs: neither function ends on a missing key. -/
theorem C28_emitted_jobs_hold_the_parameters_looked_up (c : BuilderConstants)
    (env : BuilderEnv) (jobEnv : JobEnv) (treeEnv : TreeJobEnv) (IsCancelled : Nat → Bool)
    (request : CreateJobsRequest) (response response' : CreateJobsResponse)
    (hcreate : CreateJobs c env request response = .ok response') :
    ∃ emitted : List JobDescriptor,
      response'.m_createJobOutputs = response.m_createJobOutputs ++ emitted
      ∧ ∀ job ∈ emitted,
          JobParameterMap.find job.m_jobParameters c.ShaderVariantLoadErrorParam = none →
          JobParameterMap.find job.m_jobParameters c.ShouldExitEarlyFromProcessJobParam
            = none →
          (JobParameterMap.find job.m_jobParameters c.ShaderSourceFilePathJobParam).isSome
          ∧ (job.m_jobKey ≠ c.GetShaderVariantTreeAssetJobKey →
              (JobParameterMap.find job.m_jobParameters
                c.ShaderVariantJobVariantParam).isSome)
          ∧ ∀ (processRequest : ProcessJobRequest) (processResponse : ProcessJobResponse)
              (key : String),
              processRequest.m_jobDescription = job →
              ProcessShaderVariantTreeJob c env jobEnv treeEnv processRequest processResponse
                ≠ .error (Fault.keyNotFound key)
              ∧ (job.m_jobKey ≠ c.GetShaderVariantTreeAssetJobKey →
                  ProcessShaderVariantJob c env jobEnv IsCancelled processRequest
                    processResponse ≠ .error (Fault.keyNotFound key)) := by
  obtain ⟨loadResult, list, path, exit, hload⟩ := CreateJobs_ok_load c env request response
    response' hcreate
  have hpresent : ∀ job : JobDescriptor,
      (JobParameterMap.find job.m_jobParameters c.ShaderSourceFilePathJobParam).isSome →
      (job.m_jobKey ≠ c.GetShaderVariantTreeAssetJobKey →
        (JobParameterMap.find job.m_jobParameters c.ShaderVariantJobVariantParam).isSome) →
      (JobParameterMap.find job.m_jobParameters c.ShaderSourceFilePathJobParam).isSome
      ∧ (job.m_jobKey ≠ c.GetShaderVariantTreeAssetJobKey →
          (JobParameterMap.find job.m_jobParameters
            c.ShaderVariantJobVariantParam).isSome)
      ∧ ∀ (processRequest : ProcessJobRequest) (processResponse : ProcessJobResponse)
          (key : String),
          processRequest.m_jobDescription = job →
          ProcessShaderVariantTreeJob c env jobEnv treeEnv processRequest processResponse
            ≠ .error (Fault.keyNotFound key)
          ∧ (job.m_jobKey ≠ c.GetShaderVariantTreeAssetJobKey →
              ProcessShaderVariantJob c env jobEnv IsCancelled processRequest
                processResponse ≠ .error (Fault.keyNotFound key)) := by
    intro job hs hv
    refine ⟨hs, hv, ?_⟩
    intro processRequest processResponse key hjob
    subst hjob
    exact ⟨ProcessShaderVariantTreeJob_finds_its_key c env jobEnv treeEnv _ _ key hs,
      fun hkey => ProcessShaderVariantJob_finds_its_keys c env jobEnv IsCancelled _ _ key hs
        (hv hkey)⟩
  rw [CreateJobs_of_load c env request response _ _ _ _ hload] at hcreate
  split_ifs at hcreate with herror hdeferred
  · refine ⟨[], ?_, by simp⟩
    simp only [Except.ok.injEq] at hcreate
    rw [← hcreate]
    simp
  · refine ⟨request.m_enabledPlatforms.map
      (dependencyOnlyJobDescriptor c env loadResult exit
        (env.ConstructFull request.m_watchFolder request.m_sourceFile true) list), ?_, ?_⟩
    · simp only [Except.ok.injEq] at hcreate
      rw [← hcreate]
    · intro job hjob hnoError hnoExit
      exfalso
      obtain ⟨info, -, rfl⟩ := List.mem_map.1 hjob
      cases hexit : exit with
      | true =>
        subst hexit
        rw [dependencyOnlyJobDescriptor_exit_param c env loadResult _ list info
          (load_exit_code c env _ _ _ _ _ _ hload)] at hnoExit
        cases hnoExit
      | false =>
        subst hexit
        have hcode : loadResult.m_code = LoadResult2.Code.DeferredError := by
          rcases hdeferred with h | h
          · exact h
          · cases h
        rw [dependencyOnlyJobDescriptor_deferred_param c env loadResult _ list info hcode]
          at hnoError
        cases hnoError
  · refine ⟨normalJobs c env
      (env.ConstructFull request.m_watchFolder request.m_sourceFile true) list path
      request.m_enabledPlatforms, ?_, ?_⟩
    · simp only [Except.ok.injEq] at hcreate
      rw [← hcreate]
    · intro job hjob _ _
      apply hpresent
      · obtain ⟨info, -, h | ⟨variantInfo, -, h⟩⟩ := mem_normalJobs c env _ _ _ _ job hjob
        · rw [h, (treeJobDescriptor_parameters c env _ _ _ _).1, find_pair_self]
          rfl
        · rw [h, variantJobDescriptor_parameters]
          split_ifs with hsame
          · rw [hsame, find_pair_self]
            rfl
          · rw [find_two_pairs]
            simp [hsame]
      · intro hkey
        obtain ⟨info, -, h | ⟨variantInfo, -, h⟩⟩ := mem_normalJobs c env _ _ _ _ job hjob
        · rw [h, (treeJobDescriptor_parameters c env _ _ _ _).2] at hkey
          exact absurd rfl hkey
        · rw [h, variantJobDescriptor_parameters]
          split_ifs with hsame
          · rw [find_pair_self]
            rfl
          · rw [find_two_pairs]
            simp

/-- Witness of C28: the jobs that `CreateJobs` emits for the sample list, two platforms
with a tree job and two variant jobs each. -/
theorem C28_emitted_jobs_hold_the_parameters_looked_up_witness :
    ∃ (response' : CreateJobsResponse) (emitted : List JobDescriptor),
      CreateJobs sampleConstants (sampleEnv twoVariantList true false) sampleRequest
          emptyResponse = .ok response'
      ∧ response'.m_createJobOutputs = emptyResponse.m_createJobOutputs ++ emitted
      ∧ emitted.length = 6
      ∧ ∀ job ∈ emitted,
          JobParameterMap.find job.m_jobParameters "ShaderVariantLoadError" = none →
          JobParameterMap.find job.m_jobParameters "ShouldExitEarlyFromProcessJob" = none →
          (JobParameterMap.find job.m_jobParameters "ShaderSourceFilePath").isSome := by
  have hcreate : CreateJobs sampleConstants (sampleEnv twoVariantList true false)
      sampleRequest emptyResponse = .ok _ := rfl
  obtain ⟨emitted, hemitted, hjobs⟩ :=
    C28_emitted_jobs_hold_the_parameters_looked_up sampleConstants
      (sampleEnv twoVariantList true false) (sampleJobEnv sampleVariant [] [] [])
      sampleTreeJobEnv (fun _ => false) sampleRequest emptyResponse _ hcreate
  refine ⟨_, emitted, hcreate, hemitted, ?_, fun job hjob h1 h2 => (hjobs job hjob h1 h2).1⟩
  have hlength := congrArg List.length hemitted
  simpa [emptyResponse] using hlength.symm

/-- C29: as long as the four job parameter keys that the builder uses keep the two
markers apart from each other and from the two data parameters, no job that `CreateJobs`
emits carries both the deferred-error and the early-exit parameter. `LoadShaderVariantList2`
called with the flag cleared, as `CreateJobs` calls it, never returns `DeferredError` with
`shouldExitEarlyFromProcessJob` set, so a dependency-only job gets one of the two markers
and never the other; and the jobs emitted in the normal path carry neither. -/
theorem C29_markers_are_mutually_exclusive (c : BuilderConstants) (env : BuilderEnv)
    (request : CreateJobsRequest) (response response' : CreateJobsResponse)
    (hmarkers : c.ShaderVariantLoadErrorParam ≠ c.ShouldExitEarlyFromProcessJobParam)
    (hpathError : c.ShaderSourceFilePathJobParam ≠ c.ShaderVariantLoadErrorParam)
    (hpathExit : c.ShaderSourceFilePathJobParam ≠ c.ShouldExitEarlyFromProcessJobParam)
    (hvariantError : c.ShaderVariantJobVariantParam ≠ c.ShaderVariantLoadErrorParam)
    (hvariantExit : c.ShaderVariantJobVariantParam ≠ c.ShouldExitEarlyFromProcessJobParam)
    (hcreate : CreateJobs c env request response = .ok response') :
    (∀ (listPath : String) (list0 : ShaderVariantListSourceData) (path0 : String)
        (loadResult : LoadResult2) (list : ShaderVariantListSourceData) (path : String)
        (exit : Bool),
        LoadShaderVariantList2 c env listPath list0 path0 false
          = .ok (loadResult, list, path, exit) →
        ¬ (loadResult.m_code = LoadResult2.Code.DeferredError ∧ exit = true))
      ∧ ∃ (loadResult : LoadResult2) (list : ShaderVariantListSourceData) (path : String)
          (exit : Bool) (emitted : List JobDescriptor),
          LoadShaderVariantList2 c env
              (env.ConstructFull request.m_watchFolder request.m_sourceFile true) {} "" false
            = .ok (loadResult, list, path, exit)
          ∧ response'.m_createJobOutputs = response.m_createJobOutputs ++ emitted
          ∧ (∀ job ∈ emitted,
              ¬ ((JobParameterMap.find job.m_jobParameters
                    c.ShaderVariantLoadErrorParam).isSome
                ∧ (JobParameterMap.find job.m_jobParameters
                    c.ShouldExitEarlyFromProcessJobParam).isSome))
          ∧ (loadResult.m_code = LoadResult2.Code.Success → exit = false →
              ∀ job ∈ emitted,
                JobParameterMap.find job.m_jobParameters c.ShaderVariantLoadErrorParam
                    = none
                ∧ JobParameterMap.find job.m_jobParameters
                    c.ShouldExitEarlyFromProcessJobParam = none) := by
  have hexclusive : ∀ (listPath : String) (list0 : ShaderVariantListSourceData)
      (path0 : String) (loadResult : LoadResult2) (list : ShaderVariantListSourceData)
      (path : String) (exit : Bool),
      LoadShaderVariantList2 c env listPath list0 path0 false
        = .ok (loadResult, list, path, exit) →
      ¬ (loadResult.m_code = LoadResult2.Code.DeferredError ∧ exit = true) := by
    intro listPath list0 path0 loadResult list path exit hload hboth
    obtain ⟨hcode, hexit⟩ := hboth
    subst hexit
    rw [load_exit_code c env _ _ _ _ _ _ hload] at hcode
    cases hcode
  refine ⟨hexclusive, ?_⟩
  obtain ⟨loadResult, list, path, exit, hload⟩ := CreateJobs_ok_load c env request response
    response' hcreate
  have hnormal : ∀ job ∈ normalJobs c env
      (env.ConstructFull request.m_watchFolder request.m_sourceFile true) list path
      request.m_enabledPlatforms,
      JobParameterMap.find job.m_jobParameters c.ShaderVariantLoadErrorParam = none
      ∧ JobParameterMap.find job.m_jobParameters c.ShouldExitEarlyFromProcessJobParam
          = none := by
    intro job hjob
    obtain ⟨info, -, h | ⟨variantInfo, -, h⟩⟩ := mem_normalJobs c env _ _ _ _ job hjob
    · rw [h, (treeJobDescriptor_parameters c env _ _ _ _).1]
      exact ⟨find_pair_of_ne _ _ _ (Ne.symm hpathError),
        find_pair_of_ne _ _ _ (Ne.symm hpathExit)⟩
    · rw [h, variantJobDescriptor_parameters]
      split_ifs with hsame
      · exact ⟨find_pair_of_ne _ _ _ (Ne.symm hvariantError),
          find_pair_of_ne _ _ _ (Ne.symm hvariantExit)⟩
      · rw [find_two_pairs, find_two_pairs]
        simp [Ne.symm hvariantError, Ne.symm hvariantExit, Ne.symm hpathError,
          Ne.symm hpathExit]
  rw [CreateJobs_of_load c env request response _ _ _ _ hload] at hcreate
  split_ifs at hcreate with herror hdeferred
  · refine ⟨loadResult, list, path, exit, [], hload, ?_, by simp, by simp⟩
    simp only [Except.ok.injEq] at hcreate
    rw [← hcreate]
    simp
  · refine ⟨loadResult, list, path, exit,
      request.m_enabledPlatforms.map
        (dependencyOnlyJobDescriptor c env loadResult exit
          (env.ConstructFull request.m_watchFolder request.m_sourceFile true) list),
      hload, ?_, ?_, ?_⟩
    · simp only [Except.ok.injEq] at hcreate
      rw [← hcreate]
    · intro job hjob hboth
      obtain ⟨info, -, rfl⟩ := List.mem_map.1 hjob
      rcases dependencyOnlyJobDescriptor_parameters c env loadResult exit
          (env.ConstructFull request.m_watchFolder request.m_sourceFile true) list info
        with ⟨hparams, hexit⟩ | ⟨hparams, hexit⟩
      · subst hexit
        have hcode := load_exit_code c env _ _ _ _ _ _ hload
        rw [hparams, hcode] at hboth
        simp [JobParameterMap.emplace, JobParameterMap.find, List.lookup,
          find_pair_of_ne] at hboth
        have hbeq : (c.ShaderVariantLoadErrorParam == c.ShouldExitEarlyFromProcessJobParam)
            = false := by simpa using hmarkers
        simp [hbeq] at hboth
      · rw [hparams] at hboth
        split_ifs at hboth with hcode
        · rw [find_pair_of_ne _ _ _ (Ne.symm hmarkers)] at hboth
          simp at hboth
        · simp [JobParameterMap.find, List.lookup] at hboth
    · intro hcode hexit
      rcases hdeferred with h | h
      · rw [hcode] at h
        cases h
      · rw [hexit] at h
        cases h
  · refine ⟨loadResult, list, path, exit, _, hload, ?_, ?_, fun _ _ => hnormal⟩
    · simp only [Except.ok.injEq] at hcreate
      rw [← hcreate]
    · intro job hjob hboth
      rw [(hnormal job hjob).1] at hboth
      simp at hboth

/-- Witness of C29: the sample list next to a shader file that does not exist; the two
dependency-only jobs carry the deferred-error parameter and not the early-exit one. -/
theorem C29_markers_are_mutually_exclusive_witness :
    ∃ (response' : CreateJobsResponse) (emitted : List JobDescriptor),
      CreateJobs sampleConstants (sampleEnv twoVariantList false false) sampleRequest
          emptyResponse = .ok response'
      ∧ response'.m_createJobOutputs = emptyResponse.m_createJobOutputs ++ emitted
      ∧ emitted.length = 2
      ∧ ∀ job ∈ emitted,
          ¬ ((JobParameterMap.find job.m_jobParameters "ShaderVariantLoadError").isSome
            ∧ (JobParameterMap.find job.m_jobParameters
                "ShouldExitEarlyFromProcessJob").isSome) := by
  have hcreate : CreateJobs sampleConstants (sampleEnv twoVariantList false false)
      sampleRequest emptyResponse = .ok _ := rfl
  obtain ⟨-, _, _, _, _, emitted, -, hemitted, hjobs, -⟩ :=
    C29_markers_are_mutually_exclusive sampleConstants (sampleEnv twoVariantList false false)
      sampleRequest emptyResponse _ (by decide) (by decide) (by decide) (by decide)
      (by decide) hcreate
  refine ⟨_, emitted, hcreate, hemitted, ?_, hjobs⟩
  have hlength := congrArg List.length hemitted
  simpa [emptyResponse] using hlength.symm

end ShaderVariantAssetBuilder2
